import Mathlib

/-!
# Door-circuit bridging self-test (`safemondoor.cpp`)

A shallow embedding of `SafeMon::MC2XDoorTestOK` and of the condition tables it
walks, followed by theorems about the embedding.

Conventions of the embedding

* `uint8`, `uint16` and `uint32` values are natural numbers.  The only
  arithmetic the function performs on them is `&`, `|`, `>>` and comparison,
  none of which can leave the width of its operands, so no reduction modulo
  `2^w` is needed.  `~DONTCARE_MASK` is written as the literal `0x55555555`
  (the complement of `0xAAAAAAAA` in 32 bits).
* A `DOOR_SS_STAT *` is the array it points to (a list that still contains the
  `0xFFFF` terminator row) or `none` for `NULL`; these pointers are only tested
  against `NULL` and indexed.
* A `DOOR_SS_CHECK *` is a pair of the array it points into and an index,
  because `ssCheck` is compared by address and `ssCur` is incremented.
* Reading through `NULL` or past the end of an array has no defined result:
  the step function returns `none` there.
* The collaborators that are not part of the file (door sensors, `SafeStr`,
  `TenthsTimer::Finished`) are inputs of a step; the things the function
  writes (`TracDvr::SetDCTR`, `oDK9`, `oDK10`, `ErrrHdlr::PutError`) are fields
  of the state.
-/

namespace SafeMonDoor

/-! ## Definitions (lines 83-107) -/

def _ON : Nat := 0x1
def _FF : Nat := 0x0
def _XX : Nat := 0x2
def DONTCARE : Nat := _XX

def SS_COND (TK TKD KT KTD : Nat) : Nat :=
  (TK <<< 6) ||| (TKD <<< 4) ||| (KT <<< 2) ||| (KTD <<< 0)

def SS_GET_TK (X : Nat) : Nat := (X >>> 6) &&& 0x3
def SS_GET_TKD (X : Nat) : Nat := (X >>> 4) &&& 0x3
def SS_GET_KT (X : Nat) : Nat := (X >>> 2) &&& 0x3
def SS_GET_KTD (X : Nat) : Nat := (X >>> 0) &&& 0x3

def BRG_COND (A B C D E F G H I J : Nat) : Nat :=
  (A <<< (2*9)) ||| (B <<< (2*8)) ||| (C <<< (2*7)) ||| (D <<< (2*6)) ||| (E <<< (2*5)) |||
  (F <<< (2*4)) ||| (G <<< (2*3)) ||| (H <<< (2*2)) ||| (I <<< (2*1)) ||| (J <<< (2*0))

def IS_BRIDGE (X : Nat) : Nat := if (DONTCARE &&& X) = DONTCARE then 0 else X

def GET_BRG_1 (X : Nat) : Nat := (X >>> (2*9)) &&& 0x3
def GET_BRG_2 (X : Nat) : Nat := (X >>> (2*8)) &&& 0x3
def GET_BRG_3 (X : Nat) : Nat := (X >>> (2*7)) &&& 0x3
def GET_BRG_4 (X : Nat) : Nat := (X >>> (2*6)) &&& 0x3
def GET_BRG_5 (X : Nat) : Nat := (X >>> (2*5)) &&& 0x3
def GET_BRG_6 (X : Nat) : Nat := (X >>> (2*4)) &&& 0x3
def GET_BRG_7 (X : Nat) : Nat := (X >>> (2*3)) &&& 0x3
def GET_BRG_8 (X : Nat) : Nat := (X >>> (2*2)) &&& 0x3
def GET_BRG_9 (X : Nat) : Nat := (X >>> (2*1)) &&& 0x3
def GET_BRG_A (X : Nat) : Nat := (X >>> (2*0)) &&& 0x3

/-! ## Table types (lines 109-128) -/

structure DOOR_SS_STAT where
  safetyString : Nat
  bridgeCond : Nat
  deriving DecidableEq

structure DOOR_SS_CHECK where
  ss : Option (List DOOR_SS_STAT)
  bK39 : Nat
  bK9 : Nat
  bK10 : Nat
  deriving DecidableEq

/-- The four `DOOR_SS_CHECK` arrays of the file. -/
inductive CheckArray where
  | FDOLRDOL
  | FDOLRDCL
  | FDCLRDOL
  | FDCLRDOLSingle
  deriving DecidableEq

/-- A `DOOR_SS_CHECK *`: an array and an index into it. -/
structure CheckPtr where
  arr : CheckArray
  idx : Nat
  deriving DecidableEq

structure DOOR_STAT_CHECK where
  ss : Option CheckPtr
  FDOL : Nat
  RDOL : Nat
  deriving DecidableEq

/-! ## Condition tables (lines 174-365) -/

/-- The `{0xFFFF, 0xFFFFFFFF}` row that ends every `DOOR_SS_STAT` array. -/
def endRow : DOOR_SS_STAT := ⟨0xFFFF, 0xFFFFFFFF⟩

def ssCheckFDOLRDOL_COO : List DOOR_SS_STAT :=
  [ ⟨SS_COND _FF _FF _FF _ON, BRG_COND _FF _FF _FF _ON _ON _ON _FF _ON _FF _FF⟩,
    ⟨SS_COND _FF _FF _ON _ON, BRG_COND _FF _FF _ON _ON _ON _FF _FF _FF _FF _ON⟩,
    ⟨SS_COND _FF _ON _FF _ON, BRG_COND _FF _ON _FF _ON _FF _FF _FF _FF _ON _FF⟩,
    ⟨SS_COND _FF _ON _ON _ON, BRG_COND _FF _ON _ON _ON _FF _FF _FF _ON _ON _ON⟩,
    ⟨SS_COND _ON _FF _FF _ON, BRG_COND _ON _FF _FF _ON _FF _FF _ON _FF _FF _FF⟩,
    ⟨SS_COND _ON _FF _ON _ON, BRG_COND _ON _FF _ON _ON _FF _ON _ON _FF _FF _ON⟩,
    ⟨SS_COND _ON _ON _FF _ON, BRG_COND _ON _ON _FF _ON _ON _FF _ON _FF _ON _FF⟩,
    ⟨SS_COND _ON _ON _ON _ON, BRG_COND _ON _ON _ON _ON _ON _ON _ON _ON _ON _ON⟩,
    endRow ]

def ssCheckFDOLRDOL_OOO : List DOOR_SS_STAT :=
  [ ⟨SS_COND _FF _FF _FF _FF, BRG_COND _FF _FF _FF _FF _ON _ON _ON _ON _ON _ON⟩,
    ⟨SS_COND _FF _FF _FF _ON, BRG_COND _FF _FF _FF _ON _ON _ON _FF _ON _FF _FF⟩,
    ⟨SS_COND _FF _FF _ON _FF, BRG_COND _FF _FF _ON _FF _ON _FF _ON _FF _ON _FF⟩,
    ⟨SS_COND _FF _FF _ON _ON, BRG_COND _FF _FF _ON _ON _FF _FF _FF _FF _FF _ON⟩,
    ⟨SS_COND _FF _ON _FF _FF, BRG_COND _FF _ON _FF _FF _FF _ON _ON _FF _FF _ON⟩,
    ⟨SS_COND _FF _ON _FF _ON, BRG_COND _FF _ON _FF _ON _FF _FF _FF _FF _ON _FF⟩,
    ⟨SS_COND _FF _ON _ON _FF, BRG_COND _FF _ON _ON _FF _FF _FF _FF _FF _FF _FF⟩,
    ⟨SS_COND _FF _ON _ON _ON, BRG_COND _FF _ON _ON _ON _FF _FF _FF _ON _ON _ON⟩,
    ⟨SS_COND _ON _FF _FF _FF, BRG_COND _ON _FF _FF _FF _FF _FF _FF _ON _ON _ON⟩,
    ⟨SS_COND _ON _FF _FF _ON, BRG_COND _ON _FF _FF _ON _FF _FF _ON _FF _FF _FF⟩,
    ⟨SS_COND _ON _FF _ON _FF, BRG_COND _ON _FF _ON _FF _FF _ON _FF _FF _FF _FF⟩,
    ⟨SS_COND _ON _FF _ON _ON, BRG_COND _ON _FF _ON _ON _FF _ON _ON _FF _FF _ON⟩,
    ⟨SS_COND _ON _ON _FF _FF, BRG_COND _ON _ON _FF _FF _ON _FF _FF _FF _FF _FF⟩,
    ⟨SS_COND _ON _ON _FF _ON, BRG_COND _ON _ON _FF _ON _ON _FF _ON _FF _ON _FF⟩,
    ⟨SS_COND _ON _ON _ON _FF, BRG_COND _ON _ON _ON _FF _ON _ON _FF _ON _FF _FF⟩,
    ⟨SS_COND _ON _ON _ON _ON, BRG_COND _ON _ON _ON _ON _ON _ON _ON _ON _ON _ON⟩,
    endRow ]

def ssCheckFDOLRDOL_OCO : List DOOR_SS_STAT :=
  [ ⟨SS_COND _ON _FF _FF _FF, BRG_COND _ON _ON _ON _ON _FF _FF _FF _ON _ON _ON⟩,
    ⟨SS_COND _ON _FF _FF _ON, BRG_COND _ON _FF _FF _FF _FF _FF _ON _ON _FF _FF⟩,
    ⟨SS_COND _ON _FF _ON _FF, BRG_COND _ON _FF _ON _FF _FF _ON _FF _FF _FF _FF⟩,
    ⟨SS_COND _ON _FF _ON _ON, BRG_COND _ON _FF _ON _ON _FF _ON _ON _FF _FF _ON⟩,
    ⟨SS_COND _ON _ON _FF _FF, BRG_COND _ON _ON _FF _FF _ON _FF _FF _FF _FF _FF⟩,
    ⟨SS_COND _ON _ON _FF _ON, BRG_COND _ON _ON _FF _ON _ON _FF _ON _FF _ON _FF⟩,
    ⟨SS_COND _ON _ON _ON _FF, BRG_COND _ON _ON _ON _FF _ON _ON _FF _ON _FF _FF⟩,
    ⟨SS_COND _ON _ON _ON _ON, BRG_COND _ON _ON _ON _ON _ON _ON _ON _ON _ON _ON⟩,
    endRow ]

def ssCheckFDOLRDOL_OOC : List DOOR_SS_STAT :=
  [ ⟨SS_COND _FF _FF _ON _FF, BRG_COND _ON _ON _ON _ON _ON _FF _ON _FF _ON _FF⟩,
    ⟨SS_COND _FF _FF _ON _ON, BRG_COND _FF _FF _ON _ON _FF _FF _FF _FF _FF _ON⟩,
    ⟨SS_COND _FF _ON _ON _FF, BRG_COND _FF _ON _ON _FF _FF _FF _FF _ON _FF _FF⟩,
    ⟨SS_COND _FF _ON _ON _ON, BRG_COND _FF _ON _ON _ON _FF _FF _FF _ON _ON _ON⟩,
    ⟨SS_COND _ON _FF _ON _FF, BRG_COND _ON _FF _ON _FF _FF _ON _FF _FF _FF _FF⟩,
    ⟨SS_COND _ON _FF _ON _ON, BRG_COND _ON _FF _ON _ON _FF _ON _ON _FF _FF _ON⟩,
    ⟨SS_COND _ON _ON _ON _FF, BRG_COND _ON _ON _ON _FF _ON _ON _FF _ON _FF _FF⟩,
    ⟨SS_COND _ON _ON _ON _ON, BRG_COND _ON _ON _ON _ON _ON _ON _ON _ON _ON _ON⟩,
    endRow ]

def ssCheckFDOLRDOL : List DOOR_SS_CHECK :=
  [ ⟨some ssCheckFDOLRDOL_COO, _ON, _FF, _FF⟩,
    ⟨some ssCheckFDOLRDOL_OOO, _FF, _FF, _FF⟩,
    ⟨some ssCheckFDOLRDOL_OCO, _FF, _ON, _FF⟩,
    ⟨some ssCheckFDOLRDOL_OOC, _FF, _FF, _ON⟩,
    ⟨none, _XX, _XX, _XX⟩ ]

def ssCheckFDOLRDCL_COO : List DOOR_SS_STAT :=
  [ ⟨SS_COND _FF _FF _ON _ON, BRG_COND _FF _FF _ON _ON _XX _FF _FF _FF _FF _XX⟩,
    ⟨SS_COND _ON _ON _ON _ON, BRG_COND _ON _ON _ON _ON _XX _ON _ON _ON _ON _XX⟩,
    endRow ]

def ssCheckFDOLRDCL_OOO : List DOOR_SS_STAT :=
  [ ⟨SS_COND _FF _FF _FF _FF, BRG_COND _FF _FF _FF _FF _XX _ON _ON _ON _ON _XX⟩,
    ⟨SS_COND _FF _FF _ON _ON, BRG_COND _FF _FF _ON _ON _XX _FF _FF _FF _FF _XX⟩,
    ⟨SS_COND _ON _ON _FF _FF, BRG_COND _ON _ON _FF _FF _XX _FF _FF _FF _FF _XX⟩,
    ⟨SS_COND _ON _ON _ON _ON, BRG_COND _ON _ON _ON _ON _XX _ON _ON _ON _ON _XX⟩,
    endRow ]

def ssCheckFDOLRDCL_OCO : List DOOR_SS_STAT :=
  [ ⟨SS_COND _ON _ON _FF _FF, BRG_COND _ON _ON _FF _FF _XX _FF _FF _FF _FF _XX⟩,
    ⟨SS_COND _ON _ON _ON _ON, BRG_COND _ON _ON _ON _ON _XX _ON _ON _ON _ON _XX⟩,
    endRow ]

def ssCheckFDOLRDCL_OOC : List DOOR_SS_STAT :=
  [ ⟨SS_COND _FF _FF _ON _ON, BRG_COND _FF _FF _ON _ON _XX _FF _FF _FF _FF _XX⟩,
    ⟨SS_COND _ON _ON _ON _ON, BRG_COND _ON _ON _ON _ON _XX _ON _ON _ON _ON _XX⟩,
    endRow ]

def ssCheckFDOLRDCL : List DOOR_SS_CHECK :=
  [ ⟨some ssCheckFDOLRDCL_COO, _ON, _FF, _FF⟩,
    ⟨some ssCheckFDOLRDCL_OOO, _FF, _FF, _FF⟩,
    ⟨some ssCheckFDOLRDCL_OCO, _FF, _ON, _FF⟩,
    ⟨some ssCheckFDOLRDCL_OOC, _FF, _FF, _ON⟩,
    ⟨none, _XX, _XX, _XX⟩ ]

def ssCheckFDCLRDOL_COO : List DOOR_SS_STAT :=
  [ ⟨SS_COND _ON _FF _FF _ON, BRG_COND _XX _FF _FF _ON _FF _FF _ON _XX _FF _FF⟩,
    ⟨SS_COND _ON _ON _ON _ON, BRG_COND _XX _ON _ON _ON _ON _ON _ON _XX _ON _ON⟩,
    endRow ]

def ssCheckFDCLRDOL_OOO : List DOOR_SS_STAT :=
  [ ⟨SS_COND _ON _FF _FF _FF, BRG_COND _XX _FF _FF _FF _FF _FF _FF _XX _ON _ON⟩,
    ⟨SS_COND _ON _FF _FF _ON, BRG_COND _XX _FF _FF _ON _FF _FF _ON _XX _ON _ON⟩,
    ⟨SS_COND _ON _ON _ON _FF, BRG_COND _XX _ON _ON _FF _ON _ON _FF _XX _ON _ON⟩,
    ⟨SS_COND _ON _ON _ON _ON, BRG_COND _XX _ON _ON _ON _ON _ON _ON _XX _ON _ON⟩,
    endRow ]

def ssCheckFDCLRDOL_OCO : List DOOR_SS_STAT :=
  [ ⟨SS_COND _ON _FF _FF _FF, BRG_COND _XX _FF _FF _FF _FF _FF _FF _XX _ON _ON⟩,
    ⟨SS_COND _ON _FF _FF _ON, BRG_COND _XX _FF _FF _ON _FF _FF _ON _XX _ON _ON⟩,
    ⟨SS_COND _ON _ON _ON _FF, BRG_COND _XX _ON _ON _FF _ON _ON _FF _XX _ON _ON⟩,
    ⟨SS_COND _ON _ON _ON _ON, BRG_COND _XX _ON _ON _ON _ON _ON _ON _XX _ON _ON⟩,
    endRow ]

def ssCheckFDCLRDOL_OOC : List DOOR_SS_STAT :=
  [ ⟨SS_COND _ON _ON _ON _FF, BRG_COND _XX _ON _ON _FF _ON _ON _FF _XX _ON _ON⟩,
    ⟨SS_COND _ON _ON _ON _ON, BRG_COND _XX _ON _ON _ON _ON _ON _ON _XX _ON _ON⟩,
    endRow ]

def ssCheckFDCLRDOL : List DOOR_SS_CHECK :=
  [ ⟨some ssCheckFDCLRDOL_COO, _ON, _FF, _FF⟩,
    ⟨some ssCheckFDCLRDOL_OOO, _FF, _FF, _FF⟩,
    ⟨some ssCheckFDCLRDOL_OCO, _FF, _ON, _FF⟩,
    ⟨some ssCheckFDCLRDOL_OOC, _FF, _FF, _ON⟩,
    ⟨none, _XX, _XX, _XX⟩ ]

def ssCheckFDCLRDOL_CXX : List DOOR_SS_STAT :=
  [ ⟨SS_COND _FF _XX _ON _XX, BRG_COND _FF _FF _ON _XX _XX _XX _XX _XX _XX _XX⟩,
    ⟨SS_COND _ON _XX _ON _XX, BRG_COND _ON _ON _ON _XX _XX _XX _XX _XX _XX _XX⟩,
    endRow ]

def ssCheckFDCLRDOL_OXX : List DOOR_SS_STAT :=
  [ ⟨SS_COND _FF _XX _FF _XX, BRG_COND _FF _ON _FF _XX _XX _XX _XX _XX _XX _XX⟩,
    ⟨SS_COND _FF _XX _ON _XX, BRG_COND _FF _FF _ON _XX _XX _XX _XX _XX _XX _XX⟩,
    ⟨SS_COND _ON _XX _FF _XX, BRG_COND _ON _FF _FF _XX _XX _XX _XX _XX _XX _XX⟩,
    ⟨SS_COND _ON _XX _ON _XX, BRG_COND _ON _ON _ON _XX _XX _XX _XX _XX _XX _XX⟩,
    endRow ]

def ssCheckFDCLRDOLSingle : List DOOR_SS_CHECK :=
  [ ⟨some ssCheckFDCLRDOL_CXX, _ON, _XX, _XX⟩,
    ⟨some ssCheckFDCLRDOL_OXX, _FF, _XX, _XX⟩,
    ⟨none, _XX, _XX, _XX⟩ ]

/-- The contents of each `DOOR_SS_CHECK` array. -/
def checkArray : CheckArray → List DOOR_SS_CHECK
  | .FDOLRDOL => ssCheckFDOLRDOL
  | .FDOLRDCL => ssCheckFDOLRDCL
  | .FDCLRDOL => ssCheckFDCLRDOL
  | .FDCLRDOLSingle => ssCheckFDCLRDOLSingle

def ssDoubleDoor : List DOOR_STAT_CHECK :=
  [ ⟨some ⟨.FDOLRDOL, 0⟩, _ON, _ON⟩,
    ⟨some ⟨.FDOLRDCL, 0⟩, _ON, _FF⟩,
    ⟨some ⟨.FDCLRDOL, 0⟩, _FF, _ON⟩,
    ⟨none, _XX, _XX⟩ ]

def ssSingleDoor : List DOOR_STAT_CHECK :=
  [ ⟨some ⟨.FDCLRDOLSingle, 0⟩, _ON, _XX⟩,
    ⟨none, _XX, _XX⟩ ]

/-! ## The step function `SafeMon::MC2XDoorTestOK` (lines 381-698) -/

inductive CdcState where
  | CDC_IDLE
  | CDC_ARM_TEST
  | CDC_ARM_WAIT
  | CDC_ARM_CHECK
  | CDC_ARM_ERROR_DETECTED
  | CDC_ARM_RETRY_WAIT
  | CDC_ARM_TEST_PASSED
  | CDC_ABORT
  | CDC_END
  deriving DecidableEq

open CdcState

/-- The identifiers handed to `ErrrHdlr::PutError`.  Their numeric values are
declared in `errrhdlr.h`, which is not part of the file; only their being ten
different identifiers is used. -/
inductive ErrId where
  | DOOR_BRIDGED_1
  | DOOR_BRIDGED_2
  | DOOR_BRIDGED_3
  | DOOR_BRIDGED_4
  | DOOR_BRIDGED_5
  | DOOR_BRIDGED_6
  | DOOR_BRIDGED_7
  | DOOR_BRIDGED_8
  | DOOR_BRIDGED_9
  | DOOR_BRIDGED_10
  deriving DecidableEq

open ErrId

def DONTCARE_MASK : Nat := 0xAAAAAAAA
def CDC_ARM_WAIT_TIME : Nat := 3
def CDC_RETRY_WAIT_TIME : Nat := 20

/-- What one call reads from its collaborators: `DoorArb::GetDoorTypeRear()`,
the three sensors of `FDoor` and of `RDoor`, `SafeStr::GetSRFD()`, the four raw
safety-string readings `GetSAF3Raw` (TK), `GetSAF3RRaw` (TKD), `GetSAF4Raw`
(KT), `GetSAF4RRaw` (KTD), and what `delay.Finished()` answers in this call. -/
structure Reading where
  doorTypeRear : Bool
  fOnlineAndReady : Bool
  fDOL : Bool
  fDCL : Bool
  rOnlineAndReady : Bool
  rDOL : Bool
  rDCL : Bool
  SRFD : Bool
  SAF3Raw : Nat
  SAF3RRaw : Nat
  SAF4Raw : Nat
  SAF4RRaw : Nat
  delayFinished : Bool
  deriving DecidableEq

/-- The function's static variables, the two static members of `SafeMon`, and
what the function writes: the argument of the last `TracDvr::SetDCTR`, `oDK9`,
`oDK10`, and the errors passed to `ErrrHdlr::PutError` so far (oldest first).
`delay` is the argument of the last `delay.Init`, `none` before the first. -/
structure State where
  delay : Option Nat
  ssCheck : Option CheckPtr
  ssCur : Option CheckPtr
  Cond : Nat
  testOkay : Bool
  cdc_state : CdcState
  tFDState : Nat
  tRDState : Nat
  pcdc_state : CdcState
  isCarDoorBridged : Bool
  isHallDoorBridged : Bool
  DCTR : Bool
  oDK9 : Bool
  oDK10 : Bool
  errors : List ErrId
  deriving DecidableEq

/-- The initial values of the statics (lines 368-369, 398-407, 430).  The relay
outputs belong to other modules; they start de-energized here. -/
def State.init : State where
  delay := none
  ssCheck := none
  ssCur := none
  Cond := 0x55555555
  testOkay := true
  cdc_state := CDC_IDLE
  tFDState := _XX
  tRDState := _XX
  pcdc_state := CDC_IDLE
  isCarDoorBridged := false
  isHallDoorBridged := false
  DCTR := false
  oDK9 := false
  oDK10 := false
  errors := []

/-- Lines 406-428: `FDState`. -/
def FDState (r : Reading) : Nat :=
  if r.fOnlineAndReady then
    (if r.fDOL && !r.fDCL then _ON else _FF)
  else _XX

/-- Lines 406-428: `RDState`. -/
def RDState (r : Reading) : Nat :=
  if r.doorTypeRear then
    (if r.rOnlineAndReady then
      (if r.rDOL && !r.rDCL then _ON else _FF)
    else _XX)
  else _XX

/-- Lines 409-410: `ssDoor`. -/
def ssDoor (r : Reading) : List DOOR_STAT_CHECK :=
  if r.doorTypeRear then ssDoubleDoor else ssSingleDoor

/-- The entry read by `p->...` for a `DOOR_SS_CHECK *`. -/
def CheckPtr.deref (p : CheckPtr) : Option DOOR_SS_CHECK :=
  (checkArray p.arr)[p.idx]?

/-- The pointer after `p++`. -/
def CheckPtr.next (p : CheckPtr) : CheckPtr := ⟨p.arr, p.idx + 1⟩

/-- The loop of lines 446-472 over the entries of `ssDoor` from the current
index on.  `some (some p)`: the loop left through `break` with `ssDoor[i].ss =
p`; `some none`: it ended at the `NULL` entry; `none`: it ran off the array. -/
def doorSearch (FD RD : Nat) (ssCheck : Option CheckPtr) :
    List DOOR_STAT_CHECK → Option (Option CheckPtr)
  | [] => none
  | e :: es =>
    match e.ss with
    | none => some none
    | some p =>
      if e.FDOL = FD ∧ (e.RDOL = RD ∨ e.RDOL = _XX) then
        (if ssCheck ≠ some p then some (some p) else doorSearch FD RD ssCheck es)
      else doorSearch FD RD ssCheck es

/-- The condition of lines 559-568 for one row. -/
def rowMatches (r : Reading) (row : DOOR_SS_STAT) : Bool :=
  ((SS_GET_TK row.safetyString &&& DONTCARE) ≠ 0 ∨ SS_GET_TK row.safetyString = r.SAF3Raw) ∧
  ((SS_GET_TKD row.safetyString &&& DONTCARE) ≠ 0 ∨ SS_GET_TKD row.safetyString = r.SAF3RRaw) ∧
  ((SS_GET_KT row.safetyString &&& DONTCARE) ≠ 0 ∨ SS_GET_KT row.safetyString = r.SAF4Raw) ∧
  ((SS_GET_KTD row.safetyString &&& DONTCARE) ≠ 0 ∨ SS_GET_KTD row.safetyString = r.SAF4RRaw)

/-- Lines 570-571: `Cond &= bridgeCond; Cond |= (DONTCARE_MASK & bridgeCond)`. -/
def foldCond (Cond bridgeCond : Nat) : Nat :=
  (Cond &&& bridgeCond) ||| (DONTCARE_MASK &&& bridgeCond)

/-- The loop of lines 557-583 over the rows of `dss` from the current index on,
as a function of `Cond`.  `none`: the loop ran off the array without meeting
the `0xFFFF` row. -/
def rowSearch (r : Reading) (Cond : Nat) : List DOOR_SS_STAT → Option Nat
  | [] => none
  | row :: rows =>
    if row.safetyString ≠ 0xFFFF then
      (if rowMatches r row then some (foldCond Cond row.bridgeCond)
       else rowSearch r Cond rows)
    else some Cond

/-- The local `result` together with what else lines 597-652 write. -/
structure Decoded where
  result : Nat
  isCarDoorBridged : Bool
  isHallDoorBridged : Bool
  errors : List ErrId
  deriving DecidableEq

/-- The two statements `ErrrHdlr::PutError(e, ...); result |= (1<<bit);`. -/
def Decoded.put (d : Decoded) (e : ErrId) (bit : Nat) : Decoded :=
  { d with errors := d.errors ++ [e], result := d.result ||| (1 <<< bit) }

/-- Lines 598-603. -/
def decode1 (Cond : Nat) (d : Decoded) : Decoded :=
  if IS_BRIDGE (GET_BRG_1 Cond) ≠ 0 then
    { d with isCarDoorBridged := true }.put DOOR_BRIDGED_1 0
  else d

/-- Lines 604-608. -/
def decode2 (Cond : Nat) (d : Decoded) : Decoded :=
  if IS_BRIDGE (GET_BRG_2 Cond) ≠ 0 then d.put DOOR_BRIDGED_2 1 else d

/-- Lines 609-613. -/
def decode3 (Cond : Nat) (d : Decoded) : Decoded :=
  if IS_BRIDGE (GET_BRG_3 Cond) ≠ 0 then d.put DOOR_BRIDGED_3 2 else d

/-- Lines 614-618. -/
def decode4 (Cond : Nat) (d : Decoded) : Decoded :=
  if IS_BRIDGE (GET_BRG_4 Cond) ≠ 0 then d.put DOOR_BRIDGED_4 3 else d

/-- Lines 619-624. -/
def decode5 (Cond : Nat) (d : Decoded) : Decoded :=
  if IS_BRIDGE (GET_BRG_5 Cond) ≠ 0 then
    { d.put DOOR_BRIDGED_5 4 with isHallDoorBridged := true }
  else d

/-- Lines 625-629. -/
def decode6 (Cond : Nat) (d : Decoded) : Decoded :=
  if IS_BRIDGE (GET_BRG_6 Cond) ≠ 0 then d.put DOOR_BRIDGED_6 5 else d

/-- Lines 630-634. -/
def decode7 (Cond : Nat) (d : Decoded) : Decoded :=
  if IS_BRIDGE (GET_BRG_7 Cond) ≠ 0 then d.put DOOR_BRIDGED_7 6 else d

/-- Lines 635-640. -/
def decode8 (Cond : Nat) (d : Decoded) : Decoded :=
  if IS_BRIDGE (GET_BRG_8 Cond) ≠ 0 then
    { d with isCarDoorBridged := true }.put DOOR_BRIDGED_8 7
  else d

/-- Lines 641-645. -/
def decode9 (Cond : Nat) (d : Decoded) : Decoded :=
  if IS_BRIDGE (GET_BRG_9 Cond) ≠ 0 then d.put DOOR_BRIDGED_9 8 else d

/-- Lines 647-652. -/
def decodeA (Cond : Nat) (d : Decoded) : Decoded :=
  if IS_BRIDGE (GET_BRG_A Cond) ≠ 0 then
    { d.put DOOR_BRIDGED_10 9 with isHallDoorBridged := true }
  else d

/-- Lines 597-652: `result` starts at 0 and the ten `if` statements run in
order, started with the current values of the two sticky flags; `errors` are
the errors put by this decode, oldest first. -/
def decode (Cond : Nat) (car hall : Bool) : Decoded :=
  decodeA Cond (decode9 Cond (decode8 Cond (decode7 Cond (decode6 Cond
    (decode5 Cond (decode4 Cond (decode3 Cond (decode2 Cond (decode1 Cond
      ⟨0, car, hall, []⟩)))))))))

/-- The cancel condition of lines 488-489, 521-522 and 540. -/
def cancelled (s : State) (r : Reading) : Bool :=
  (s.tFDState ≠ FDState r ∨ s.tRDState ≠ RDState r) ∧ r.SRFD

/-- Lines 435-438, the part of `case CDC_ABORT` before it falls through. -/
def abortPart (s : State) : State :=
  { s with DCTR := false, oDK9 := false, oDK10 := false, cdc_state := CDC_IDLE }

/-- Lines 441-485, `case CDC_IDLE`. -/
def caseIdle (s : State) (r : Reading) : Option State :=
  if ((FDState r = _ON ∨ RDState r = _ON) ∧ s.ssCheck = none) ∧ r.SRFD then
    match doorSearch (FDState r) (RDState r) s.ssCheck (ssDoor r) with
    | none => none
    | some none => some s
    | some (some p) =>
      some { s with cdc_state := CDC_ARM_TEST, ssCheck := some p, ssCur := some p,
                    tFDState := FDState r, tRDState := RDState r, Cond := 0x55555555 }
  else if s.tFDState ≠ FDState r ∨ s.tRDState ≠ RDState r then
    some { s with tFDState := FDState r, tRDState := RDState r, ssCheck := none }
  else some s

/-- Lines 487-518, `case CDC_ARM_TEST`. -/
def caseArmTest (s : State) (r : Reading) : Option State :=
  if cancelled s r then some { s with cdc_state := CDC_ABORT }
  else
    match s.ssCur with
    | some p =>
      match p.deref with
      | none => none
      | some cur =>
        match cur.ss with
        | some _ =>
          some { s with
            DCTR := decide (cur.bK39 = _FF)
            oDK9 := if cur.bK9 ≠ _XX then decide (cur.bK9 = _ON) else s.oDK9
            oDK10 := if cur.bK10 ≠ _XX then decide (cur.bK10 = _ON) else s.oDK10
            cdc_state := CDC_ARM_WAIT
            delay := some CDC_ARM_WAIT_TIME }
        | none => some { s with cdc_state := CDC_ABORT }
    | none => some { s with cdc_state := CDC_ABORT }

/-- Lines 520-536, `case CDC_ARM_WAIT`. -/
def caseArmWait (s : State) (r : Reading) : Option State :=
  if cancelled s r then some { s with cdc_state := CDC_ABORT }
  else if r.delayFinished then some { s with cdc_state := CDC_ARM_CHECK }
  else some s

/-- Lines 591-665: the end of `case CDC_ARM_CHECK`, after the clean up. -/
def checkEnd (s : State) (r : Reading) : Option State :=
  match s.ssCur with
  | none => none
  | some p =>
    match p.deref with
    | none => none
    | some cur =>
      match cur.ss with
      | some _ => some { s with cdc_state := CDC_ARM_TEST }
      | none =>
        let d := decode s.Cond s.isCarDoorBridged s.isHallDoorBridged
        some { s with
          isCarDoorBridged := d.isCarDoorBridged
          isHallDoorBridged := d.isHallDoorBridged
          errors := s.errors ++ d.errors
          cdc_state :=
            if r.SRFD then
              (if d.result ≠ 0 then CDC_ARM_ERROR_DETECTED else CDC_ARM_TEST_PASSED)
            else CDC_ABORT }

/-- Lines 554-585: the row search, the fold of the matching row into `Cond`
and `ssCur++`, all skipped when `dss` is `NULL`.  `p` is `ssCur` and `cur` the
entry it points to. -/
def searchPart (s : State) (r : Reading) (p : CheckPtr) (cur : DOOR_SS_CHECK) :
    Option State :=
  match cur.ss with
  | some dss =>
    match rowSearch r s.Cond dss with
    | none => none
    | some c => some { s with Cond := c, ssCur := some p.next }
  | none => some s

/-- Lines 586-589: the clean up. -/
def cleanUp (s : State) : State :=
  { s with DCTR := false, oDK9 := false, oDK10 := false }

/-- Lines 538-666, `case CDC_ARM_CHECK`. -/
def caseArmCheck (s : State) (r : Reading) : Option State :=
  match s.ssCur with
  | none => none
  | some p =>
    match p.deref with
    | none => none
    | some cur =>
      if cancelled s r then some { s with cdc_state := CDC_ABORT }
      else
        match searchPart s r p cur with
        | none => none
        | some m => checkEnd (cleanUp m) r

/-- Lines 667-673, `case CDC_ARM_ERROR_DETECTED`. -/
def caseArmErrorDetected (s : State) : State :=
  { s with testOkay := false, delay := some CDC_RETRY_WAIT_TIME,
           cdc_state := CDC_ARM_RETRY_WAIT }

/-- Lines 675-681, `case CDC_ARM_RETRY_WAIT`. -/
def caseArmRetryWait (s : State) (r : Reading) : State :=
  if r.delayFinished then { s with ssCheck := none, cdc_state := CDC_IDLE } else s

/-- Lines 683-688, `case CDC_ARM_TEST_PASSED`. -/
def caseArmTestPassed (s : State) : State :=
  { s with testOkay := true, isCarDoorBridged := false, isHallDoorBridged := false,
           cdc_state := CDC_IDLE }

/-- Lines 432-689: the `switch`. -/
def switchBody (s : State) (r : Reading) : Option State :=
  match s.cdc_state with
  | CDC_ABORT => caseIdle (abortPart s) r
  | CDC_IDLE => caseIdle s r
  | CDC_ARM_TEST => caseArmTest s r
  | CDC_ARM_WAIT => caseArmWait s r
  | CDC_ARM_CHECK => caseArmCheck s r
  | CDC_ARM_ERROR_DETECTED => some (caseArmErrorDetected s)
  | CDC_ARM_RETRY_WAIT => some (caseArmRetryWait s r)
  | CDC_ARM_TEST_PASSED => some (caseArmTestPassed s)
  | CDC_END => some s

/-- Lines 690-696. -/
def logState (s : State) : State :=
  if s.pcdc_state ≠ s.cdc_state then { s with pcdc_state := s.cdc_state } else s

/-- One call of `SafeMon::MC2XDoorTestOK`: the state it leaves.  The value it
returns is the `testOkay` of that state. -/
def step (s : State) (r : Reading) : Option State :=
  (switchBody s r).map logState

/-- The value returned by the call (line 697). -/
def MC2XDoorTestOK (s : State) (r : Reading) : Option Bool :=
  (step s r).map (·.testOkay)

/-- The state after a sequence of calls, starting from `s`. -/
def runFrom (s : State) : List Reading → Option State
  | [] => some s
  | r :: rs => (step s r).bind (fun t => runFrom t rs)

/-- The state after a sequence of calls, starting from the initial state. -/
def run (rs : List Reading) : Option State := runFrom State.init rs

/-! ## Naming the ten points

Point `k + 1` (for `k = 0, ..., 9`) is read by the macro `GET_BRG_1`, ...,
`GET_BRG_9`, `GET_BRG_A`, reported with `DOOR_BRIDGED_1`, ...,
`DOOR_BRIDGED_10`, and recorded in bit `k` of `result`. -/

/-- The macro that reads point `k + 1`. -/
def GET_BRG (k : Fin 10) (X : Nat) : Nat :=
  match k with
  | 0 => GET_BRG_1 X
  | 1 => GET_BRG_2 X
  | 2 => GET_BRG_3 X
  | 3 => GET_BRG_4 X
  | 4 => GET_BRG_5 X
  | 5 => GET_BRG_6 X
  | 6 => GET_BRG_7 X
  | 7 => GET_BRG_8 X
  | 8 => GET_BRG_9 X
  | 9 => GET_BRG_A X

/-- The error identifier of point `k + 1`. -/
def DOOR_BRIDGED (k : Fin 10) : ErrId :=
  match k with
  | 0 => DOOR_BRIDGED_1
  | 1 => DOOR_BRIDGED_2
  | 2 => DOOR_BRIDGED_3
  | 3 => DOOR_BRIDGED_4
  | 4 => DOOR_BRIDGED_5
  | 5 => DOOR_BRIDGED_6
  | 6 => DOOR_BRIDGED_7
  | 7 => DOOR_BRIDGED_8
  | 8 => DOOR_BRIDGED_9
  | 9 => DOOR_BRIDGED_10

/-- The condition `IS_BRIDGE(GET_BRG_n(Cond))` of the `if` of point `k + 1`. -/
def flagged (k : Fin 10) (Cond : Nat) : Bool :=
  IS_BRIDGE (GET_BRG k Cond) ≠ 0

/-! ## Predicates used to state the theorems -/

/-- The three states in which a run is driving or checking a configuration. -/
def inRun (c : CdcState) : Bool :=
  c = CDC_ARM_TEST || c = CDC_ARM_WAIT || c = CDC_ARM_CHECK

/-- A `DOOR_SS_STAT` array contains its `0xFFFF` row. -/
def terminated (dss : List DOOR_SS_STAT) : Bool :=
  dss.any (fun row => row.safetyString = 0xFFFF)

/-- The entry `ssCur` points to, when `ssCur` is not `NULL` and is in range. -/
def State.cur (s : State) : Option DOOR_SS_CHECK :=
  s.ssCur.bind CheckPtr.deref

/-- What holds of `ssCur` in every state the function can reach: it is `NULL`
or points into its array, and during a run it points to an entry that has a
row table. -/
def State.wf (s : State) : Bool :=
  match s.ssCur with
  | none => !inRun s.cdc_state
  | some p =>
    match p.deref with
    | none => false
    | some cur => cur.ss.isSome || !inRun s.cdc_state

/-- The rows of a `DOOR_SS_STAT` array in front of its `0xFFFF` row. -/
def rowsBeforeEnd : List DOOR_SS_STAT → List DOOR_SS_STAT
  | [] => []
  | row :: rows => if row.safetyString ≠ 0xFFFF then row :: rowsBeforeEnd rows else []

/-! ## Concrete data used in the examples -/

/-- An aggregate in which point 1 and point 2 are `_FF`, point 3 is `_ON` and
the other seven points are `DONTCARE`. -/
def condOffOffOn : Nat := BRG_COND _FF _FF _ON _XX _XX _XX _XX _XX _XX _XX

/-- The bridge vector of the first row of `ssCheckFDCLRDOL_COO` (line 289):
point 1 is `DONTCARE`. -/
def rowDontCare1 : Nat := BRG_COND _XX _FF _FF _ON _FF _FF _ON _XX _FF _FF

/-- The bridge vector of the second row of `ssCheckFDCLRDOL_CXX` (line 330):
point 1 is `_ON`. -/
def rowOn1 : Nat := BRG_COND _ON _ON _ON _XX _XX _XX _XX _XX _XX _XX

/-- The pattern of the first row of `ssCheckFDCLRDOL_CXX` (line 329) with an
arbitrary bridge vector: TK must be off, KT must be on, TKD and KTD are
`DONTCARE`. -/
def rowCXX1 : DOOR_SS_STAT := ⟨SS_COND _FF _XX _ON _XX, rowOn1⟩

/-- A reading in which only the four raw safety-string signals matter:
TK = 0, TKD = 1, KT = 1, KTD = 0. -/
def readingTKoff : Reading :=
  { doorTypeRear := false, fOnlineAndReady := true, fDOL := true, fDCL := false,
    rOnlineAndReady := false, rDOL := false, rDCL := false, SRFD := true,
    SAF3Raw := 0, SAF3RRaw := 1, SAF4Raw := 1, SAF4RRaw := 0, delayFinished := true }

/-- A reading of a car without rear door whose front door is on line and
open, with the settle or retry delay expired: `tk` and `kt` are the raw TK and
KT signals (TKD and KTD are 0) and `srfd` is `SafeStr::GetSRFD()`. -/
def frontOpen (tk kt : Nat) (srfd : Bool) : Reading :=
  { doorTypeRear := false, fOnlineAndReady := true, fDOL := true, fDCL := false,
    rOnlineAndReady := false, rDOL := false, rDCL := false, SRFD := srfd,
    SAF3Raw := tk, SAF3RRaw := 0, SAF4Raw := kt, SAF4RRaw := 0, delayFinished := true }

/-- Six calls that arm the single-door scenario, drive and check its first
configuration with TK = 0, KT = 1 (first row of `ssCheckFDCLRDOL_CXX`), and
drive its second configuration: the machine is then in `CDC_ARM_CHECK`. -/
def cleanRun : List Reading :=
  [frontOpen 0 1 true, frontOpen 0 1 true, frontOpen 0 1 true, frontOpen 0 1 true,
   frontOpen 0 0 true, frontOpen 0 0 true]

/-- Six calls as in `cleanRun`, with TK = 1, KT = 1 at the check of the first
configuration (second row of `ssCheckFDCLRDOL_CXX`). -/
def faultRun : List Reading :=
  [frontOpen 1 1 true, frontOpen 1 1 true, frontOpen 1 1 true, frontOpen 1 1 true,
   frontOpen 1 1 true, frontOpen 1 1 true]

/-- A run that fails and then passes: `faultRun`, the check of the second
configuration with TK = 1, KT = 1, the two calls of `CDC_ARM_ERROR_DETECTED`
and `CDC_ARM_RETRY_WAIT`, then `cleanRun` and the check of the second
configuration with TK = 0, KT = 0.  The machine is then in
`CDC_ARM_TEST_PASSED`. -/
def failThenPassRun : List Reading :=
  faultRun ++ [frontOpen 1 1 true, frontOpen 1 1 true, frontOpen 1 1 true] ++ cleanRun ++
    [frontOpen 0 0 true]

/-- The selection of §4.1 in the words of the specification: the first entry,
among those in front of the `NULL` entry, whose required front state equals
the observation and whose required rear state equals the observation or is
`DONTCARE`. -/
def specSelect (FD RD : Nat) (tbl : List DOOR_STAT_CHECK) : Option DOOR_STAT_CHECK :=
  (tbl.takeWhile (fun e => e.ss.isSome)).find?
    (fun e => e.FDOL = FD ∧ (e.RDOL = RD ∨ e.RDOL = _XX))

/-- First match wins, in the words of the specification: the aggregate after
the first row in table order (in front of the `0xFFFF` row) whose pattern
matches the live reading has been folded in, or the aggregate itself when no
row matches. -/
def specFirstMatch (r : Reading) (Cond : Nat) (dss : List DOOR_SS_STAT) : Nat :=
  match (rowsBeforeEnd dss).find? (rowMatches r) with
  | some row => foldCond Cond row.bridgeCond
  | none => Cond

/-- The state after `faultRun`: in `CDC_ARM_CHECK` at the second (last)
configuration of the single-door scenario, points 1, 2 and 3 holding `_ON`. -/
def faultCheckState : State :=
  { delay := some 3, ssCheck := some ⟨.FDCLRDOLSingle, 0⟩, ssCur := some ⟨.FDCLRDOLSingle, 1⟩,
    Cond := 354986, testOkay := true, cdc_state := CDC_ARM_CHECK, tFDState := 1, tRDState := 2,
    pcdc_state := CDC_ARM_CHECK, isCarDoorBridged := false, isHallDoorBridged := false,
    DCTR := true, oDK9 := false, oDK10 := false, errors := [] }

/-- The state after `faultRun` and a check with TK = 1, KT = 1 and the request
signal asserted. -/
def faultDetectedState : State :=
  { faultCheckState with
    ssCur := some ⟨.FDCLRDOLSingle, 2⟩, cdc_state := CDC_ARM_ERROR_DETECTED,
    pcdc_state := CDC_ARM_ERROR_DETECTED, isCarDoorBridged := true, DCTR := false,
    errors := [DOOR_BRIDGED_1, DOOR_BRIDGED_2, DOOR_BRIDGED_3] }

/-- The state after `faultRun` and a check with TK = 1, KT = 1 and the request
signal not asserted: three faults raised, the latch still TRUE. -/
def faultAbortedState : State :=
  { faultDetectedState with cdc_state := CDC_ABORT, pcdc_state := CDC_ABORT }

/-- The state one call after `faultAbortedState`. -/
def faultIdleState : State :=
  { faultDetectedState with cdc_state := CDC_IDLE, pcdc_state := CDC_IDLE }

/-- The state after `cleanRun`: in `CDC_ARM_CHECK` at the second (last)
configuration, points 1 and 2 holding `_FF` and point 3 holding `_ON`. -/
def cleanCheckState : State :=
  { faultCheckState with Cond := 27306 }

/-- The state after `cleanRun` and a check with TK = 0, KT = 0. -/
def cleanPassedState : State :=
  { cleanCheckState with
    ssCur := some ⟨.FDCLRDOLSingle, 2⟩, Cond := 10922, cdc_state := CDC_ARM_TEST_PASSED,
    pcdc_state := CDC_ARM_TEST_PASSED, DCTR := false }

/-- The state after `failThenPassRun`: in `CDC_ARM_TEST_PASSED` with the latch
still FALSE from the failed run. -/
def passedAfterFailState : State :=
  { cleanPassedState with
    testOkay := false, isCarDoorBridged := true,
    errors := [DOOR_BRIDGED_1, DOOR_BRIDGED_2, DOOR_BRIDGED_3] }

/-- The state one call after `passedAfterFailState`. -/
def idleAfterPassState : State :=
  { passedAfterFailState with
    testOkay := true, isCarDoorBridged := false, cdc_state := CDC_IDLE,
    pcdc_state := CDC_IDLE }

/-- A reading of a car without rear door whose front door is on line and
closed, with the request signal asserted. -/
def frontClosed : Reading :=
  { doorTypeRear := false, fOnlineAndReady := true, fDOL := false, fDCL := true,
    rOnlineAndReady := false, rDOL := false, rDCL := false, SRFD := true,
    SAF3Raw := 0, SAF3RRaw := 0, SAF4Raw := 0, SAF4RRaw := 0, delayFinished := true }

/-- The state after the first four calls of `cleanRun`: in `CDC_ARM_TEST` at
the second configuration of the single-door scenario, outputs de-energized. -/
def secondTestState : State :=
  { cleanCheckState with cdc_state := CDC_ARM_TEST, pcdc_state := CDC_ARM_TEST, DCTR := false }

/-- In the three states of a run and in `CDC_ABORT` a scenario is armed
(`ssCheck` is not `NULL`): this holds in every state the function can reach. -/
def State.armed (s : State) : Bool :=
  s.ssCheck.isSome || !(inRun s.cdc_state || decide (s.cdc_state = CDC_ABORT))

/-- The readings of the end-to-end scenario of §8: a car without rear door,
front door on line and open (DOL made, DCL not made), request signal asserted,
delay expired, raw TK = 0 and raw KT = 1 as in the pattern of the first row of
`ssCheckFDCLRDOL_CXX`.  The rear sensors and the raw TKD and KTD signals are
left free. -/
def firstRowReading (r : Reading) : Bool :=
  !r.doorTypeRear && r.fOnlineAndReady && r.fDOL && !r.fDCL && r.SRFD &&
    decide (r.SAF3Raw = _FF) && decide (r.SAF4Raw = _ON) && r.delayFinished

/-- The sequence of `cdc_state` values left by the calls of a run from `s`. -/
def trace : State → List Reading → Option (List CdcState)
  | _, [] => some []
  | s, r :: rs =>
    match step s r with
    | none => none
    | some t => (trace t rs).map (fun l => t.cdc_state :: l)

/-- The state after the call that arms the single-door scenario from the
initial state. -/
def singleArmedState : State :=
  { State.init with
    cdc_state := CDC_ARM_TEST, pcdc_state := CDC_ARM_TEST,
    ssCheck := some ⟨.FDCLRDOLSingle, 0⟩, ssCur := some ⟨.FDCLRDOLSingle, 0⟩,
    tFDState := 1, tRDState := 2 }

/-- The state after the first configuration of the single-door scenario has
been driven. -/
def singleWaitState : State :=
  { singleArmedState with
    cdc_state := CDC_ARM_WAIT, pcdc_state := CDC_ARM_WAIT, delay := some 3 }

/-- The state in which the first configuration of the single-door scenario is
about to be checked. -/
def singleCheckState : State :=
  { singleWaitState with cdc_state := CDC_ARM_CHECK, pcdc_state := CDC_ARM_CHECK }

/-- The state after the second configuration has been driven in `cleanRun`. -/
def secondWaitState : State :=
  { cleanCheckState with cdc_state := CDC_ARM_WAIT, pcdc_state := CDC_ARM_WAIT }

/-- The state after both checks of the single-door scenario read TK = 0,
KT = 1: the fault of point 3 is raised. -/
def point3DetectedState : State :=
  { cleanCheckState with
    ssCur := some ⟨.FDCLRDOLSingle, 2⟩, cdc_state := CDC_ARM_ERROR_DETECTED,
    pcdc_state := CDC_ARM_ERROR_DETECTED, DCTR := false, errors := [DOOR_BRIDGED_3] }

/-- The state one call after `point3DetectedState`: the latch is FALSE. -/
def point3RetryState : State :=
  { point3DetectedState with
    testOkay := false, delay := some 20, cdc_state := CDC_ARM_RETRY_WAIT,
    pcdc_state := CDC_ARM_RETRY_WAIT }

/-- The state two calls after `point3DetectedState`. -/
def point3IdleState : State :=
  { point3RetryState with ssCheck := none, cdc_state := CDC_IDLE, pcdc_state := CDC_IDLE }

/-- The row that a call folds into the aggregate: in a `CDC_ARM_CHECK` call
that is not cancelled, the first row of the current entry's table (in front of
the `0xFFFF` row) whose pattern matches the reading; `none` in every other
call and when no row matches. -/
def matchedRow (s : State) (r : Reading) : Option DOOR_SS_STAT :=
  if s.cdc_state = CDC_ARM_CHECK ∧ cancelled s r = false then
    match s.cur with
    | some cur =>
      match cur.ss with
      | some dss => (rowsBeforeEnd dss).find? (rowMatches r)
      | none => none
    | none => none
  else none

/-- The call arms a run: it starts in `CDC_IDLE` or `CDC_ABORT` and ends in
`CDC_ARM_TEST`. -/
def arms (s : State) (r : Reading) : Bool :=
  (s.cdc_state = CDC_IDLE ∨ s.cdc_state = CDC_ABORT) ∧
    (step s r).map (fun t => t.cdc_state) = some CDC_ARM_TEST

/-- The state after a sequence of calls together with the rows matched since
the run in progress was armed (oldest first), given the rows `h` matched so
far. -/
def matchedRows : State → List DOOR_SS_STAT → List Reading →
    Option (State × List DOOR_SS_STAT)
  | s, h, [] => some (s, h)
  | s, h, r :: rs =>
    match step s r with
    | none => none
    | some t =>
      matchedRows t (if arms s r then [] else h ++ (matchedRow s r).toList) rs

/-- The aggregate obtained by folding the bridge vectors of `rows`, in order,
into the aggregate of a freshly armed run. -/
def foldRows (rows : List DOOR_SS_STAT) : Nat :=
  rows.foldl (fun c row => foldCond c row.bridgeCond) 0x55555555

/-- A run in which the matched row of the first configuration has `_FF` at
point 1 and the matched row of the second has `_ON` at point 1: the
single-door scenario with TK = 0, KT = 1 at the first check and TK = 1,
KT = 0 at the second, up to the second check. -/
def conflictRun : List Reading :=
  [frontOpen 0 1 true, frontOpen 0 1 true, frontOpen 0 1 true, frontOpen 0 1 true,
   frontOpen 1 0 true, frontOpen 1 0 true]

/-- A row whose TKD and KTD pattern fields have the don't-care bit set: whether
it matches does not depend on the raw TKD and KTD signals. -/
def ignoresTKD (row : DOOR_SS_STAT) : Bool :=
  (SS_GET_TKD row.safetyString &&& DONTCARE) ≠ 0 ∧
    (SS_GET_KTD row.safetyString &&& DONTCARE) ≠ 0

/-- Each of the ten points of the row's bridge vector holds `_ON`, `_FF` or
`_XX` (no point holds the value 3). -/
def rowValuesOK (row : DOOR_SS_STAT) : Bool :=
  [GET_BRG_1, GET_BRG_2, GET_BRG_3, GET_BRG_4, GET_BRG_5, GET_BRG_6, GET_BRG_7, GET_BRG_8,
    GET_BRG_9, GET_BRG_A].all (fun g => g row.bridgeCond ≤ 2)

/-- A reading of a car with rear door whose front door is open and rear door
closed (both on line), request signal asserted, delay expired, and raw
signals TK = 1, TKD = 0, KT = 0, KTD = 0, which no row of the four tables of
`ssCheckFDOLRDCL` matches. -/
def frontOpenRearClosed : Reading :=
  { doorTypeRear := true, fOnlineAndReady := true, fDOL := true, fDCL := false,
    rOnlineAndReady := true, rDOL := false, rDCL := true, SRFD := true,
    SAF3Raw := 1, SAF3RRaw := 0, SAF4Raw := 0, SAF4RRaw := 0, delayFinished := true }

/-- Twelve calls with `frontOpenRearClosed`: the front-open / rear-closed
scenario is armed and its first three configurations are checked without a
match; the machine is then in `CDC_ARM_CHECK` at the fourth. -/
def noMatchRun : List Reading := List.replicate 12 frontOpenRearClosed

/-- The state after `noMatchRun`. -/
def noMatchCheckState : State :=
  { delay := some 3, ssCheck := some ⟨.FDOLRDCL, 0⟩, ssCur := some ⟨.FDOLRDCL, 3⟩,
    Cond := 0x55555555, testOkay := true, cdc_state := CDC_ARM_CHECK, tFDState := 1,
    tRDState := 0, pcdc_state := CDC_ARM_CHECK, isCarDoorBridged := false,
    isHallDoorBridged := false, DCTR := true, oDK9 := false, oDK10 := true, errors := [] }

/-- The state after `noMatchRun` and the check of the fourth configuration,
again without a match: all ten faults raised, both sticky flags TRUE. -/
def noMatchDetectedState : State :=
  { noMatchCheckState with
    ssCur := some ⟨.FDOLRDCL, 4⟩, cdc_state := CDC_ARM_ERROR_DETECTED,
    pcdc_state := CDC_ARM_ERROR_DETECTED, isCarDoorBridged := true,
    isHallDoorBridged := true, DCTR := false, oDK10 := false,
    errors := [DOOR_BRIDGED_1, DOOR_BRIDGED_2, DOOR_BRIDGED_3, DOOR_BRIDGED_4,
      DOOR_BRIDGED_5, DOOR_BRIDGED_6, DOOR_BRIDGED_7, DOOR_BRIDGED_8, DOOR_BRIDGED_9,
      DOOR_BRIDGED_10] }

/-- The machine is in one of its eight states and, outside `CDC_ARM_WAIT`,
`CDC_ARM_CHECK` and `CDC_ABORT`, the three outputs are de-energized: this holds
in every state the function can reach. -/
def State.quiet (s : State) : Bool :=
  s.cdc_state ≠ CDC_END ∧
    ((s.cdc_state = CDC_ARM_WAIT ∨ s.cdc_state = CDC_ARM_CHECK ∨ s.cdc_state = CDC_ABORT) ∨
      (s.DCTR = false ∧ s.oDK9 = false ∧ s.oDK10 = false))

/-- During a run `ssCheck` points to the start of an array and `ssCur` into the
same array: this holds in every state the function can reach. -/
def State.inScenario (s : State) : Bool :=
  !inRun s.cdc_state ||
    (match s.ssCheck, s.ssCur with
     | some c, some p => decide (c.idx = 0) && decide (c.arr = p.arr)
     | _, _ => false)

/-- The rows in front of the `0xFFFF` row of all the tables of a check array:
the rows a run over this array can match. -/
def scenarioRows (a : CheckArray) : List DOOR_SS_STAT :=
  ((checkArray a).map (fun e =>
    match e.ss with
    | some dss => rowsBeforeEnd dss
    | none => [])).flatten

/-- The run `conflictRun` followed by its second check: two rows have been
folded, which both have `_FF` at point 2 and `DONTCARE` at point 4. -/
def twoRowRun : List Reading := conflictRun ++ [frontOpen 1 0 true]

/-! ## Bit-level lemmas -/

theorem testBit_three (i : Nat) : Nat.testBit 3 i = decide (i < 2) := by
  have h := Nat.testBit_two_pow_sub_one 2 i
  simpa using h

theorem testBit_two (i : Nat) (hi : i < 2) : Nat.testBit 2 i = decide (i = 1) := by
  interval_cases i <;> rfl

theorem testBit_mask (j i : Nat) (hj : j < 10) (hi : i < 2) :
    Nat.testBit 0xAAAAAAAA (2 * j + i) = decide (i = 1) := by
  interval_cases j <;> interval_cases i <;> rfl

/-- The two bits at position `2 * j` of a folded word are the fold of the two
bits of the operands at that position. -/
theorem shift_foldCond (a r j : Nat) (hj : j < 10) :
    (foldCond a r >>> (2 * j)) &&& 3
      = (((a >>> (2 * j)) &&& 3) &&& ((r >>> (2 * j)) &&& 3))
          ||| (2 &&& ((r >>> (2 * j)) &&& 3)) := by
  apply Nat.eq_of_testBit_eq
  intro i
  simp only [foldCond, DONTCARE_MASK, Nat.testBit_and, Nat.testBit_or,
    Nat.testBit_shiftRight, testBit_three]
  by_cases hi : i < 2
  · rw [testBit_mask j i hj hi, testBit_two i hi]
    cases Nat.testBit a (2 * j + i) <;> cases Nat.testBit r (2 * j + i) <;> simp [hi]
  · simp [hi]

theorem GET_BRG_eq (k : Fin 10) (X : Nat) :
    GET_BRG k X = (X >>> (2 * (9 - k.val))) &&& 3 := by
  fin_cases k <;> rfl

theorem GET_BRG_lt (k : Fin 10) (X : Nat) : GET_BRG k X < 4 := by
  rw [GET_BRG_eq]
  have h : (X >>> (2 * (9 - k.val))) &&& 3 ≤ 3 := Nat.and_le_right
  omega

/-- The fold, seen at one point. -/
theorem GET_BRG_foldCond (k : Fin 10) (a r : Nat) :
    GET_BRG k (foldCond a r)
      = (GET_BRG k a &&& GET_BRG k r) ||| (DONTCARE &&& GET_BRG k r) := by
  simp only [GET_BRG_eq]
  exact shift_foldCond a r (9 - k.val) (by omega)

/-- Among the four 2-bit values `IS_BRIDGE` is non-zero on `_ON` only. -/
theorem IS_BRIDGE_ne_zero_iff (v : Nat) (hv : v < 4) : IS_BRIDGE v ≠ 0 ↔ v = _ON := by
  interval_cases v <;> decide

theorem flagged_iff (k : Fin 10) (Cond : Nat) :
    flagged k Cond = true ↔ GET_BRG k Cond = _ON := by
  simp only [flagged, decide_eq_true_eq]
  exact IS_BRIDGE_ne_zero_iff _ (GET_BRG_lt k Cond)

/-! ## The decode block -/

theorem decode_isCarDoorBridged (Cond : Nat) (car hall : Bool) :
    (decode Cond car hall).isCarDoorBridged = (car || flagged 0 Cond || flagged 7 Cond) := by
  simp only [decode, decode1, decode2, decode3, decode4, decode5, decode6, decode7, decode8,
    decode9, decodeA, Decoded.put, flagged, GET_BRG]
  by_cases h1 : IS_BRIDGE (GET_BRG_1 Cond) ≠ 0 <;> by_cases h8 : IS_BRIDGE (GET_BRG_8 Cond) ≠ 0 <;>
    simp [h1, h8, apply_ite Decoded.isCarDoorBridged]

theorem decode_isHallDoorBridged (Cond : Nat) (car hall : Bool) :
    (decode Cond car hall).isHallDoorBridged = (hall || flagged 4 Cond || flagged 9 Cond) := by
  simp only [decode, decode1, decode2, decode3, decode4, decode5, decode6, decode7, decode8,
    decode9, decodeA, Decoded.put, flagged, GET_BRG]
  by_cases h5 : IS_BRIDGE (GET_BRG_5 Cond) ≠ 0 <;> by_cases hA : IS_BRIDGE (GET_BRG_A Cond) ≠ 0 <;>
    simp [h5, hA, apply_ite Decoded.isHallDoorBridged]

theorem decode1_errors (Cond : Nat) (d : Decoded) :
    (decode1 Cond d).errors
      = d.errors ++ (if flagged 0 Cond then [DOOR_BRIDGED_1] else []) := by
  unfold decode1
  by_cases h : IS_BRIDGE (GET_BRG_1 Cond) ≠ 0 <;> simp [h, flagged, GET_BRG, Decoded.put]

theorem decode1_result (Cond : Nat) (d : Decoded) :
    (decode1 Cond d).result
      = d.result ||| (if flagged 0 Cond then 1 <<< 0 else 0) := by
  unfold decode1
  by_cases h : IS_BRIDGE (GET_BRG_1 Cond) ≠ 0 <;> simp [h, flagged, GET_BRG, Decoded.put]

theorem decode2_errors (Cond : Nat) (d : Decoded) :
    (decode2 Cond d).errors
      = d.errors ++ (if flagged 1 Cond then [DOOR_BRIDGED_2] else []) := by
  unfold decode2
  by_cases h : IS_BRIDGE (GET_BRG_2 Cond) ≠ 0 <;> simp [h, flagged, GET_BRG, Decoded.put]

theorem decode2_result (Cond : Nat) (d : Decoded) :
    (decode2 Cond d).result
      = d.result ||| (if flagged 1 Cond then 1 <<< 1 else 0) := by
  unfold decode2
  by_cases h : IS_BRIDGE (GET_BRG_2 Cond) ≠ 0 <;> simp [h, flagged, GET_BRG, Decoded.put]

theorem decode3_errors (Cond : Nat) (d : Decoded) :
    (decode3 Cond d).errors
      = d.errors ++ (if flagged 2 Cond then [DOOR_BRIDGED_3] else []) := by
  unfold decode3
  by_cases h : IS_BRIDGE (GET_BRG_3 Cond) ≠ 0 <;> simp [h, flagged, GET_BRG, Decoded.put]

theorem decode3_result (Cond : Nat) (d : Decoded) :
    (decode3 Cond d).result
      = d.result ||| (if flagged 2 Cond then 1 <<< 2 else 0) := by
  unfold decode3
  by_cases h : IS_BRIDGE (GET_BRG_3 Cond) ≠ 0 <;> simp [h, flagged, GET_BRG, Decoded.put]

theorem decode4_errors (Cond : Nat) (d : Decoded) :
    (decode4 Cond d).errors
      = d.errors ++ (if flagged 3 Cond then [DOOR_BRIDGED_4] else []) := by
  unfold decode4
  by_cases h : IS_BRIDGE (GET_BRG_4 Cond) ≠ 0 <;> simp [h, flagged, GET_BRG, Decoded.put]

theorem decode4_result (Cond : Nat) (d : Decoded) :
    (decode4 Cond d).result
      = d.result ||| (if flagged 3 Cond then 1 <<< 3 else 0) := by
  unfold decode4
  by_cases h : IS_BRIDGE (GET_BRG_4 Cond) ≠ 0 <;> simp [h, flagged, GET_BRG, Decoded.put]

theorem decode5_errors (Cond : Nat) (d : Decoded) :
    (decode5 Cond d).errors
      = d.errors ++ (if flagged 4 Cond then [DOOR_BRIDGED_5] else []) := by
  unfold decode5
  by_cases h : IS_BRIDGE (GET_BRG_5 Cond) ≠ 0 <;> simp [h, flagged, GET_BRG, Decoded.put]

theorem decode5_result (Cond : Nat) (d : Decoded) :
    (decode5 Cond d).result
      = d.result ||| (if flagged 4 Cond then 1 <<< 4 else 0) := by
  unfold decode5
  by_cases h : IS_BRIDGE (GET_BRG_5 Cond) ≠ 0 <;> simp [h, flagged, GET_BRG, Decoded.put]

theorem decode6_errors (Cond : Nat) (d : Decoded) :
    (decode6 Cond d).errors
      = d.errors ++ (if flagged 5 Cond then [DOOR_BRIDGED_6] else []) := by
  unfold decode6
  by_cases h : IS_BRIDGE (GET_BRG_6 Cond) ≠ 0 <;> simp [h, flagged, GET_BRG, Decoded.put]

theorem decode6_result (Cond : Nat) (d : Decoded) :
    (decode6 Cond d).result
      = d.result ||| (if flagged 5 Cond then 1 <<< 5 else 0) := by
  unfold decode6
  by_cases h : IS_BRIDGE (GET_BRG_6 Cond) ≠ 0 <;> simp [h, flagged, GET_BRG, Decoded.put]

theorem decode7_errors (Cond : Nat) (d : Decoded) :
    (decode7 Cond d).errors
      = d.errors ++ (if flagged 6 Cond then [DOOR_BRIDGED_7] else []) := by
  unfold decode7
  by_cases h : IS_BRIDGE (GET_BRG_7 Cond) ≠ 0 <;> simp [h, flagged, GET_BRG, Decoded.put]

theorem decode7_result (Cond : Nat) (d : Decoded) :
    (decode7 Cond d).result
      = d.result ||| (if flagged 6 Cond then 1 <<< 6 else 0) := by
  unfold decode7
  by_cases h : IS_BRIDGE (GET_BRG_7 Cond) ≠ 0 <;> simp [h, flagged, GET_BRG, Decoded.put]

theorem decode8_errors (Cond : Nat) (d : Decoded) :
    (decode8 Cond d).errors
      = d.errors ++ (if flagged 7 Cond then [DOOR_BRIDGED_8] else []) := by
  unfold decode8
  by_cases h : IS_BRIDGE (GET_BRG_8 Cond) ≠ 0 <;> simp [h, flagged, GET_BRG, Decoded.put]

theorem decode8_result (Cond : Nat) (d : Decoded) :
    (decode8 Cond d).result
      = d.result ||| (if flagged 7 Cond then 1 <<< 7 else 0) := by
  unfold decode8
  by_cases h : IS_BRIDGE (GET_BRG_8 Cond) ≠ 0 <;> simp [h, flagged, GET_BRG, Decoded.put]

theorem decode9_errors (Cond : Nat) (d : Decoded) :
    (decode9 Cond d).errors
      = d.errors ++ (if flagged 8 Cond then [DOOR_BRIDGED_9] else []) := by
  unfold decode9
  by_cases h : IS_BRIDGE (GET_BRG_9 Cond) ≠ 0 <;> simp [h, flagged, GET_BRG, Decoded.put]

theorem decode9_result (Cond : Nat) (d : Decoded) :
    (decode9 Cond d).result
      = d.result ||| (if flagged 8 Cond then 1 <<< 8 else 0) := by
  unfold decode9
  by_cases h : IS_BRIDGE (GET_BRG_9 Cond) ≠ 0 <;> simp [h, flagged, GET_BRG, Decoded.put]

theorem decodeA_errors (Cond : Nat) (d : Decoded) :
    (decodeA Cond d).errors
      = d.errors ++ (if flagged 9 Cond then [DOOR_BRIDGED_10] else []) := by
  unfold decodeA
  by_cases h : IS_BRIDGE (GET_BRG_A Cond) ≠ 0 <;> simp [h, flagged, GET_BRG, Decoded.put]

theorem decodeA_result (Cond : Nat) (d : Decoded) :
    (decodeA Cond d).result
      = d.result ||| (if flagged 9 Cond then 1 <<< 9 else 0) := by
  unfold decodeA
  by_cases h : IS_BRIDGE (GET_BRG_A Cond) ≠ 0 <;> simp [h, flagged, GET_BRG, Decoded.put]

/-- The errors put by a decode: one per flagged point, in the order of the points. -/
theorem decode_errors (Cond : Nat) (car hall : Bool) :
    (decode Cond car hall).errors
      = (if flagged 0 Cond then [DOOR_BRIDGED_1] else []) ++
        ((if flagged 1 Cond then [DOOR_BRIDGED_2] else []) ++
        ((if flagged 2 Cond then [DOOR_BRIDGED_3] else []) ++
        ((if flagged 3 Cond then [DOOR_BRIDGED_4] else []) ++
        ((if flagged 4 Cond then [DOOR_BRIDGED_5] else []) ++
        ((if flagged 5 Cond then [DOOR_BRIDGED_6] else []) ++
        ((if flagged 6 Cond then [DOOR_BRIDGED_7] else []) ++
        ((if flagged 7 Cond then [DOOR_BRIDGED_8] else []) ++
        ((if flagged 8 Cond then [DOOR_BRIDGED_9] else []) ++
        (if flagged 9 Cond then [DOOR_BRIDGED_10] else []))))))))) := by
  simp only [decode, decode1_errors, decode2_errors, decode3_errors, decode4_errors, decode5_errors, decode6_errors, decode7_errors, decode8_errors, decode9_errors, decodeA_errors, List.nil_append, List.append_assoc]

/-- The local `result` at the end of a decode. -/
theorem decode_result (Cond : Nat) (car hall : Bool) :
    (decode Cond car hall).result
      = 0 ||| (if flagged 0 Cond then 1 <<< 0 else 0)
          ||| (if flagged 1 Cond then 1 <<< 1 else 0)
          ||| (if flagged 2 Cond then 1 <<< 2 else 0)
          ||| (if flagged 3 Cond then 1 <<< 3 else 0)
          ||| (if flagged 4 Cond then 1 <<< 4 else 0)
          ||| (if flagged 5 Cond then 1 <<< 5 else 0)
          ||| (if flagged 6 Cond then 1 <<< 6 else 0)
          ||| (if flagged 7 Cond then 1 <<< 7 else 0)
          ||| (if flagged 8 Cond then 1 <<< 8 else 0)
          ||| (if flagged 9 Cond then 1 <<< 9 else 0) := by
  simp only [decode, decode1_result, decode2_result, decode3_result, decode4_result, decode5_result, decode6_result, decode7_result, decode8_result, decode9_result, decodeA_result]

theorem mem_decode_errors (Cond : Nat) (car hall : Bool) (k : Fin 10) :
    DOOR_BRIDGED k ∈ (decode Cond car hall).errors ↔ flagged k Cond = true := by
  rw [decode_errors]
  fin_cases k <;>
    simp [DOOR_BRIDGED, List.mem_append, apply_ite (fun l => _ ∈ l)]

theorem testBit_ite_shift (c : Bool) (k i : Nat) :
    Nat.testBit (if c then 1 <<< k else 0) i = (c && decide (k = i)) := by
  cases c <;> simp [Nat.one_shiftLeft, Nat.testBit_two_pow]

theorem testBit_decode_result (Cond : Nat) (car hall : Bool) (k : Fin 10) :
    Nat.testBit (decode Cond car hall).result k.val = flagged k Cond := by
  rw [decode_result]
  simp only [Nat.testBit_or, testBit_ite_shift, Nat.zero_testBit]
  fin_cases k <;> simp

theorem decode_result_eq_zero (Cond : Nat) (car hall : Bool) :
    (decode Cond car hall).result = 0 ↔ ∀ k : Fin 10, flagged k Cond = false := by
  constructor
  · intro h k
    rw [← testBit_decode_result Cond car hall k, h, Nat.zero_testBit]
  · intro h
    apply Nat.eq_of_testBit_eq
    intro i
    rw [decode_result]
    simp [h]

/-! ## The accumulator -/

/-- Folding keeps the aggregate within 32 bits. -/
theorem foldCond_lt (a r : Nat) (ha : a < 2 ^ 32) : foldCond a r < 2 ^ 32 := by
  unfold foldCond DONTCARE_MASK
  apply Nat.or_lt_two_pow
  · exact Nat.lt_of_le_of_lt Nat.and_le_left ha
  · exact Nat.lt_of_le_of_lt Nat.and_le_left (by norm_num)

theorem pointFold_dontcare (x : Nat) (hx : x < 4) : (x &&& 2) ||| (2 &&& 2) = 2 := by
  interval_cases x <;> rfl

theorem GET_BRG_foldCond_high (k : Fin 10) (a r : Nat) :
    (GET_BRG k (foldCond a r)).testBit 1 = (GET_BRG k r).testBit 1 := by
  rw [GET_BRG_foldCond]
  have hr := GET_BRG_lt k r
  have ha := GET_BRG_lt k a
  generalize GET_BRG k r = v at *
  generalize GET_BRG k a = x at *
  interval_cases v <;> interval_cases x <;> rfl

theorem GET_BRG_foldCond_low (k : Fin 10) (a r : Nat) :
    (GET_BRG k (foldCond a r)).testBit 0
      = ((GET_BRG k a).testBit 0 && (GET_BRG k r).testBit 0) := by
  rw [GET_BRG_foldCond]
  have hr := GET_BRG_lt k r
  have ha := GET_BRG_lt k a
  generalize GET_BRG k r = v at *
  generalize GET_BRG k a = x at *
  interval_cases v <;> interval_cases x <;> rfl

/-- C4 (accumulator fold).  The next aggregate is `(aggregate AND row) OR (row
AND 0xAAAAAAAA)`, and at each of the ten points the new 2-bit value is a
function of the old value and of the row's value at that point only: its high
bit is the row's high bit and its low bit is the AND of the two low bits. -/
theorem C4_fold_is_pointwise (a r : Nat) (k : Fin 10) :
    foldCond a r = (a &&& r) ||| (r &&& 0xAAAAAAAA) ∧
    GET_BRG k (foldCond a r)
      = (GET_BRG k a &&& GET_BRG k r) ||| (DONTCARE &&& GET_BRG k r) ∧
    (GET_BRG k (foldCond a r)).testBit 1 = (GET_BRG k r).testBit 1 ∧
    (GET_BRG k (foldCond a r)).testBit 0
      = ((GET_BRG k a).testBit 0 && (GET_BRG k r).testBit 0) := by
  refine ⟨?_, GET_BRG_foldCond k a r, GET_BRG_foldCond_high k a r, GET_BRG_foldCond_low k a r⟩
  unfold foldCond DONTCARE_MASK
  rw [Nat.and_comm 0xAAAAAAAA r]

/-- C5, as the claim states it, fails: folding the first row of
`ssCheckFDCLRDOL_COO`, whose point 1 is `DONTCARE`, into the aggregate of a
freshly armed run, whose point 1 holds `_ON`, does not keep `_ON` with the
marker bit added (that would be the value 3): the low bit is cleared and the
point holds exactly `DONTCARE`. -/
theorem C5_counterexample :
    GET_BRG 0 rowDontCare1 = DONTCARE ∧
    GET_BRG 0 0x55555555 = _ON ∧
    GET_BRG 0 (foldCond 0x55555555 rowDontCare1) = DONTCARE ∧
    GET_BRG 0 (foldCond 0x55555555 rowDontCare1) ≠ (GET_BRG 0 0x55555555 ||| DONTCARE) ∧
    (GET_BRG 0 (foldCond 0x55555555 rowDontCare1)).testBit 0
      ≠ (GET_BRG 0 0x55555555).testBit 0 := by
  decide

/-- C5 (amended).  For a row whose value at point `k + 1` is `DONTCARE`, the
fold makes the point exactly `DONTCARE`, whatever its previous value (the
marker bit is set and the ON/OFF bit is cleared); for a row value `_ON` or
`_FF` the new value of the point is the AND of the aggregate value and the row
value. -/
theorem C5_fold_dontcare_overwrites (a r : Nat) (k : Fin 10)
    (h : GET_BRG k r = DONTCARE ∨ GET_BRG k r = _ON ∨ GET_BRG k r = _FF) :
    GET_BRG k (foldCond a r)
      = if GET_BRG k r = DONTCARE then DONTCARE else GET_BRG k a &&& GET_BRG k r := by
  rw [GET_BRG_foldCond]
  have ha := GET_BRG_lt k a
  rcases h with h | h | h
  · rw [h]; simpa [DONTCARE, _XX] using pointFold_dontcare _ ha
  · rw [h]; simp [DONTCARE, _XX, _ON]
  · rw [h]; simp [DONTCARE, _XX, _FF]

/-- C5 (amended) at the first row of `ssCheckFDCLRDOL_COO` folded into a fresh
aggregate, point 1. -/
theorem C5_fold_dontcare_overwrites_witness :
    GET_BRG 0 (foldCond 0x55555555 rowDontCare1)
      = if GET_BRG 0 rowDontCare1 = DONTCARE then DONTCARE
        else GET_BRG 0 0x55555555 &&& GET_BRG 0 rowDontCare1 :=
  C5_fold_dontcare_overwrites 0x55555555 rowDontCare1 0 (Or.inl (by decide))

/-- After the last row of a non-empty sequence has been folded, a point whose
value in that row is `DONTCARE` holds `DONTCARE`. -/
theorem foldl_last_dontcare (k : Fin 10) (a : Nat) (rows : List Nat) (last : Nat)
    (h : GET_BRG k last = DONTCARE) :
    GET_BRG k (List.foldl foldCond a (rows ++ [last])) = DONTCARE := by
  rw [List.foldl_append, List.foldl_cons, List.foldl_nil, GET_BRG_foldCond, h]
  exact pointFold_dontcare _ (GET_BRG_lt k _)

/-- The low bit of a point after a sequence of folds is the AND of its low bit
before and of the low bits of the row values. -/
theorem foldl_low_bit (k : Fin 10) (rows : List Nat) (a : Nat) :
    (GET_BRG k (List.foldl foldCond a rows)).testBit 0
      = ((GET_BRG k a).testBit 0 && rows.all (fun row => (GET_BRG k row).testBit 0)) := by
  induction rows generalizing a with
  | nil => simp
  | cons row rows ih =>
    rw [List.foldl_cons, ih, GET_BRG_foldCond_low]
    simp [Bool.and_assoc]

/-- The high bit of a point after a non-empty sequence of folds is the high bit
of the value of the last row. -/
theorem foldl_high_bit (k : Fin 10) (a : Nat) (rows : List Nat) (last : Nat) :
    (GET_BRG k (List.foldl foldCond a (rows ++ [last]))).testBit 1
      = (GET_BRG k last).testBit 1 := by
  rw [List.foldl_append, List.foldl_cons, List.foldl_nil]
  exact GET_BRG_foldCond_high k _ last

theorem two_bit_value (v : Nat) (hv : v < 4) (b1 b0 : Bool)
    (h1 : v.testBit 1 = b1) (h0 : v.testBit 0 = b0) :
    v = (if b1 then 2 else 0) + (if b0 then 1 else 0) := by
  subst h1 h0
  interval_cases v <;> rfl

theorem GET_BRG_fresh (k : Fin 10) : GET_BRG k 0x55555555 = _ON := by
  fin_cases k <;> rfl

/-- Fold a non-empty sequence of bridge vectors, whose values at point `k + 1`
are ON, OFF or DONTCARE, into the aggregate of a freshly armed run.  The final
value of the point is `DONTCARE` exactly when the last folded vector has
`DONTCARE` there; when all folded vectors report the same ON/OFF value the
final value is that value; and when some earlier vector has `DONTCARE` but the
last one has not, the final value is `_FF`. -/
theorem foldl_point_convergence (k : Fin 10) (rows : List Nat) (last : Nat)
    (hvals : ∀ row ∈ rows ++ [last],
      GET_BRG k row = _ON ∨ GET_BRG k row = _FF ∨ GET_BRG k row = DONTCARE) :
    (GET_BRG k (List.foldl foldCond 0x55555555 (rows ++ [last])) = DONTCARE
      ↔ GET_BRG k last = DONTCARE) ∧
    (∀ v, (v = _ON ∨ v = _FF) → (∀ row ∈ rows ++ [last], GET_BRG k row = v) →
      GET_BRG k (List.foldl foldCond 0x55555555 (rows ++ [last])) = v) ∧
    ((∃ row ∈ rows, GET_BRG k row = DONTCARE) → GET_BRG k last ≠ DONTCARE →
      GET_BRG k (List.foldl foldCond 0x55555555 (rows ++ [last])) = _FF) := by
  have hlt := GET_BRG_lt k (List.foldl foldCond 0x55555555 (rows ++ [last]))
  have hhi := foldl_high_bit k 0x55555555 rows last
  have hlo := foldl_low_bit k (rows ++ [last]) 0x55555555
  have hval := two_bit_value _ hlt _ _ hhi hlo
  have hlast := hvals last (by simp)
  refine ⟨⟨?_, foldl_last_dontcare k _ rows last⟩, ?_, ?_⟩
  · intro h
    rw [h] at hhi
    rcases hlast with h1 | h1 | h1
    · rw [h1] at hhi; exact absurd hhi (by decide)
    · rw [h1] at hhi; exact absurd hhi (by decide)
    · exact h1
  · intro v hv hall
    rw [hval, hall last (by simp)]
    have hallb : (rows ++ [last]).all (fun row => (GET_BRG k row).testBit 0) = v.testBit 0 := by
      rcases hv with rfl | rfl
      · have : (rows ++ [last]).all (fun row => (GET_BRG k row).testBit 0) = true := by
          rw [List.all_eq_true]
          intro row hrow
          rw [hall row hrow]; rfl
        rw [this]; rfl
      · have : (rows ++ [last]).all (fun row => (GET_BRG k row).testBit 0) = false := by
          rw [List.all_eq_false]
          exact ⟨last, by simp, by rw [hall last (by simp)]; decide⟩
        rw [this]; rfl
    rw [hallb, GET_BRG_fresh]
    rcases hv with rfl | rfl <;> decide
  · rintro ⟨row, hrow, hdc⟩ hne
    have hallb : (rows ++ [last]).all (fun row => (GET_BRG k row).testBit 0) = false := by
      rw [List.all_eq_false]
      exact ⟨row, by simp [hrow], by rw [hdc]; decide⟩
    rw [hval, hallb, Bool.and_false]
    rcases hlast with h1 | h1 | h1
    · rw [h1]; decide
    · rw [h1]; decide
    · exact absurd h1 hne

/-! ## The fault decode -/

/-- C3, as the claim states it, fails: in the aggregate `condOffOffOn` point 1
is resolved to `_FF`, which is not `DONTCARE`, yet the decode raises no point-1
fault and leaves bit 0 of `result` clear; it reports point 3 only, the one
point that holds `_ON`. -/
theorem C3_counterexample :
    GET_BRG 0 condOffOffOn = _FF ∧
    GET_BRG 0 condOffOffOn ≠ DONTCARE ∧
    DOOR_BRIDGED 0 ∉ (decode condOffOffOn false false).errors ∧
    (decode condOffOffOn false false).result.testBit 0 = false ∧
    (decode condOffOffOn false false).errors = [DOOR_BRIDGED_3] ∧
    (decode condOffOffOn false false).result = 4 := by
  decide

/-- C3 (amended).  For every final aggregate and each of the ten points
independently, the fault of point `k + 1` is raised and bit `k` of `result` is
set exactly when the 2-bit value of the point is `_ON`; a point resolved to
`_FF`, a `DONTCARE` point and a point holding 3 raise nothing. -/
theorem C3_decode_flags_on_points (Cond : Nat) (car hall : Bool) (k : Fin 10) :
    (DOOR_BRIDGED k ∈ (decode Cond car hall).errors ↔ GET_BRG k Cond = _ON) ∧
    ((decode Cond car hall).result.testBit k.val = true ↔ GET_BRG k Cond = _ON) := by
  constructor
  · rw [mem_decode_errors, flagged_iff]
  · rw [testBit_decode_result, flagged_iff]

/-! ## Pattern matching -/

theorem SS_GET_of_SS_COND (tk tkd kt ktd : Nat)
    (h1 : tk ≤ 2) (h2 : tkd ≤ 2) (h3 : kt ≤ 2) (h4 : ktd ≤ 2) :
    SS_GET_TK (SS_COND tk tkd kt ktd) = tk ∧ SS_GET_TKD (SS_COND tk tkd kt ktd) = tkd ∧
    SS_GET_KT (SS_COND tk tkd kt ktd) = kt ∧ SS_GET_KTD (SS_COND tk tkd kt ktd) = ktd := by
  interval_cases tk <;> interval_cases tkd <;> interval_cases kt <;> interval_cases ktd <;>
    decide

theorem field_dontcare_iff (v : Nat) (h : v ≤ 2) : (v &&& DONTCARE) ≠ 0 ↔ v = DONTCARE := by
  interval_cases v <;> decide

/-- The match condition of a row whose pattern was written with `SS_COND` from
fields in `{_ON, _FF, _XX}`. -/
theorem rowMatches_iff (tk tkd kt ktd bc : Nat)
    (h1 : tk ≤ 2) (h2 : tkd ≤ 2) (h3 : kt ≤ 2) (h4 : ktd ≤ 2) (r : Reading) :
    rowMatches r ⟨SS_COND tk tkd kt ktd, bc⟩ = true ↔
      (tk = DONTCARE ∨ tk = r.SAF3Raw) ∧ (tkd = DONTCARE ∨ tkd = r.SAF3RRaw) ∧
      (kt = DONTCARE ∨ kt = r.SAF4Raw) ∧ (ktd = DONTCARE ∨ ktd = r.SAF4RRaw) := by
  obtain ⟨e1, e2, e3, e4⟩ := SS_GET_of_SS_COND tk tkd kt ktd h1 h2 h3 h4
  simp only [rowMatches, e1, e2, e3, e4, decide_eq_true_eq,
    field_dontcare_iff tk h1, field_dontcare_iff tkd h2, field_dontcare_iff kt h3,
    field_dontcare_iff ktd h4]

/-- C8 (pattern matching).  For a row pattern with fields in `{ON, OFF,
DONTCARE}` and any live reading, the pattern matches iff each of its four
fields is `DONTCARE` or equals the corresponding live value.  Hence two
readings that differ only at fields whose pattern is `DONTCARE` give the same
match result, and a reading that differs from a matching one at a field whose
pattern is not `DONTCARE` does not match. -/
theorem C8_pattern_match (tk tkd kt ktd bc : Nat)
    (h1 : tk ≤ 2) (h2 : tkd ≤ 2) (h3 : kt ≤ 2) (h4 : ktd ≤ 2) (r : Reading) :
    (rowMatches r ⟨SS_COND tk tkd kt ktd, bc⟩ = true ↔
      (tk = DONTCARE ∨ tk = r.SAF3Raw) ∧ (tkd = DONTCARE ∨ tkd = r.SAF3RRaw) ∧
      (kt = DONTCARE ∨ kt = r.SAF4Raw) ∧ (ktd = DONTCARE ∨ ktd = r.SAF4RRaw)) ∧
    (∀ r2 : Reading,
      (tk = DONTCARE ∨ r2.SAF3Raw = r.SAF3Raw) → (tkd = DONTCARE ∨ r2.SAF3RRaw = r.SAF3RRaw) →
      (kt = DONTCARE ∨ r2.SAF4Raw = r.SAF4Raw) → (ktd = DONTCARE ∨ r2.SAF4RRaw = r.SAF4RRaw) →
      rowMatches r2 ⟨SS_COND tk tkd kt ktd, bc⟩ = rowMatches r ⟨SS_COND tk tkd kt ktd, bc⟩) ∧
    (∀ r2 : Reading, rowMatches r ⟨SS_COND tk tkd kt ktd, bc⟩ = true →
      ((tk ≠ DONTCARE ∧ r2.SAF3Raw ≠ r.SAF3Raw) ∨ (tkd ≠ DONTCARE ∧ r2.SAF3RRaw ≠ r.SAF3RRaw) ∨
       (kt ≠ DONTCARE ∧ r2.SAF4Raw ≠ r.SAF4Raw) ∨ (ktd ≠ DONTCARE ∧ r2.SAF4RRaw ≠ r.SAF4RRaw)) →
      rowMatches r2 ⟨SS_COND tk tkd kt ktd, bc⟩ = false) := by
  refine ⟨rowMatches_iff tk tkd kt ktd bc h1 h2 h3 h4 r, ?_, ?_⟩
  · intro r2 a1 a2 a3 a4
    rw [Bool.eq_iff_iff, rowMatches_iff tk tkd kt ktd bc h1 h2 h3 h4 r2,
      rowMatches_iff tk tkd kt ktd bc h1 h2 h3 h4 r]
    rcases a1 with a1 | a1 <;> rcases a2 with a2 | a2 <;> rcases a3 with a3 | a3 <;>
      rcases a4 with a4 | a4 <;> simp [a1, a2, a3, a4]
  · intro r2 hm hd
    rw [rowMatches_iff tk tkd kt ktd bc h1 h2 h3 h4 r] at hm
    rw [Bool.eq_false_iff]
    intro hm2
    rw [rowMatches_iff tk tkd kt ktd bc h1 h2 h3 h4 r2] at hm2
    obtain ⟨m1, m2, m3, m4⟩ := hm
    obtain ⟨n1, n2, n3, n4⟩ := hm2
    rcases hd with ⟨d, e⟩ | ⟨d, e⟩ | ⟨d, e⟩ | ⟨d, e⟩
    · exact e ((n1.resolve_left d).symm.trans (m1.resolve_left d))
    · exact e ((n2.resolve_left d).symm.trans (m2.resolve_left d))
    · exact e ((n3.resolve_left d).symm.trans (m3.resolve_left d))
    · exact e ((n4.resolve_left d).symm.trans (m4.resolve_left d))

/-- C8 at the pattern of the first row of `ssCheckFDCLRDOL_CXX`: it matches
TK = 0, KT = 1 whatever TKD and KTD are, and stops matching when TK becomes 1. -/
theorem C8_pattern_match_witness :
    rowMatches readingTKoff rowCXX1 = true ∧
    rowMatches { readingTKoff with SAF3RRaw := 0, SAF4RRaw := 1 } rowCXX1 = true ∧
    rowMatches { readingTKoff with SAF3Raw := 1 } rowCXX1 = false := by
  have h := C8_pattern_match _FF _XX _ON _XX rowOn1 (by decide) (by decide) (by decide)
    (by decide) readingTKoff
  refine ⟨by decide, ?_, ?_⟩
  · exact (h.2.1 { readingTKoff with SAF3RRaw := 0, SAF4RRaw := 1 } (Or.inr rfl) (Or.inl rfl)
      (Or.inr rfl) (Or.inl rfl)).trans (by decide)
  · exact h.2.2 { readingTKoff with SAF3Raw := 1 } (by decide) (Or.inl ⟨by decide, by decide⟩)

/-! ## The step function, case by case -/

theorem logState_eq (m : State) : logState m = { m with pcdc_state := m.cdc_state } := by
  unfold logState
  split
  · rfl
  · rename_i h
    simp only [ne_eq, Decidable.not_not] at h
    cases m
    simp_all

theorem step_eq_some {s s' : State} {r : Reading} (h : step s r = some s') :
    ∃ m, switchBody s r = some m ∧ s' = { m with pcdc_state := m.cdc_state } := by
  unfold step at h
  rw [Option.map_eq_some'] at h
  obtain ⟨m, hm, rfl⟩ := h
  exact ⟨m, hm, logState_eq m⟩

/-- The search over `ssDoubleDoor` or `ssSingleDoor` always ends inside the
array, and when it leaves through `break` it has found the start of one of the
four `DOOR_SS_CHECK` arrays. -/
theorem doorSearch_ssDoor (FD RD : Nat) (c : Option CheckPtr) (r : Reading) :
    doorSearch FD RD c (ssDoor r) = some none ∨
    ∃ a, doorSearch FD RD c (ssDoor r) = some (some ⟨a, 0⟩) := by
  unfold ssDoor
  cases r.doorTypeRear
  · simp only [Bool.false_eq_true, if_false, ssSingleDoor, doorSearch]
    split_ifs <;> simp
  · simp only [if_true, ssDoubleDoor, doorSearch]
    split_ifs <;> simp

/-- What `case CDC_IDLE` can do: arm a run, forget the armed scenario, or
nothing. -/
theorem caseIdle_cases (s : State) (r : Reading) :
    (∃ a, caseIdle s r = some { s with
        cdc_state := CDC_ARM_TEST, ssCheck := some ⟨a, 0⟩, ssCur := some ⟨a, 0⟩,
        tFDState := FDState r, tRDState := RDState r, Cond := 0x55555555 }) ∨
    caseIdle s r = some { s with
        tFDState := FDState r, tRDState := RDState r, ssCheck := none } ∨
    caseIdle s r = some s := by
  unfold caseIdle
  split_ifs with h1 h2
  · rcases doorSearch_ssDoor (FDState r) (RDState r) s.ssCheck r with h | ⟨a, h⟩
    · right; right; rw [h]
    · left; exact ⟨a, by rw [h]⟩
  · right; left; rfl
  · right; right; rfl

/-! ### Facts about the shipped tables -/

/-- Every `DOOR_SS_CHECK` array starts with an entry that has a row table. -/
theorem deref_start (a : CheckArray) :
    ∃ cur dss, (CheckPtr.mk a 0).deref = some cur ∧ cur.ss = some dss := by
  cases a <;> exact ⟨_, _, rfl, rfl⟩

/-- An entry that has a row table is followed by another entry of the same
array, and its row table contains the `0xFFFF` row. -/
theorem deref_real (p : CheckPtr) (cur : DOOR_SS_CHECK) (dss : List DOOR_SS_STAT)
    (h : p.deref = some cur) (hs : cur.ss = some dss) :
    terminated dss = true ∧ ∃ e, p.next.deref = some e := by
  obtain ⟨a, i⟩ := p
  cases a <;> rcases i with _ | _ | _ | _ | _ | i <;>
    simp [CheckPtr.deref, checkArray, ssCheckFDOLRDOL, ssCheckFDOLRDCL, ssCheckFDCLRDOL,
      ssCheckFDCLRDOLSingle] at h <;>
    subst h <;> simp at hs <;> subst hs <;>
    exact ⟨by decide, _, rfl⟩

/-! ### The row search -/

/-- On an array that contains its `0xFFFF` row the search ends inside the
array, and what it leaves in `Cond` is the fold of the first row in front of
the `0xFFFF` row whose pattern matches, or `Cond` itself when there is none. -/
theorem rowSearch_terminated (r : Reading) (c : Nat) (dss : List DOOR_SS_STAT)
    (h : terminated dss = true) :
    rowSearch r c dss = some
      (match (rowsBeforeEnd dss).find? (rowMatches r) with
       | some row => foldCond c row.bridgeCond
       | none => c) := by
  induction dss with
  | nil => simp [terminated] at h
  | cons row rows ih =>
    unfold rowSearch rowsBeforeEnd
    by_cases hend : row.safetyString = 0xFFFF
    · simp [hend]
    · have hrows : terminated rows = true := by
        simpa [terminated, hend] using h
      by_cases hm : rowMatches r row = true
      · simp [hend, hm]
      · simp [hend, hm, ih hrows]

/-! ### Well-formed states -/

theorem wf_iff (s : State) :
    s.wf = true ↔
      (s.ssCur = none ∧ inRun s.cdc_state = false) ∨
      (∃ p cur, s.ssCur = some p ∧ p.deref = some cur ∧
        (inRun s.cdc_state = true → ∃ dss, cur.ss = some dss)) := by
  unfold State.wf
  cases h1 : s.ssCur with
  | none => simp
  | some p =>
    cases h2 : p.deref with
    | none => simp [h2]
    | some cur =>
      cases h3 : cur.ss <;> cases h4 : inRun s.cdc_state <;> simp [h2, h3, h4]

theorem wf_of_ssCur_eq {s t : State} (h : s.wf = true) (hc : t.ssCur = s.ssCur)
    (hr : inRun t.cdc_state = true → inRun s.cdc_state = true) : t.wf = true := by
  rw [wf_iff] at h ⊢
  rcases h with ⟨h1, h2⟩ | ⟨p, cur, h1, h2, h3⟩
  · left
    refine ⟨hc.trans h1, ?_⟩
    cases ht : inRun t.cdc_state
    · rfl
    · rw [hr ht] at h2; exact absurd h2 (by decide)
  · right
    exact ⟨p, cur, hc.trans h1, h2, fun ht => h3 (hr ht)⟩

theorem wf_init : State.init.wf = true := by decide

/-- In a well-formed state, `case CDC_ARM_CHECK` returns: the state in which
only `cdc_state` changed to `CDC_ABORT` when the run is cancelled, and
otherwise the result of `checkEnd` on the state after the row search, the
advance of `ssCur` and the clean up. -/
theorem caseArmCheck_wf (s : State) (r : Reading) (h : s.wf = true)
    (hst : s.cdc_state = CDC_ARM_CHECK) :
    ∃ p cur dss, s.ssCur = some p ∧ p.deref = some cur ∧ cur.ss = some dss ∧
      terminated dss = true ∧
      caseArmCheck s r =
        if cancelled s r then some { s with cdc_state := CDC_ABORT }
        else checkEnd (cleanUp { s with
          Cond := (match (rowsBeforeEnd dss).find? (rowMatches r) with
                   | some row => foldCond s.Cond row.bridgeCond
                   | none => s.Cond)
          ssCur := some p.next }) r := by
  rw [wf_iff] at h
  rcases h with ⟨_, h2⟩ | ⟨p, cur, h1, h2, h3⟩
  · rw [hst] at h2; exact absurd h2 (by decide)
  · obtain ⟨dss, h4⟩ := h3 (by rw [hst]; rfl)
    have ht := (deref_real p cur dss h2 h4).1
    refine ⟨p, cur, dss, h1, h2, h4, ht, ?_⟩
    unfold caseArmCheck searchPart
    simp only [h1, h2, h4, rowSearch_terminated r s.Cond dss ht]

/-- The end of `case CDC_ARM_CHECK` when `ssCur` points to an entry that has a
row table: back to `CDC_ARM_TEST`. -/
theorem checkEnd_more (m : State) (r : Reading) (q : CheckPtr) (e : DOOR_SS_CHECK)
    (d : List DOOR_SS_STAT) (h1 : m.ssCur = some q) (h2 : q.deref = some e)
    (h3 : e.ss = some d) :
    checkEnd m r = some { m with cdc_state := CDC_ARM_TEST } := by
  unfold checkEnd
  simp only [h1, h2, h3]

/-- The end of `case CDC_ARM_CHECK` when `ssCur` points to the entry without a
row table: the decode. -/
theorem checkEnd_last (m : State) (r : Reading) (q : CheckPtr) (e : DOOR_SS_CHECK)
    (h1 : m.ssCur = some q) (h2 : q.deref = some e) (h3 : e.ss = none) :
    checkEnd m r = some { m with
        isCarDoorBridged := (decode m.Cond m.isCarDoorBridged m.isHallDoorBridged).isCarDoorBridged
        isHallDoorBridged :=
          (decode m.Cond m.isCarDoorBridged m.isHallDoorBridged).isHallDoorBridged
        errors := m.errors ++ (decode m.Cond m.isCarDoorBridged m.isHallDoorBridged).errors
        cdc_state :=
          if r.SRFD then
            (if (decode m.Cond m.isCarDoorBridged m.isHallDoorBridged).result ≠ 0
              then CDC_ARM_ERROR_DETECTED else CDC_ARM_TEST_PASSED)
          else CDC_ABORT } := by
  unfold checkEnd
  simp only [h1, h2, h3]

/-- In a well-formed state, `case CDC_ARM_TEST` never takes one of its two
sanity branches: it cancels or drives the relays of the current entry. -/
theorem caseArmTest_wf (s : State) (r : Reading) (h : s.wf = true)
    (hst : s.cdc_state = CDC_ARM_TEST) :
    ∃ p cur dss, s.ssCur = some p ∧ p.deref = some cur ∧ cur.ss = some dss ∧
      caseArmTest s r =
        if cancelled s r then some { s with cdc_state := CDC_ABORT }
        else some { s with
          DCTR := decide (cur.bK39 = _FF)
          oDK9 := if cur.bK9 ≠ _XX then decide (cur.bK9 = _ON) else s.oDK9
          oDK10 := if cur.bK10 ≠ _XX then decide (cur.bK10 = _ON) else s.oDK10
          cdc_state := CDC_ARM_WAIT
          delay := some CDC_ARM_WAIT_TIME } := by
  rw [wf_iff] at h
  rcases h with ⟨_, h2⟩ | ⟨p, cur, h1, h2, h3⟩
  · rw [hst] at h2; exact absurd h2 (by decide)
  · obtain ⟨dss, h4⟩ := h3 (by rw [hst]; rfl)
    refine ⟨p, cur, dss, h1, h2, h4, ?_⟩
    unfold caseArmTest
    simp only [h1, h2, h4]

theorem caseIdle_wf (m : State) (r : Reading) (h : m.wf = true) :
    ∃ t, caseIdle m r = some t ∧ t.wf = true := by
  rcases caseIdle_cases m r with ⟨a, h1⟩ | h1 | h1
  · refine ⟨_, h1, ?_⟩
    rw [wf_iff]
    right
    obtain ⟨cur, dss, hd, hs⟩ := deref_start a
    exact ⟨⟨a, 0⟩, cur, rfl, hd, fun _ => ⟨dss, hs⟩⟩
  · exact ⟨_, h1, wf_of_ssCur_eq h rfl (fun ht => ht)⟩
  · exact ⟨_, h1, h⟩

theorem caseArmWait_wf (s : State) (r : Reading) (h : s.wf = true)
    (hst : s.cdc_state = CDC_ARM_WAIT) :
    ∃ t, caseArmWait s r = some t ∧ t.wf = true := by
  unfold caseArmWait
  split_ifs
  · exact ⟨_, rfl, wf_of_ssCur_eq h rfl (fun ht => by simp [inRun] at ht)⟩
  · exact ⟨_, rfl, wf_of_ssCur_eq h rfl (fun _ => by rw [hst]; rfl)⟩
  · exact ⟨_, rfl, h⟩

theorem caseArmTest_total_wf (s : State) (r : Reading) (h : s.wf = true)
    (hst : s.cdc_state = CDC_ARM_TEST) :
    ∃ t, caseArmTest s r = some t ∧ t.wf = true := by
  obtain ⟨p, cur, dss, _, _, _, heq⟩ := caseArmTest_wf s r h hst
  rw [heq]
  by_cases hc : cancelled s r = true
  · rw [if_pos hc]
    exact ⟨_, rfl, wf_of_ssCur_eq h rfl (fun ht => by simp [inRun] at ht)⟩
  · rw [if_neg hc]
    exact ⟨_, rfl, wf_of_ssCur_eq h rfl (fun _ => by rw [hst]; rfl)⟩

theorem caseArmCheck_total_wf (s : State) (r : Reading) (h : s.wf = true)
    (hst : s.cdc_state = CDC_ARM_CHECK) :
    ∃ t, caseArmCheck s r = some t ∧ t.wf = true := by
  obtain ⟨p, cur, dss, h1, h2, h3, _, heq⟩ := caseArmCheck_wf s r h hst
  obtain ⟨e, he⟩ := (deref_real p cur dss h2 h3).2
  rw [heq]
  by_cases hc : cancelled s r = true
  · rw [if_pos hc]
    exact ⟨_, rfl, wf_of_ssCur_eq h rfl (fun ht => by simp [inRun] at ht)⟩
  · rw [if_neg hc]
    cases hes : e.ss with
    | none =>
      rw [checkEnd_last _ r p.next e rfl he hes]
      refine ⟨_, rfl, ?_⟩
      rw [wf_iff]
      right
      refine ⟨p.next, e, rfl, he, fun ht => ?_⟩
      exfalso
      revert ht
      simp only [inRun]
      split_ifs <;> decide
    | some d =>
      rw [checkEnd_more _ r p.next e d rfl he hes]
      refine ⟨_, rfl, ?_⟩
      rw [wf_iff]
      right
      exact ⟨p.next, e, rfl, he, fun _ => ⟨d, hes⟩⟩

/-- From a well-formed state every call returns, in a well-formed state. -/
theorem step_wf (s : State) (r : Reading) (h : s.wf = true) :
    ∃ s', step s r = some s' ∧ s'.wf = true := by
  have key : ∃ m, switchBody s r = some m ∧ m.wf = true := by
    unfold switchBody
    cases hst : s.cdc_state
    · exact caseIdle_wf s r h
    · exact caseArmTest_total_wf s r h hst
    · exact caseArmWait_wf s r h hst
    · exact caseArmCheck_total_wf s r h hst
    · exact ⟨_, rfl, wf_of_ssCur_eq h rfl (fun ht => by simp [inRun, caseArmErrorDetected] at ht)⟩
    · refine ⟨_, rfl, ?_⟩
      unfold caseArmRetryWait
      split_ifs
      · exact wf_of_ssCur_eq h rfl (fun ht => by simp [inRun] at ht)
      · exact h
    · exact ⟨_, rfl, wf_of_ssCur_eq h rfl (fun ht => by simp [inRun, caseArmTestPassed] at ht)⟩
    · exact caseIdle_wf (abortPart s) r
        (wf_of_ssCur_eq h rfl (fun ht => by simp [inRun, abortPart] at ht))
    · exact ⟨_, rfl, h⟩
  obtain ⟨m, hm, hwf⟩ := key
  refine ⟨logState m, by simp [step, hm], ?_⟩
  rw [logState_eq]
  exact wf_of_ssCur_eq hwf rfl (fun ht => ht)

theorem runFrom_wf (rs : List Reading) (s : State) (h : s.wf = true) :
    ∃ t, runFrom s rs = some t ∧ t.wf = true := by
  induction rs generalizing s with
  | nil => exact ⟨s, rfl, h⟩
  | cons r rs ih =>
    obtain ⟨s', hs', hwf⟩ := step_wf s r h
    obtain ⟨t, ht, htwf⟩ := ih s' hwf
    exact ⟨t, by simp [runFrom, hs', ht], htwf⟩

/-- Every sequence of calls from the initial state returns. -/
theorem run_total (rs : List Reading) : ∃ s, run rs = some s ∧ s.wf = true :=
  runFrom_wf rs State.init wf_init

theorem run_wf {rs : List Reading} {s : State} (h : run rs = some s) : s.wf = true := by
  obtain ⟨t, ht, hwf⟩ := run_total rs
  rw [h] at ht
  cases ht
  exact hwf

theorem runFrom_append (s : State) (rs : List Reading) (r : Reading) :
    runFrom s (rs ++ [r]) = (runFrom s rs).bind (fun t => step t r) := by
  induction rs generalizing s with
  | nil => simp [runFrom]
  | cons x xs ih =>
    simp only [List.cons_append, runFrom]
    cases step s x with
    | none => rfl
    | some t => simp [ih]

/-! ### One call, field by field -/

theorem step_of_switchBody {s m : State} {r : Reading} (h : switchBody s r = some m) :
    step s r = some { m with pcdc_state := m.cdc_state } := by
  simp [step, h, logState_eq]

/-- A `CDC_ARM_CHECK` call that is not cancelled, from a well-formed state. -/
theorem step_armCheck (s : State) (r : Reading) (h : s.wf = true)
    (hst : s.cdc_state = CDC_ARM_CHECK) (hc : cancelled s r = false) :
    ∃ p cur dss e s', s.ssCur = some p ∧ p.deref = some cur ∧ cur.ss = some dss ∧
      p.next.deref = some e ∧ step s r = some s' ∧
      s'.Cond = specFirstMatch r s.Cond dss ∧ s'.ssCur = some p.next ∧
      s'.DCTR = false ∧ s'.oDK9 = false ∧ s'.oDK10 = false ∧
      s'.testOkay = s.testOkay ∧ s'.ssCheck = s.ssCheck ∧ s'.delay = s.delay ∧
      s'.tFDState = s.tFDState ∧ s'.tRDState = s.tRDState ∧
      (((∃ d, e.ss = some d) ∧ s'.cdc_state = CDC_ARM_TEST ∧
          s'.isCarDoorBridged = s.isCarDoorBridged ∧
          s'.isHallDoorBridged = s.isHallDoorBridged ∧ s'.errors = s.errors) ∨
       (e.ss = none ∧
          s'.isCarDoorBridged
            = (decode s'.Cond s.isCarDoorBridged s.isHallDoorBridged).isCarDoorBridged ∧
          s'.isHallDoorBridged
            = (decode s'.Cond s.isCarDoorBridged s.isHallDoorBridged).isHallDoorBridged ∧
          s'.errors
            = s.errors ++ (decode s'.Cond s.isCarDoorBridged s.isHallDoorBridged).errors ∧
          s'.cdc_state =
            if r.SRFD then
              (if (decode s'.Cond s.isCarDoorBridged s.isHallDoorBridged).result ≠ 0
                then CDC_ARM_ERROR_DETECTED else CDC_ARM_TEST_PASSED)
            else CDC_ABORT)) := by
  obtain ⟨p, cur, dss, h1, h2, h3, _, heq⟩ := caseArmCheck_wf s r h hst
  obtain ⟨e, he⟩ := (deref_real p cur dss h2 h3).2
  have hsw : switchBody s r = caseArmCheck s r := by
    unfold switchBody; rw [hst]
  rw [heq, hc] at hsw
  simp only [Bool.false_eq_true, if_false] at hsw
  cases hes : e.ss with
  | none =>
    rw [checkEnd_last _ r p.next e rfl he hes] at hsw
    refine ⟨p, cur, dss, e, _, h1, h2, h3, he, step_of_switchBody hsw, ?_⟩
    simp [cleanUp, specFirstMatch, hes]
  | some d =>
    rw [checkEnd_more _ r p.next e d rfl he hes] at hsw
    refine ⟨p, cur, dss, e, _, h1, h2, h3, he, step_of_switchBody hsw, ?_⟩
    simp [cleanUp, specFirstMatch, hes]

/-- Every call other than a `CDC_ARM_CHECK` call that is not cancelled: it puts
no error, does not enter `CDC_ARM_TEST_PASSED` or `CDC_ARM_ERROR_DETECTED`, and
changes the latch only in `CDC_ARM_ERROR_DETECTED` and `CDC_ARM_TEST_PASSED`. -/
theorem step_other (s s' : State) (r : Reading) (h : s.wf = true)
    (hst : s.cdc_state ≠ CDC_ARM_CHECK ∨ cancelled s r = true) (hs : step s r = some s') :
    s'.errors = s.errors ∧ s'.cdc_state ≠ CDC_ARM_TEST_PASSED ∧
    s'.cdc_state ≠ CDC_ARM_ERROR_DETECTED ∧
    s'.testOkay =
      (if s.cdc_state = CDC_ARM_ERROR_DETECTED then false
       else if s.cdc_state = CDC_ARM_TEST_PASSED then true else s.testOkay) ∧
    (s.cdc_state = CDC_ARM_ERROR_DETECTED → s'.cdc_state = CDC_ARM_RETRY_WAIT) ∧
    (s.cdc_state = CDC_ARM_TEST_PASSED → s'.cdc_state = CDC_IDLE) ∧
    s'.isCarDoorBridged
      = (if s.cdc_state = CDC_ARM_TEST_PASSED then false else s.isCarDoorBridged) ∧
    s'.isHallDoorBridged
      = (if s.cdc_state = CDC_ARM_TEST_PASSED then false else s.isHallDoorBridged) := by
  cases hcs : s.cdc_state
  · -- CDC_IDLE
    have hsw : switchBody s r = caseIdle s r := by unfold switchBody; rw [hcs]
    rcases caseIdle_cases s r with ⟨a, h1⟩ | h1 | h1 <;>
      (rw [step_of_switchBody (hsw.trans h1)] at hs; cases hs; simp [hcs])
  · -- CDC_ARM_TEST
    have hsw : switchBody s r = caseArmTest s r := by unfold switchBody; rw [hcs]
    obtain ⟨p, cur, dss, _, _, _, heq⟩ := caseArmTest_wf s r h hcs
    by_cases hc : cancelled s r = true
    · rw [heq, if_pos hc] at hsw
      rw [step_of_switchBody hsw] at hs; cases hs; simp
    · rw [heq, if_neg hc] at hsw
      rw [step_of_switchBody hsw] at hs; cases hs; simp
  · -- CDC_ARM_WAIT
    have hsw : switchBody s r = caseArmWait s r := by unfold switchBody; rw [hcs]
    unfold caseArmWait at hsw
    split_ifs at hsw <;> (rw [step_of_switchBody hsw] at hs; cases hs; simp [hcs])
  · -- CDC_ARM_CHECK
    have hc : cancelled s r = true := hst.resolve_left (fun hn => hn hcs)
    have hsw : switchBody s r = caseArmCheck s r := by unfold switchBody; rw [hcs]
    obtain ⟨p, cur, dss, _, _, _, _, heq⟩ := caseArmCheck_wf s r h hcs
    rw [heq, if_pos hc] at hsw
    rw [step_of_switchBody hsw] at hs; cases hs; simp
  · -- CDC_ARM_ERROR_DETECTED
    have hsw : switchBody s r = some (caseArmErrorDetected s) := by
      unfold switchBody; rw [hcs]
    rw [step_of_switchBody hsw] at hs; cases hs; simp [caseArmErrorDetected]
  · -- CDC_ARM_RETRY_WAIT
    have hsw : switchBody s r = some (caseArmRetryWait s r) := by
      unfold switchBody; rw [hcs]
    unfold caseArmRetryWait at hsw
    split_ifs at hsw <;> (rw [step_of_switchBody hsw] at hs; cases hs; simp [hcs])
  · -- CDC_ARM_TEST_PASSED
    have hsw : switchBody s r = some (caseArmTestPassed s) := by
      unfold switchBody; rw [hcs]
    rw [step_of_switchBody hsw] at hs; cases hs; simp [caseArmTestPassed]
  · -- CDC_ABORT
    have hsw : switchBody s r = caseIdle (abortPart s) r := by unfold switchBody; rw [hcs]
    rcases caseIdle_cases (abortPart s) r with ⟨a, h1⟩ | h1 | h1 <;>
      (rw [step_of_switchBody (hsw.trans h1)] at hs; cases hs; simp [abortPart])
  · -- CDC_END
    have hsw : switchBody s r = some s := by unfold switchBody; rw [hcs]
    rw [step_of_switchBody hsw] at hs; cases hs; simp [hcs]

theorem decode_errors_nil (Cond : Nat) (car hall : Bool)
    (h : ∀ k : Fin 10, flagged k Cond = false) : (decode Cond car hall).errors = [] := by
  rw [decode_errors]
  simp [h]

/-! ## The latch -/

/-- C1 (monotonic latch).  The latch starts TRUE.  Every sequence of calls from
the initial state and every further call return, the value returned is the
latch, and: the call changes the latch from FALSE to TRUE only if it starts in
`CDC_ARM_TEST_PASSED`; it enters `CDC_ARM_TEST_PASSED` only if it is a
`CDC_ARM_CHECK` call that is not cancelled, has the request signal asserted,
checks an entry whose successor is the entry that ends the array, flags no
point in the aggregate it leaves and puts no error; and a call that starts in
or enters `CDC_ABORT` leaves the latch as it was. -/
theorem C1_latch_monotonic :
    State.init.testOkay = true ∧
    ∀ (rs : List Reading) (r : Reading), ∃ s s',
      run rs = some s ∧ step s r = some s' ∧ MC2XDoorTestOK s r = some s'.testOkay ∧
      (s.testOkay = false → s'.testOkay = true → s.cdc_state = CDC_ARM_TEST_PASSED) ∧
      (s'.cdc_state = CDC_ARM_TEST_PASSED →
        s.cdc_state = CDC_ARM_CHECK ∧ cancelled s r = false ∧ r.SRFD = true ∧
        (∃ p cur dss e, s.ssCur = some p ∧ p.deref = some cur ∧ cur.ss = some dss ∧
          p.next.deref = some e ∧ e.ss = none) ∧
        (∀ k : Fin 10, flagged k s'.Cond = false) ∧ s'.errors = s.errors) ∧
      ((s.cdc_state = CDC_ABORT ∨ s'.cdc_state = CDC_ABORT) → s'.testOkay = s.testOkay) := by
  refine ⟨rfl, fun rs r => ?_⟩
  obtain ⟨s, hrun, hwf⟩ := run_total rs
  by_cases hcase : s.cdc_state = CDC_ARM_CHECK ∧ cancelled s r = false
  · obtain ⟨hst, hc⟩ := hcase
    obtain ⟨p, cur, dss, e, s', h1, h2, h3, he, hstep, hCond, _, _, _, _, hok, _, _, _, _, hend⟩ :=
      step_armCheck s r hwf hst hc
    refine ⟨s, s', hrun, hstep, by simp [MC2XDoorTestOK, hstep], ?_, ?_, fun _ => hok⟩
    · intro hf ht
      rw [hok, hf] at ht
      exact absurd ht (by decide)
    · intro hp
      rcases hend with ⟨_, h5, _⟩ | ⟨hes, _, _, herr, hcs⟩
      · rw [h5] at hp; exact absurd hp (by decide)
      · rw [hp] at hcs
        have hsrfd : r.SRFD = true := by
          cases hr : r.SRFD
          · simp [hr] at hcs
          · rfl
        rw [hsrfd] at hcs
        have hres : (decode s'.Cond s.isCarDoorBridged s.isHallDoorBridged).result = 0 := by
          by_contra hne
          simp [hne] at hcs
        have hfl := (decode_result_eq_zero _ _ _).1 hres
        refine ⟨hst, hc, hsrfd, ⟨p, cur, dss, e, h1, h2, h3, he, hes⟩, hfl, ?_⟩
        rw [herr, decode_errors_nil _ _ _ hfl, List.append_nil]
  · have hst : s.cdc_state ≠ CDC_ARM_CHECK ∨ cancelled s r = true := by
      by_cases h1 : s.cdc_state = CDC_ARM_CHECK
      · right
        cases hc : cancelled s r
        · exact absurd ⟨h1, hc⟩ hcase
        · rfl
      · left; exact h1
    obtain ⟨s', hstep, _⟩ := step_wf s r hwf
    obtain ⟨_, hnp, _, hok, he1, he2, _, _⟩ := step_other s s' r hwf hst hstep
    refine ⟨s, s', hrun, hstep, by simp [MC2XDoorTestOK, hstep], ?_, fun hp => absurd hp hnp, ?_⟩
    · intro hf ht
      rw [hok] at ht
      by_contra hnp2
      split_ifs at ht
      rw [hf] at ht
      exact absurd ht (by decide)
    · intro hab
      rw [hok]
      rcases hab with hab | hab
      · simp [hab]
      · split_ifs with ha hb
        · rw [he1 ha] at hab; exact absurd hab (by decide)
        · rw [he2 hb] at hab; exact absurd hab (by decide)
        · rfl

/-- C1 at a run that fails and then passes: the call that turns the latch from
FALSE to TRUE starts in `CDC_ARM_TEST_PASSED`. -/
theorem C1_latch_monotonic_witness :
    run failThenPassRun = some passedAfterFailState ∧
    step passedAfterFailState (frontOpen 0 0 true) = some idleAfterPassState ∧
    passedAfterFailState.testOkay = false ∧ idleAfterPassState.testOkay = true ∧
    passedAfterFailState.cdc_state = CDC_ARM_TEST_PASSED := by
  have hrun : run failThenPassRun = some passedAfterFailState := by decide
  have hstep : step passedAfterFailState (frontOpen 0 0 true) = some idleAfterPassState := by
    decide
  obtain ⟨s, s', h1, h2, _, h4, _, _⟩ :=
    C1_latch_monotonic.2 failThenPassRun (frontOpen 0 0 true)
  rw [hrun] at h1
  cases h1
  rw [hstep] at h2
  cases h2
  exact ⟨hrun, hstep, rfl, rfl, h4 rfl rfl⟩

/-- C2, as the claim states it, fails.  After `faultRun` the machine checks
the last configuration; the reading TK = 1, KT = 1 with the request signal not
asserted makes the decode raise the faults of points 1, 2 and 3 (and set the
car-door-bridged flag), but the call goes to `CDC_ABORT` and returns TRUE, and
the following call returns TRUE as well. -/
theorem C2_counterexample :
    run faultRun = some faultCheckState ∧
    faultCheckState.cdc_state = CDC_ARM_CHECK ∧ faultCheckState.errors = [] ∧
    step faultCheckState (frontOpen 1 1 false) = some faultAbortedState ∧
    faultAbortedState.errors = [DOOR_BRIDGED_1, DOOR_BRIDGED_2, DOOR_BRIDGED_3] ∧
    faultAbortedState.isCarDoorBridged = true ∧
    MC2XDoorTestOK faultCheckState (frontOpen 1 1 false) = some true ∧
    MC2XDoorTestOK faultAbortedState (frontOpen 1 1 true) = some true ∧
    step faultAbortedState (frontOpen 1 1 true) = some faultIdleState ∧
    MC2XDoorTestOK faultIdleState (frontOpen 1 1 true) = some true := by
  decide

/-- C2 (amended).  In every run, a call that raises at least one fault is a
`CDC_ARM_CHECK` call that is not cancelled and leaves a flagged point in the
aggregate.  If the request signal is asserted in that call, the call moves to
`CDC_ARM_ERROR_DETECTED` and the following call returns FALSE, whatever it
reads.  If the signal is not asserted, the call moves to `CDC_ABORT`, the latch
keeps its value, and the following call returns that value. -/
theorem C2_fault_clears_latch_when_requested (rs : List Reading) (r : Reading)
    (s s' : State) (hrun : run rs = some s) (hstep : step s r = some s')
    (hraise : s'.errors ≠ s.errors) :
    s.cdc_state = CDC_ARM_CHECK ∧ cancelled s r = false ∧
    (∃ k : Fin 10, flagged k s'.Cond = true) ∧
    (r.SRFD = true → s'.cdc_state = CDC_ARM_ERROR_DETECTED ∧
      ∀ r2, MC2XDoorTestOK s' r2 = some false) ∧
    (r.SRFD = false → s'.cdc_state = CDC_ABORT ∧ s'.testOkay = s.testOkay ∧
      ∀ r2, MC2XDoorTestOK s' r2 = some s.testOkay) := by
  have hwf := run_wf hrun
  have hwf' : s'.wf = true := by
    obtain ⟨t, ht, htwf⟩ := step_wf s r hwf
    rw [hstep] at ht
    cases ht
    exact htwf
  by_cases hcase : s.cdc_state = CDC_ARM_CHECK ∧ cancelled s r = false
  · obtain ⟨hst, hc⟩ := hcase
    obtain ⟨p, cur, dss, e, t, _, _, _, _, ht, _, _, _, _, _, hok, _, _, _, _, hend⟩ :=
      step_armCheck s r hwf hst hc
    rw [hstep] at ht
    cases ht
    rcases hend with ⟨_, _, _, _, herr⟩ | ⟨_, _, _, herr, hcs⟩
    · exact absurd herr hraise
    · have hflag : ∃ k : Fin 10, flagged k s'.Cond = true := by
        by_contra hno
        apply hraise
        rw [herr, decode_errors_nil, List.append_nil]
        intro k
        cases hk : flagged k s'.Cond
        · rfl
        · exact absurd ⟨k, hk⟩ hno
      have hres : (decode s'.Cond s.isCarDoorBridged s.isHallDoorBridged).result ≠ 0 := by
        intro h0
        obtain ⟨k, hk⟩ := hflag
        rw [(decode_result_eq_zero _ _ _).1 h0 k] at hk
        exact absurd hk (by decide)
      have hnext : ∀ r2, ∃ s2, step s' r2 = some s2 ∧
          s2.testOkay =
            (if s'.cdc_state = CDC_ARM_ERROR_DETECTED then false
             else if s'.cdc_state = CDC_ARM_TEST_PASSED then true else s'.testOkay) := by
        intro r2
        obtain ⟨s2, hs2, _⟩ := step_wf s' r2 hwf'
        have hne : s'.cdc_state ≠ CDC_ARM_CHECK := by
          rw [hcs]
          split_ifs <;> decide
        exact ⟨s2, hs2, (step_other s' s2 r2 hwf' (Or.inl hne) hs2).2.2.2.1⟩
      refine ⟨hst, hc, hflag, ?_, ?_⟩
      · intro hsr
        have hst' : s'.cdc_state = CDC_ARM_ERROR_DETECTED := by
          rw [hcs, hsr]
          simp [hres]
        refine ⟨hst', fun r2 => ?_⟩
        obtain ⟨s2, hs2, hok2⟩ := hnext r2
        simp [MC2XDoorTestOK, hs2, hok2, hst']
      · intro hsr
        have hst' : s'.cdc_state = CDC_ABORT := by
          rw [hcs, hsr]
          simp
        refine ⟨hst', hok, fun r2 => ?_⟩
        obtain ⟨s2, hs2, hok2⟩ := hnext r2
        simp [MC2XDoorTestOK, hs2, hok2, hst', hok]
  · have hst : s.cdc_state ≠ CDC_ARM_CHECK ∨ cancelled s r = true := by
      by_cases h1 : s.cdc_state = CDC_ARM_CHECK
      · right
        cases hc : cancelled s r
        · exact absurd ⟨h1, hc⟩ hcase
        · rfl
      · left; exact h1
    exact absurd (step_other s s' r hwf hst hstep).1 hraise

/-- C2 (amended) at `faultRun` followed by a check with the request signal
asserted: the following call returns FALSE. -/
theorem C2_fault_clears_latch_when_requested_witness :
    faultCheckState.cdc_state = CDC_ARM_CHECK ∧
    faultDetectedState.cdc_state = CDC_ARM_ERROR_DETECTED ∧
    MC2XDoorTestOK faultDetectedState (frontOpen 1 1 true) = some false := by
  have h := C2_fault_clears_latch_when_requested faultRun (frontOpen 1 1 true)
    faultCheckState faultDetectedState (by decide) (by decide) (by decide)
  exact ⟨h.1, (h.2.2.2.1 rfl).1, (h.2.2.2.1 rfl).2 (frontOpen 1 1 true)⟩

/-! ## First match wins -/

theorem specFirstMatch_first (r : Reading) (c : Nat) (dss pre post : List DOOR_SS_STAT)
    (row : DOOR_SS_STAT) (h : rowsBeforeEnd dss = pre ++ row :: post)
    (hpre : ∀ x ∈ pre, rowMatches r x = false) (hrow : rowMatches r row = true) :
    specFirstMatch r c dss = foldCond c row.bridgeCond := by
  have hnone : pre.find? (rowMatches r) = none := by
    rw [List.find?_eq_none]
    intro x hx
    simp [hpre x hx]
  simp [specFirstMatch, h, List.find?_append, hnone, hrow]

theorem specFirstMatch_none (r : Reading) (c : Nat) (dss : List DOOR_SS_STAT)
    (h : ∀ x ∈ rowsBeforeEnd dss, rowMatches r x = false) :
    specFirstMatch r c dss = c := by
  have hnone : (rowsBeforeEnd dss).find? (rowMatches r) = none := by
    rw [List.find?_eq_none]
    intro x hx
    simp [h x hx]
  simp [specFirstMatch, hnone]

/-- C9 (first match wins).  In every run, a `CDC_ARM_CHECK` call that is not
cancelled returns, the entry `ssCur` points to has a row table, and the
aggregate the call leaves is the one of `specFirstMatch`: if a row in front of
the `0xFFFF` row matches the live reading and no row in front of it does, the
new aggregate is the fold of exactly that row into the old one; if no row
matches, the aggregate is unchanged. -/
theorem C9_first_match_wins (rs : List Reading) (r : Reading) (s : State)
    (hrun : run rs = some s) (hst : s.cdc_state = CDC_ARM_CHECK)
    (hc : cancelled s r = false) :
    ∃ cur dss s', s.cur = some cur ∧ cur.ss = some dss ∧ step s r = some s' ∧
      s'.Cond = specFirstMatch r s.Cond dss ∧
      (∀ pre row post, rowsBeforeEnd dss = pre ++ row :: post →
        (∀ x ∈ pre, rowMatches r x = false) → rowMatches r row = true →
        s'.Cond = foldCond s.Cond row.bridgeCond) ∧
      ((∀ x ∈ rowsBeforeEnd dss, rowMatches r x = false) → s'.Cond = s.Cond) := by
  obtain ⟨p, cur, dss, e, s', h1, h2, h3, _, hstep, hCond, _⟩ :=
    step_armCheck s r (run_wf hrun) hst hc
  refine ⟨cur, dss, s', by simp [State.cur, h1, h2], h3, hstep, hCond, ?_, ?_⟩
  · intro pre row post hsplit hpre hrow
    rw [hCond]
    exact specFirstMatch_first r s.Cond dss pre post row hsplit hpre hrow
  · intro hnone
    rw [hCond]
    exact specFirstMatch_none r s.Cond dss hnone

/-- C9 at the check of the second single-door configuration with TK = 1,
KT = 1: the fourth row of `ssCheckFDCLRDOL_OXX` is the first that matches and
is the one folded. -/
theorem C9_first_match_wins_witness :
    (step cleanCheckState (frontOpen 1 1 true)).map (fun t => t.Cond)
      = some (foldCond cleanCheckState.Cond rowOn1) := by
  obtain ⟨cur, dss, s', h1, h2, h3, _, h5, _⟩ :=
    C9_first_match_wins cleanRun (frontOpen 1 1 true) cleanCheckState (by decide) (by decide)
      (by decide)
  have hcur : cleanCheckState.cur = some ⟨some ssCheckFDCLRDOL_OXX, _FF, _XX, _XX⟩ := by decide
  rw [hcur] at h1
  cases h1
  cases h2
  rw [h3, Option.map_some']
  exact congrArg some
    (h5 [⟨SS_COND _FF _XX _FF _XX, BRG_COND _FF _ON _FF _XX _XX _XX _XX _XX _XX _XX⟩,
      ⟨SS_COND _FF _XX _ON _XX, BRG_COND _FF _FF _ON _XX _XX _XX _XX _XX _XX _XX⟩,
      ⟨SS_COND _ON _XX _FF _XX, BRG_COND _ON _FF _FF _XX _XX _XX _XX _XX _XX _XX⟩]
    ⟨SS_COND _ON _XX _ON _XX, rowOn1⟩ [] (by decide) (by decide) (by decide))

/-! ## The sticky flags -/

/-- C10 (sticky flag mapping).  In every run, a `CDC_ARM_CHECK` call that is
not cancelled and does not go back to `CDC_ARM_TEST` (the call that decodes)
sets the car-door-bridged flag to TRUE iff point 1 or point 8 is flagged in
the final aggregate and otherwise leaves it as it was, and sets the
hall-door-bridged flag to TRUE iff point 5 or point 10 is flagged and
otherwise leaves it as it was; no other point enters either value. -/
theorem C10_sticky_flag_mapping (rs : List Reading) (r : Reading) (s s' : State)
    (hrun : run rs = some s) (hst : s.cdc_state = CDC_ARM_CHECK)
    (hc : cancelled s r = false) (hstep : step s r = some s')
    (hdec : s'.cdc_state ≠ CDC_ARM_TEST) :
    s'.isCarDoorBridged
      = (if flagged 0 s'.Cond = true ∨ flagged 7 s'.Cond = true then true
         else s.isCarDoorBridged) ∧
    s'.isHallDoorBridged
      = (if flagged 4 s'.Cond = true ∨ flagged 9 s'.Cond = true then true
         else s.isHallDoorBridged) := by
  obtain ⟨p, cur, dss, e, t, _, _, _, _, ht, _, _, _, _, _, _, _, _, _, _, hend⟩ :=
    step_armCheck s r (run_wf hrun) hst hc
  rw [hstep] at ht
  cases ht
  rcases hend with ⟨_, h5, _⟩ | ⟨_, hcar, hhall, _, _⟩
  · exact absurd h5 hdec
  · rw [hcar, hhall, decode_isCarDoorBridged, decode_isHallDoorBridged]
    constructor
    · cases s.isCarDoorBridged <;> cases flagged 0 s'.Cond <;> cases flagged 7 s'.Cond <;> rfl
    · cases s.isHallDoorBridged <;> cases flagged 4 s'.Cond <;> cases flagged 9 s'.Cond <;> rfl

/-- C10 at the decode that ends `faultRun`: point 1 is flagged, points 5 and 10
are not. -/
theorem C10_sticky_flag_mapping_witness :
    faultDetectedState.isCarDoorBridged = true ∧
    faultDetectedState.isHallDoorBridged = faultCheckState.isHallDoorBridged := by
  have h := C10_sticky_flag_mapping faultRun (frontOpen 1 1 true) faultCheckState
    faultDetectedState (by decide) (by decide) (by decide) (by decide) (by decide)
  refine ⟨h.1.trans (by decide), h.2.trans (by decide)⟩

/-! ## Scenario selection -/

theorem FDState_cases (r : Reading) :
    FDState r = _ON ∨ FDState r = _FF ∨ FDState r = _XX := by
  unfold FDState
  split_ifs <;> simp

theorem RDState_cases (r : Reading) :
    (r.doorTypeRear = true ∧ (RDState r = _ON ∨ RDState r = _FF ∨ RDState r = _XX)) ∨
    (r.doorTypeRear = false ∧ RDState r = _XX) := by
  unfold RDState
  cases r.doorTypeRear
  · right; simp
  · left
    refine ⟨rfl, ?_⟩
    simp only [if_true]
    split_ifs <;> simp

/-- C7 (scenario selection).  A call in `CDC_IDLE` with no scenario armed and
the request signal asserted returns.  If `specSelect` finds an entry, the call
arms the array of that entry (position 0) and moves to `CDC_ARM_TEST`;
otherwise nothing is armed and the state stays `CDC_IDLE`.  And `specSelect`
finds: for a car with rear door, `ssCheckFDOLRDOL` at front open / rear open,
`ssCheckFDOLRDCL` at front open / rear closed, `ssCheckFDCLRDOL` at front
closed / rear open; for a car without rear door, `ssCheckFDCLRDOLSingle` at
front open, the rear sensors not being read; nothing for every other
observation. -/
theorem C7_scenario_selection (s : State) (r : Reading)
    (hst : s.cdc_state = CDC_IDLE) (harm : s.ssCheck = none) (hreq : r.SRFD = true) :
    ∃ s', step s r = some s' ∧
      (match specSelect (FDState r) (RDState r) (ssDoor r) with
       | some e => s'.ssCheck = e.ss ∧ s'.ssCur = e.ss ∧ s'.cdc_state = CDC_ARM_TEST
       | none => s'.ssCheck = none ∧ s'.ssCur = s.ssCur ∧ s'.cdc_state = CDC_IDLE) ∧
      specSelect (FDState r) (RDState r) (ssDoor r) =
        (if r.doorTypeRear then
          (if FDState r = _ON ∧ RDState r = _ON then
            some ⟨some ⟨.FDOLRDOL, 0⟩, _ON, _ON⟩
           else if FDState r = _ON ∧ RDState r = _FF then
            some ⟨some ⟨.FDOLRDCL, 0⟩, _ON, _FF⟩
           else if FDState r = _FF ∧ RDState r = _ON then
            some ⟨some ⟨.FDCLRDOL, 0⟩, _FF, _ON⟩
           else none)
         else
          (if FDState r = _ON then some ⟨some ⟨.FDCLRDOLSingle, 0⟩, _ON, _XX⟩
           else none)) := by
  have hsw : switchBody s r = caseIdle s r := by unfold switchBody; rw [hst]
  rcases FDState_cases r with hF | hF | hF <;>
    rcases RDState_cases r with ⟨hd, hR | hR | hR⟩ | ⟨hd, hR⟩ <;>
    simp [step, hsw, caseIdle, logState_eq, specSelect, ssDoor, ssDoubleDoor, ssSingleDoor,
      doorSearch, hF, hR, hd, harm, hreq, hst, _ON, _FF, _XX] <;>
    split_ifs <;> simp [harm, hst]

/-- C7 at the initial state of a car without rear door whose front door is
open: the single-door scenario is armed. -/
theorem C7_scenario_selection_witness :
    (step State.init (frontOpen 0 0 true)).map (fun t => (t.ssCheck, t.ssCur, t.cdc_state))
      = some (some ⟨.FDCLRDOLSingle, 0⟩, some ⟨.FDCLRDOLSingle, 0⟩, CDC_ARM_TEST) := by
  obtain ⟨s', h1, h2, _⟩ :=
    C7_scenario_selection State.init (frontOpen 0 0 true) rfl rfl rfl
  have hsel : specSelect (FDState (frontOpen 0 0 true)) (RDState (frontOpen 0 0 true))
      (ssDoor (frontOpen 0 0 true)) = some ⟨some ⟨.FDCLRDOLSingle, 0⟩, _ON, _XX⟩ := by decide
  rw [hsel] at h2
  obtain ⟨a, b, c⟩ := h2
  rw [h1, Option.map_some', a, b, c]

/-! ### One call from an arbitrary state -/

theorem searchPart_inv {s m : State} {r : Reading} {p : CheckPtr} {cur : DOOR_SS_CHECK}
    (h : searchPart s r p cur = some m) :
    m = s ∨ ∃ c, m = { s with Cond := c, ssCur := some p.next } := by
  unfold searchPart at h
  cases hss : cur.ss with
  | none =>
    rw [hss] at h
    simp only [Option.some.injEq] at h
    exact Or.inl h.symm
  | some dss =>
    rw [hss] at h
    simp only at h
    cases hrs : rowSearch r s.Cond dss with
    | none => rw [hrs] at h; simp at h
    | some c =>
      rw [hrs] at h
      simp only [Option.some.injEq] at h
      exact Or.inr ⟨c, h.symm⟩

theorem checkEnd_inv {m t : State} {r : Reading} (h : checkEnd m r = some t) :
    t = { m with cdc_state := CDC_ARM_TEST } ∨
    t = { m with
        isCarDoorBridged := (decode m.Cond m.isCarDoorBridged m.isHallDoorBridged).isCarDoorBridged
        isHallDoorBridged :=
          (decode m.Cond m.isCarDoorBridged m.isHallDoorBridged).isHallDoorBridged
        errors := m.errors ++ (decode m.Cond m.isCarDoorBridged m.isHallDoorBridged).errors
        cdc_state :=
          if r.SRFD then
            (if (decode m.Cond m.isCarDoorBridged m.isHallDoorBridged).result ≠ 0
              then CDC_ARM_ERROR_DETECTED else CDC_ARM_TEST_PASSED)
          else CDC_ABORT } := by
  obtain h1 | ⟨q, h1⟩ := Option.eq_none_or_eq_some m.ssCur
  · simp [checkEnd, h1] at h
  · obtain h2 | ⟨e, h2⟩ := Option.eq_none_or_eq_some q.deref
    · simp [checkEnd, h1, h2] at h
    · obtain h3 | ⟨d, h3⟩ := Option.eq_none_or_eq_some e.ss
      · rw [checkEnd_last m r q e h1 h2 h3] at h
        right
        exact (Option.some.inj h).symm
      · rw [checkEnd_more m r q e d h1 h2 h3] at h
        left
        exact (Option.some.inj h).symm

theorem caseArmCheck_inv {s t : State} {r : Reading} (h : caseArmCheck s r = some t) :
    ∃ p cur, s.ssCur = some p ∧ p.deref = some cur ∧
      ((cancelled s r = true ∧ t = { s with cdc_state := CDC_ABORT }) ∨
       (cancelled s r = false ∧
        ∃ m, searchPart s r p cur = some m ∧ checkEnd (cleanUp m) r = some t)) := by
  obtain h1 | ⟨p, h1⟩ := Option.eq_none_or_eq_some s.ssCur
  · simp [caseArmCheck, h1] at h
  · obtain h2 | ⟨cur, h2⟩ := Option.eq_none_or_eq_some p.deref
    · simp [caseArmCheck, h1, h2] at h
    · refine ⟨p, cur, h1, h2, ?_⟩
      cases hc : cancelled s r
      · right
        refine ⟨rfl, ?_⟩
        obtain hm | ⟨m, hm⟩ := Option.eq_none_or_eq_some (searchPart s r p cur)
        · simp [caseArmCheck, h1, h2, hc, hm] at h
        · refine ⟨m, hm, ?_⟩
          simpa [caseArmCheck, h1, h2, hc, hm] using h
      · left
        refine ⟨rfl, ?_⟩
        simp [caseArmCheck, h1, h2, hc] at h
        exact h.symm.trans (by rw [h1])

theorem caseArmTest_inv {s t : State} {r : Reading} (h : caseArmTest s r = some t) :
    t = { s with cdc_state := CDC_ABORT } ∨
    ∃ p cur dss, cancelled s r = false ∧ s.ssCur = some p ∧ p.deref = some cur ∧
      cur.ss = some dss ∧
      t = { s with
          DCTR := decide (cur.bK39 = _FF)
          oDK9 := if cur.bK9 ≠ _XX then decide (cur.bK9 = _ON) else s.oDK9
          oDK10 := if cur.bK10 ≠ _XX then decide (cur.bK10 = _ON) else s.oDK10
          cdc_state := CDC_ARM_WAIT
          delay := some CDC_ARM_WAIT_TIME } := by
  unfold caseArmTest at h
  cases hc : cancelled s r
  · rw [hc] at h
    simp only [Bool.false_eq_true, if_false] at h
    obtain h1 | ⟨p, h1⟩ := Option.eq_none_or_eq_some s.ssCur
    · rw [h1] at h
      left; exact (Option.some.inj h).symm.trans (by simp only [h1])
    · rw [h1] at h
      simp only at h
      obtain h2 | ⟨cur, h2⟩ := Option.eq_none_or_eq_some p.deref
      · rw [h2] at h; simp at h
      · rw [h2] at h
        simp only at h
        obtain h3 | ⟨dss, h3⟩ := Option.eq_none_or_eq_some cur.ss
        · rw [h3] at h
          left; exact (Option.some.inj h).symm.trans (by simp only [h1])
        · rw [h3] at h
          right
          exact ⟨p, cur, dss, rfl, h1, h2, h3, (Option.some.inj h).symm.trans (by simp only [h1])⟩
  · rw [hc] at h
    simp only [if_true] at h
    left; exact (Option.some.inj h).symm

/-- The sticky flags across one call from any state: a call that does not
start in `CDC_ARM_TEST_PASSED` leaves a flag that is TRUE at TRUE, and puts
errors only by appending. -/
theorem step_flags {s s' : State} {r : Reading} (h : step s r = some s')
    (hst : s.cdc_state ≠ CDC_ARM_TEST_PASSED) :
    (s.isCarDoorBridged = true → s'.isCarDoorBridged = true) ∧
    (s.isHallDoorBridged = true → s'.isHallDoorBridged = true) := by
  obtain ⟨m, hm, rfl⟩ := step_eq_some h
  simp only
  unfold switchBody at hm
  cases hcs : s.cdc_state <;> rw [hcs] at hm <;> simp only at hm
  · rcases caseIdle_cases s r with ⟨a, h1⟩ | h1 | h1 <;>
      (rw [h1] at hm; cases hm; exact ⟨id, id⟩)
  · rcases caseArmTest_inv hm with rfl | ⟨p, cur, dss, _, _, _, _, rfl⟩ <;> exact ⟨id, id⟩
  · unfold caseArmWait at hm
    split_ifs at hm <;> (cases hm; exact ⟨id, id⟩)
  · obtain ⟨p, cur, _, _, hcase⟩ := caseArmCheck_inv hm
    rcases hcase with ⟨_, rfl⟩ | ⟨_, m1, hsp, hce⟩
    · exact ⟨id, id⟩
    · have hm1 : (cleanUp m1).isCarDoorBridged = s.isCarDoorBridged ∧
          (cleanUp m1).isHallDoorBridged = s.isHallDoorBridged := by
        rcases searchPart_inv hsp with rfl | ⟨c, rfl⟩ <;> exact ⟨rfl, rfl⟩
      rcases checkEnd_inv hce with rfl | rfl
      · simp only [hm1.1, hm1.2]
        exact ⟨id, id⟩
      · simp only [decode_isCarDoorBridged, decode_isHallDoorBridged, hm1.1, hm1.2]
        constructor <;> (intro hh; simp [hh])
  · cases hm; exact ⟨id, id⟩
  · unfold caseArmRetryWait at hm
    split_ifs at hm <;> (cases hm; exact ⟨id, id⟩)
  · exact absurd hcs hst
  · rcases caseIdle_cases (abortPart s) r with ⟨a, h1⟩ | h1 | h1 <;>
      (rw [h1] at hm; cases hm; exact ⟨id, id⟩)
  · cases hm; exact ⟨id, id⟩

/-- C11 (sticky flags are cleared only by `CDC_ARM_TEST_PASSED`).  From every
state and for every reading, a call that does not start in
`CDC_ARM_TEST_PASSED` never changes the car-door-bridged flag or the
hall-door-bridged flag from TRUE to FALSE; and a call that starts in
`CDC_ARM_TEST_PASSED` returns and leaves both flags FALSE. -/
theorem C11_flags_cleared_only_when_passed :
    (∀ (s s' : State) (r : Reading), step s r = some s' →
      s.cdc_state ≠ CDC_ARM_TEST_PASSED →
      (s.isCarDoorBridged = true → s'.isCarDoorBridged = true) ∧
      (s.isHallDoorBridged = true → s'.isHallDoorBridged = true)) ∧
    (∀ (s : State) (r : Reading), s.cdc_state = CDC_ARM_TEST_PASSED →
      ∃ s', step s r = some s' ∧
        s'.isCarDoorBridged = false ∧ s'.isHallDoorBridged = false) := by
  refine ⟨fun s s' r h hst => step_flags h hst, fun s r hst => ?_⟩
  have hsw : switchBody s r = some (caseArmTestPassed s) := by
    unfold switchBody; rw [hst]
  exact ⟨_, step_of_switchBody hsw, rfl, rfl⟩

/-- C11 at two calls: from `faultDetectedState` (not `CDC_ARM_TEST_PASSED`) the
car-door-bridged flag stays TRUE, from `passedAfterFailState` it is cleared. -/
theorem C11_flags_cleared_only_when_passed_witness :
    (step faultDetectedState (frontOpen 1 1 true)).map (fun t => t.isCarDoorBridged)
      = some true ∧
    step passedAfterFailState (frontOpen 0 0 true) = some idleAfterPassState ∧
    idleAfterPassState.isCarDoorBridged = false := by
  have hs : step faultDetectedState (frontOpen 1 1 true)
      = some { faultDetectedState with
          testOkay := false, delay := some 20, cdc_state := CDC_ARM_RETRY_WAIT,
          pcdc_state := CDC_ARM_RETRY_WAIT } := by decide
  have h1 := (C11_flags_cleared_only_when_passed.1 _ _ _ hs (by decide)).1 (by decide)
  obtain ⟨t, ht, hcar, _⟩ :=
    C11_flags_cleared_only_when_passed.2 passedAfterFailState (frontOpen 0 0 true) (by decide)
  have hs2 : step passedAfterFailState (frontOpen 0 0 true) = some idleAfterPassState := by
    decide
  rw [hs2] at ht
  cases ht
  exact ⟨by rw [hs]; exact congrArg some h1, hs2, hcar⟩
/-! ## The relay drive -/

/-- C17 (relay drive in `CDC_ARM_TEST`).  A `CDC_ARM_TEST` call that is not
cancelled and whose `ssCur` points to an entry with a row table returns, drives
the door-close-throttle override TRUE exactly when the K39 target is `_FF`
(FALSE otherwise), sets `oDK9` and `oDK10` to (target = `_ON`) when their
target is not `_XX` and leaves them unchanged when it is, starts the delay with
3 tenths of a second, moves to `CDC_ARM_WAIT`, and changes neither the
aggregate nor the position. -/
theorem C17_relay_drive (s : State) (r : Reading) (p : CheckPtr) (cur : DOOR_SS_CHECK)
    (dss : List DOOR_SS_STAT) (hst : s.cdc_state = CDC_ARM_TEST)
    (hc : cancelled s r = false) (h1 : s.ssCur = some p) (h2 : p.deref = some cur)
    (h3 : cur.ss = some dss) :
    ∃ s', step s r = some s' ∧
      s'.DCTR = decide (cur.bK39 = _FF) ∧
      s'.oDK9 = (if cur.bK9 ≠ _XX then decide (cur.bK9 = _ON) else s.oDK9) ∧
      s'.oDK10 = (if cur.bK10 ≠ _XX then decide (cur.bK10 = _ON) else s.oDK10) ∧
      s'.delay = some 3 ∧ s'.cdc_state = CDC_ARM_WAIT ∧
      s'.Cond = s.Cond ∧ s'.ssCur = s.ssCur := by
  have hsw : switchBody s r = caseArmTest s r := by unfold switchBody; rw [hst]
  unfold caseArmTest at hsw
  simp only [hc, h1, h2, h3, Bool.false_eq_true, if_false] at hsw
  exact ⟨_, step_of_switchBody hsw, rfl, rfl, rfl, rfl, rfl, rfl, h1.symm⟩

/-- C17 at the second configuration of the single-door scenario (K39 target
`_FF`, K9 and K10 targets `_XX`): the throttle override is driven TRUE and
`oDK9`, `oDK10` keep their values. -/
theorem C17_relay_drive_witness :
    (step secondTestState (frontOpen 0 0 true)).map
        (fun t => (t.DCTR, t.oDK9, t.oDK10, t.delay, t.cdc_state))
      = some (true, false, false, some 3, CDC_ARM_WAIT) := by
  obtain ⟨s', hs, a, b, c, d, e, _⟩ :=
    C17_relay_drive secondTestState (frontOpen 0 0 true) ⟨.FDCLRDOLSingle, 1⟩
      ⟨some ssCheckFDCLRDOL_OXX, _FF, _XX, _XX⟩ ssCheckFDCLRDOL_OXX
      (by decide) (by decide) (by decide) (by decide) (by decide)
  rw [hs, Option.map_some', a, b, c, d, e]
  decide

/-! ## The value 3 of a point -/

/-- A call of `case CDC_IDLE` leaves `cdc_state` as it was unless it arms, and
it arms only with no scenario armed and the request signal asserted. -/
theorem caseIdle_arms {s t : State} {r : Reading} (h : caseIdle s r = some t)
    (hne : t.cdc_state ≠ s.cdc_state) :
    s.ssCheck = none ∧ r.SRFD = true ∧ t.Cond = 0x55555555 ∧
    t.cdc_state = CDC_ARM_TEST ∧ t.ssCur = t.ssCheck ∧
    ∃ a, t.ssCheck = some ⟨a, 0⟩ := by
  unfold caseIdle at h
  split_ifs at h with hcond hdiff
  · rcases doorSearch_ssDoor (FDState r) (RDState r) s.ssCheck r with hd | ⟨a, hd⟩
    · rw [hd] at h
      cases h
      exact absurd rfl hne
    · rw [hd] at h
      cases h
      exact ⟨hcond.1.2, hcond.2, rfl, rfl, rfl, a, rfl⟩
  · cases h
    exact absurd rfl hne
  · cases h
    exact absurd rfl hne

/-- The selection made by `case CDC_IDLE` with no scenario armed and the
request signal asserted is the one of `specSelect`. -/
theorem caseIdle_select (s : State) (r : Reading) (harm : s.ssCheck = none)
    (hreq : r.SRFD = true) :
    ∃ t, caseIdle s r = some t ∧
      match specSelect (FDState r) (RDState r) (ssDoor r) with
      | some e => t.ssCheck = e.ss ∧ t.ssCur = e.ss ∧ t.cdc_state = CDC_ARM_TEST
      | none => t.ssCheck = none ∧ t.ssCur = s.ssCur ∧ t.cdc_state = s.cdc_state := by
  rcases FDState_cases r with hF | hF | hF <;>
    rcases RDState_cases r with ⟨hd, hR | hR | hR⟩ | ⟨hd, hR⟩ <;>
    simp [caseIdle, specSelect, ssDoor, ssDoubleDoor, ssSingleDoor,
      doorSearch, hF, hR, hd, harm, hreq, _ON, _FF, _XX] <;>
    split_ifs <;> simp [harm]

/-- C19, as the claim states it, fails: in the initial state point 1 of the
accumulated bridge vector holds `_ON` (binary 01), not `DONTCARE`, and so it
does after the call that arms the single-door scenario from the initial
state. -/
theorem C19_counterexample :
    GET_BRG 0 State.init.Cond = _ON ∧ GET_BRG 0 State.init.Cond ≠ DONTCARE ∧
    (step State.init (frontOpen 0 0 true)).map (fun t => (t.cdc_state, GET_BRG 0 t.Cond))
      = some (CDC_ARM_TEST, _ON) := by
  decide

/-- C19 (amended).  In the initial state, and after every `CDC_IDLE` call that
arms a run, the aggregate is `0x55555555`, the complement of the don't-care
mask: each of the ten points holds `_ON` (binary 01).  The call armed the
entry found by `specSelect`, the position is entry 0 of its array, and the
state is `CDC_ARM_TEST`. -/
theorem C19_arming_resets_to_all_on :
    (∀ k : Fin 10, GET_BRG k State.init.Cond = _ON) ∧
    ∀ (s s' : State) (r : Reading), s.cdc_state = CDC_IDLE → step s r = some s' →
      s'.cdc_state ≠ CDC_IDLE →
      s'.cdc_state = CDC_ARM_TEST ∧ s'.Cond = 0x55555555 ∧
      (∀ k : Fin 10, GET_BRG k s'.Cond = _ON) ∧
      ∃ e a, specSelect (FDState r) (RDState r) (ssDoor r) = some e ∧
        e.ss = some ⟨a, 0⟩ ∧ s'.ssCheck = e.ss ∧ s'.ssCur = e.ss := by
  refine ⟨GET_BRG_fresh, fun s s' r hst hstep hne => ?_⟩
  obtain ⟨m, hm, rfl⟩ := step_eq_some hstep
  have hsw : switchBody s r = caseIdle s r := by unfold switchBody; rw [hst]
  rw [hsw] at hm
  have hne' : m.cdc_state ≠ s.cdc_state := by rw [hst]; exact hne
  obtain ⟨harm, hreq, hCond, hcs, hcur, a, hchk⟩ := caseIdle_arms hm hne'
  obtain ⟨t, ht, hsel⟩ := caseIdle_select s r harm hreq
  rw [hm] at ht
  cases ht
  refine ⟨hcs, hCond, ?_, ?_⟩
  · intro k
    simp only [hCond]
    exact GET_BRG_fresh k
  · cases hspec : specSelect (FDState r) (RDState r) (ssDoor r) with
    | none =>
      rw [hspec] at hsel
      exact absurd hsel.2.2 hne'
    | some e =>
      rw [hspec] at hsel
      exact ⟨e, a, rfl, hsel.1.symm.trans hchk, hsel.1, hsel.2.1⟩

/-- C19 (amended) at the call that arms the single-door scenario from the
initial state. -/
theorem C19_arming_resets_to_all_on_witness :
    (step State.init (frontOpen 0 0 true)).map (fun t => (t.Cond, t.ssCur))
      = some (0x55555555, some ⟨.FDCLRDOLSingle, 0⟩) := by
  have hs : step State.init (frontOpen 0 0 true)
      = some { State.init with
          cdc_state := CDC_ARM_TEST, pcdc_state := CDC_ARM_TEST,
          ssCheck := some ⟨.FDCLRDOLSingle, 0⟩, ssCur := some ⟨.FDCLRDOLSingle, 0⟩,
          tFDState := 1, tRDState := 2 } := by decide
  obtain ⟨_, hCond, _, e, a, hsel, _, _, hcur⟩ :=
    C19_arming_resets_to_all_on.2 _ _ _ rfl hs (by decide)
  have hsel2 : specSelect (FDState (frontOpen 0 0 true)) (RDState (frontOpen 0 0 true))
      (ssDoor (frontOpen 0 0 true)) = some ⟨some ⟨.FDCLRDOLSingle, 0⟩, _ON, _XX⟩ := by decide
  rw [hsel2] at hsel
  cases hsel
  rw [hs, Option.map_some']
  exact congrArg some (Prod.ext hCond hcur)

/-! ## Cancellation and `CDC_ABORT` -/

/-- A call that is cancelled in one of the three states of a run changes
`cdc_state` (and its logged copy) only. -/
theorem step_cancelled {s s' : State} {r : Reading} (hst : inRun s.cdc_state = true)
    (hc : cancelled s r = true) (h : step s r = some s') :
    s' = { s with cdc_state := CDC_ABORT, pcdc_state := CDC_ABORT } := by
  obtain ⟨m, hm, rfl⟩ := step_eq_some h
  unfold switchBody at hm
  cases hcs : s.cdc_state <;> rw [hcs] at hst <;> simp [inRun] at hst <;> rw [hcs] at hm <;>
    simp only at hm
  · unfold caseArmTest at hm
    simp only [hc, if_true] at hm
    cases hm
    rfl
  · unfold caseArmWait at hm
    simp only [hc, if_true] at hm
    cases hm
    rfl
  · obtain ⟨p, cur, _, _, hcase⟩ := caseArmCheck_inv hm
    rcases hcase with ⟨_, rfl⟩ | ⟨hc2, _⟩
    · rfl
    · rw [hc] at hc2
      exact absurd hc2 (by decide)

/-- A call that starts in `CDC_ABORT` returns, from any state, with the three
outputs de-energized; it ends in `CDC_IDLE` unless it arms a run, which it can
do only when no scenario is armed; and it empties the armed-scenario memory
exactly when the observed door states differ from the remembered ones. -/
theorem step_abort (s : State) (r : Reading) (hst : s.cdc_state = CDC_ABORT) :
    ∃ s', step s r = some s' ∧ s'.DCTR = false ∧ s'.oDK9 = false ∧ s'.oDK10 = false ∧
      (s.ssCheck ≠ none → s'.cdc_state = CDC_IDLE ∧
        s'.ssCheck
          = (if s.tFDState ≠ FDState r ∨ s.tRDState ≠ RDState r then none else s.ssCheck)) := by
  have hsw : switchBody s r = caseIdle (abortPart s) r := by unfold switchBody; rw [hst]
  unfold caseIdle at hsw
  by_cases hcond : ((FDState r = _ON ∨ RDState r = _ON) ∧ (abortPart s).ssCheck = none) ∧
      r.SRFD = true
  · rw [if_pos hcond] at hsw
    rcases doorSearch_ssDoor (FDState r) (RDState r) (abortPart s).ssCheck r with hd | ⟨a, hd⟩
    · rw [hd] at hsw
      exact ⟨_, step_of_switchBody hsw, rfl, rfl, rfl, fun hne => absurd hcond.1.2 hne⟩
    · rw [hd] at hsw
      exact ⟨_, step_of_switchBody hsw, rfl, rfl, rfl, fun hne => absurd hcond.1.2 hne⟩
  · rw [if_neg hcond] at hsw
    by_cases hdiff : (abortPart s).tFDState ≠ FDState r ∨ (abortPart s).tRDState ≠ RDState r
    · rw [if_pos hdiff] at hsw
      refine ⟨_, step_of_switchBody hsw, rfl, rfl, rfl, fun _ => ⟨rfl, ?_⟩⟩
      have hdiff' : s.tFDState ≠ FDState r ∨ s.tRDState ≠ RDState r := hdiff
      rw [if_pos hdiff']
    · rw [if_neg hdiff] at hsw
      refine ⟨_, step_of_switchBody hsw, rfl, rfl, rfl, fun _ => ⟨rfl, ?_⟩⟩
      have hdiff' : ¬(s.tFDState ≠ FDState r ∨ s.tRDState ≠ RDState r) := hdiff
      rw [if_neg hdiff']
      rfl

/-- C13, as the claim states it, fails.  After `cleanRun` the machine is in
`CDC_ARM_CHECK` with the throttle override driven TRUE; a call that sees the
front door closed with the request signal asserted decides to cancel, and at
the end of that call the override is still TRUE: only `cdc_state` changed. -/
theorem C13_counterexample :
    run cleanRun = some cleanCheckState ∧
    cleanCheckState.cdc_state = CDC_ARM_CHECK ∧ cleanCheckState.DCTR = true ∧
    cancelled cleanCheckState frontClosed = true ∧
    step cleanCheckState frontClosed
      = some { cleanCheckState with cdc_state := CDC_ABORT, pcdc_state := CDC_ABORT } ∧
    (step cleanCheckState frontClosed).map (fun t => t.DCTR) = some true := by
  decide

/-- C13 (amended).  From every state, a call that decides to cancel (a
door-state change observed in `CDC_ARM_TEST`, `CDC_ARM_WAIT` or
`CDC_ARM_CHECK` while the request signal is asserted) only moves to
`CDC_ABORT`: at its end the three relay outputs are what they were at its
start.  They are de-energized by the end of the following call, whatever that
call reads. -/
theorem C13_cancel_deenergizes_next_call (s s' : State) (r : Reading)
    (hst : inRun s.cdc_state = true) (hc : cancelled s r = true)
    (hstep : step s r = some s') :
    s'.cdc_state = CDC_ABORT ∧
    s'.DCTR = s.DCTR ∧ s'.oDK9 = s.oDK9 ∧ s'.oDK10 = s.oDK10 ∧
    ∀ r2, ∃ s2, step s' r2 = some s2 ∧
      s2.DCTR = false ∧ s2.oDK9 = false ∧ s2.oDK10 = false := by
  have heq := step_cancelled hst hc hstep
  have habort : s'.cdc_state = CDC_ABORT := by rw [heq]
  refine ⟨habort, by rw [heq], by rw [heq], by rw [heq], fun r2 => ?_⟩
  obtain ⟨s2, h2, a, b, c, _⟩ := step_abort s' r2 habort
  exact ⟨s2, h2, a, b, c⟩

/-- C13 (amended) at the cancellation of `C13_counterexample`: the override is
TRUE after the cancelling call and FALSE after the next one. -/
theorem C13_cancel_deenergizes_next_call_witness :
    (step cleanCheckState frontClosed).map (fun t => t.DCTR) = some true ∧
    (step { cleanCheckState with cdc_state := CDC_ABORT, pcdc_state := CDC_ABORT }
        frontClosed).map (fun t => t.DCTR) = some false := by
  have hs : step cleanCheckState frontClosed
      = some { cleanCheckState with cdc_state := CDC_ABORT, pcdc_state := CDC_ABORT } := by
    decide
  obtain ⟨_, hd, _, _, hnext⟩ :=
    C13_cancel_deenergizes_next_call cleanCheckState _ frontClosed (by decide) (by decide) hs
  obtain ⟨s2, h2, hd2, _⟩ := hnext frontClosed
  refine ⟨?_, ?_⟩
  · rw [hs, Option.map_some']
    exact congrArg some hd
  · rw [h2, Option.map_some']
    exact congrArg some hd2

/-! ### A scenario is armed during a run -/

theorem armed_init : State.init.armed = true := by decide

theorem step_armed (s s' : State) (r : Reading) (h : s.wf = true) (ha : s.armed = true)
    (hs : step s r = some s') : s'.armed = true := by
  cases hcs : s.cdc_state
  · -- CDC_IDLE
    have hsw : switchBody s r = caseIdle s r := by unfold switchBody; rw [hcs]
    rcases caseIdle_cases s r with ⟨a, h1⟩ | h1 | h1 <;>
      (rw [step_of_switchBody (hsw.trans h1)] at hs; cases hs; simp [State.armed, inRun, hcs])
  · -- CDC_ARM_TEST
    have hsw : switchBody s r = caseArmTest s r := by unfold switchBody; rw [hcs]
    have hchk : s.ssCheck.isSome = true := by simpa [State.armed, inRun, hcs] using ha
    obtain ⟨p, cur, dss, _, _, _, heq⟩ := caseArmTest_wf s r h hcs
    by_cases hc : cancelled s r = true
    · rw [heq, if_pos hc] at hsw
      rw [step_of_switchBody hsw] at hs; cases hs; simp [State.armed, hchk]
    · rw [heq, if_neg hc] at hsw
      rw [step_of_switchBody hsw] at hs; cases hs; simp [State.armed, hchk]
  · -- CDC_ARM_WAIT
    have hsw : switchBody s r = caseArmWait s r := by unfold switchBody; rw [hcs]
    have hchk : s.ssCheck.isSome = true := by simpa [State.armed, inRun, hcs] using ha
    unfold caseArmWait at hsw
    split_ifs at hsw <;>
      (rw [step_of_switchBody hsw] at hs; cases hs; simp [State.armed, hchk])
  · -- CDC_ARM_CHECK
    have hchk : s.ssCheck.isSome = true := by simpa [State.armed, inRun, hcs] using ha
    cases hc : cancelled s r
    · obtain ⟨p, cur, dss, e, t, _, _, _, _, ht, _, _, _, _, _, _, hck, _⟩ :=
        step_armCheck s r h hcs hc
      rw [hs] at ht
      cases ht
      simp [State.armed, hck, hchk]
    · have heq := step_cancelled (by rw [hcs]; rfl) hc hs
      rw [heq]
      simp [State.armed, hchk]
  · -- CDC_ARM_ERROR_DETECTED
    have hsw : switchBody s r = some (caseArmErrorDetected s) := by
      unfold switchBody; rw [hcs]
    rw [step_of_switchBody hsw] at hs; cases hs
    simp [State.armed, inRun, caseArmErrorDetected]
  · -- CDC_ARM_RETRY_WAIT
    have hsw : switchBody s r = some (caseArmRetryWait s r) := by
      unfold switchBody; rw [hcs]
    unfold caseArmRetryWait at hsw
    split_ifs at hsw <;>
      (rw [step_of_switchBody hsw] at hs; cases hs; simp [State.armed, inRun, hcs])
  · -- CDC_ARM_TEST_PASSED
    have hsw : switchBody s r = some (caseArmTestPassed s) := by
      unfold switchBody; rw [hcs]
    rw [step_of_switchBody hsw] at hs; cases hs
    simp [State.armed, inRun, caseArmTestPassed]
  · -- CDC_ABORT
    have hsw : switchBody s r = caseIdle (abortPart s) r := by unfold switchBody; rw [hcs]
    rcases caseIdle_cases (abortPart s) r with ⟨a, h1⟩ | h1 | h1 <;>
      (rw [step_of_switchBody (hsw.trans h1)] at hs; cases hs
       simp [State.armed, inRun, abortPart])
  · -- CDC_END
    have hsw : switchBody s r = some s := by unfold switchBody; rw [hcs]
    rw [step_of_switchBody hsw] at hs; cases hs
    simp [State.armed, inRun, hcs]

theorem runFrom_armed (rs : List Reading) (s t : State) (h : s.wf = true)
    (ha : s.armed = true) (hrun : runFrom s rs = some t) : t.armed = true := by
  induction rs generalizing s with
  | nil =>
    simp only [runFrom, Option.some.injEq] at hrun
    rw [← hrun]; exact ha
  | cons r rs ih =>
    obtain ⟨s', hs', hwf⟩ := step_wf s r h
    simp only [runFrom, hs', Option.some_bind] at hrun
    exact ih s' hwf (step_armed s s' r h ha hs') hrun

/-- In every state of a run from the initial state, a scenario is armed
whenever the machine is in `CDC_ARM_TEST`, `CDC_ARM_WAIT`, `CDC_ARM_CHECK` or
`CDC_ABORT`. -/
theorem run_armed {rs : List Reading} {s : State} (h : run rs = some s) :
    s.armed = true :=
  runFrom_armed rs State.init s wf_init armed_init h

theorem ssCheck_ne_none_of_armed {s : State} (ha : s.armed = true)
    (hst : inRun s.cdc_state = true ∨ s.cdc_state = CDC_ABORT) : s.ssCheck ≠ none := by
  intro hn
  rcases hst with hst | hst <;> simp [State.armed, hn, hst] at ha

/-- C12 (cancellation safety).  In every run, a call in `CDC_ARM_TEST`,
`CDC_ARM_WAIT` or `CDC_ARM_CHECK` that observes door states different from the
remembered ones while the request signal is asserted returns and moves to
`CDC_ABORT`, leaving the relay outputs, the aggregate, the position and the
errors as they were (it drives nothing and folds nothing); and the call that
follows it, whatever it reads, returns with the throttle override, `oDK9` and
`oDK10` all de-energized and the machine in `CDC_IDLE`. -/
theorem C12_cancellation_safety (rs : List Reading) (r : Reading) (s : State)
    (hrun : run rs = some s) (hst : inRun s.cdc_state = true)
    (hc : cancelled s r = true) :
    ∃ s', step s r = some s' ∧ s'.cdc_state = CDC_ABORT ∧
      s'.DCTR = s.DCTR ∧ s'.oDK9 = s.oDK9 ∧ s'.oDK10 = s.oDK10 ∧
      s'.Cond = s.Cond ∧ s'.ssCur = s.ssCur ∧ s'.errors = s.errors ∧
      s'.delay = s.delay ∧
      ∀ r2, ∃ s2, step s' r2 = some s2 ∧
        s2.DCTR = false ∧ s2.oDK9 = false ∧ s2.oDK10 = false ∧
        s2.cdc_state = CDC_IDLE := by
  have hwf := run_wf hrun
  have harm := run_armed hrun
  obtain ⟨s', hstep, _⟩ := step_wf s r hwf
  have heq := step_cancelled hst hc hstep
  have habort : s'.cdc_state = CDC_ABORT := by rw [heq]
  have hchk : s'.ssCheck ≠ none := by
    have hsame : s'.ssCheck = s.ssCheck := by rw [heq]
    rw [hsame]
    exact ssCheck_ne_none_of_armed harm (Or.inl hst)
  refine ⟨s', hstep, habort, by rw [heq], by rw [heq], by rw [heq], by rw [heq], by rw [heq],
    by rw [heq], by rw [heq], fun r2 => ?_⟩
  obtain ⟨s2, h2, a, b, c, hrest⟩ := step_abort s' r2 habort
  exact ⟨s2, h2, a, b, c, (hrest hchk).1⟩

/-- C12 at the cancellation that follows `cleanRun` when the front door
closes: the next call leaves the machine in `CDC_IDLE` with the throttle
override de-energized. -/
theorem C12_cancellation_safety_witness :
    (step cleanCheckState frontClosed).map (fun t => t.cdc_state) = some CDC_ABORT ∧
    (step { cleanCheckState with cdc_state := CDC_ABORT, pcdc_state := CDC_ABORT }
        frontClosed).map (fun t => (t.DCTR, t.cdc_state)) = some (false, CDC_IDLE) := by
  obtain ⟨s', hs, hab, _, _, _, _, _, _, _, hnext⟩ :=
    C12_cancellation_safety cleanRun frontClosed cleanCheckState (by decide) (by decide)
      (by decide)
  have hs0 : step cleanCheckState frontClosed
      = some { cleanCheckState with cdc_state := CDC_ABORT, pcdc_state := CDC_ABORT } := by
    decide
  rw [hs0] at hs
  cases hs
  obtain ⟨s2, h2, hd, _, _, hidle⟩ := hnext frontClosed
  refine ⟨?_, ?_⟩
  · rw [hs0, Option.map_some']
  · rw [h2, Option.map_some', hd, hidle]

/-- C18, as the claim states it, fails.  `faultAbortedState` is reached by
`faultRun` and a check with the request signal dropped; the door states have
not changed.  The call that starts there in `CDC_ABORT` de-energizes the
outputs and ends in `CDC_IDLE`, but the single-door scenario remains armed
(`ssCheck` is not `NULL`), and the next call, with the front door open and the
request signal asserted, arms nothing: it leaves the state as it is. -/
theorem C18_counterexample :
    run (faultRun ++ [frontOpen 1 1 false]) = some faultAbortedState ∧
    faultAbortedState.cdc_state = CDC_ABORT ∧
    step faultAbortedState (frontOpen 1 1 true) = some faultIdleState ∧
    faultIdleState.cdc_state = CDC_IDLE ∧
    faultIdleState.ssCheck = some ⟨.FDCLRDOLSingle, 0⟩ ∧
    step faultIdleState (frontOpen 1 1 true) = some faultIdleState := by
  decide

/-- C18 (amended).  In every run, a call that starts in `CDC_ABORT` returns,
for every reading, with the three outputs de-energized and the machine in
`CDC_IDLE`; a scenario was armed when it started, and the call empties the
armed-scenario memory if the door states it observes differ from the
remembered ones and leaves the scenario armed otherwise. -/
theorem C18_abort_keeps_scenario_unless_doors_changed (rs : List Reading) (r : Reading)
    (s : State) (hrun : run rs = some s) (hst : s.cdc_state = CDC_ABORT) :
    ∃ s', step s r = some s' ∧
      s'.DCTR = false ∧ s'.oDK9 = false ∧ s'.oDK10 = false ∧
      s'.cdc_state = CDC_IDLE ∧ s.ssCheck ≠ none ∧
      s'.ssCheck
        = (if s.tFDState ≠ FDState r ∨ s.tRDState ≠ RDState r then none else s.ssCheck) := by
  have hchk := ssCheck_ne_none_of_armed (run_armed hrun) (Or.inr hst)
  obtain ⟨s', hs, a, b, c, hrest⟩ := step_abort s r hst
  exact ⟨s', hs, a, b, c, (hrest hchk).1, hchk, (hrest hchk).2⟩

/-- C18 (amended) at `faultAbortedState`, once with the door states unchanged
(the scenario stays armed) and once with the front door closed (the memory is
emptied). -/
theorem C18_abort_keeps_scenario_unless_doors_changed_witness :
    (step faultAbortedState (frontOpen 1 1 true)).map (fun t => t.ssCheck)
      = some (some ⟨.FDCLRDOLSingle, 0⟩) ∧
    (step faultAbortedState frontClosed).map (fun t => t.ssCheck) = some none := by
  have hrun : run (faultRun ++ [frontOpen 1 1 false]) = some faultAbortedState := by decide
  obtain ⟨s1, h1, _, _, _, _, _, e1⟩ :=
    C18_abort_keeps_scenario_unless_doors_changed _ (frontOpen 1 1 true) _ hrun (by decide)
  obtain ⟨s2, h2, _, _, _, _, _, e2⟩ :=
    C18_abort_keeps_scenario_unless_doors_changed _ frontClosed _ hrun (by decide)
  refine ⟨?_, ?_⟩
  · rw [h1, Option.map_some', e1]
    decide
  · rw [h2, Option.map_some', e2]
    decide

/-! ## The end of `CDC_ARM_CHECK` -/

theorem not_flagged_of_dontcare (Cond : Nat) (k : Fin 10) (h : GET_BRG k Cond = DONTCARE) :
    flagged k Cond = false := by
  cases hk : flagged k Cond
  · rfl
  · rw [(flagged_iff k Cond).1 hk] at h
    exact absurd h (by decide)

/-- C14 (end of `CDC_ARM_CHECK`).  From a well-formed state (every state of a
run is one), a `CDC_ARM_CHECK` call that is not cancelled returns with the
three outputs de-energized and the position advanced by one entry.  If that
entry has a row table the next state is `CDC_ARM_TEST`.  Otherwise it is
`CDC_ARM_ERROR_DETECTED` when the request signal is asserted and a point is
flagged, `CDC_ARM_TEST_PASSED` when the signal is asserted and no point is
flagged, and `CDC_ABORT` when the signal is not asserted.  A point that holds
`DONTCARE` is not flagged, so a run that completes with all ten points
`DONTCARE` passes; and the call that follows a pass returns TRUE with both
sticky flags FALSE. -/
theorem C14_end_of_check (s : State) (r : Reading) (hwf : s.wf = true)
    (hst : s.cdc_state = CDC_ARM_CHECK) (hc : cancelled s r = false) :
    ∃ p e s', s.ssCur = some p ∧ p.next.deref = some e ∧ step s r = some s' ∧
      s'.DCTR = false ∧ s'.oDK9 = false ∧ s'.oDK10 = false ∧
      s'.ssCur = some p.next ∧
      (e.ss ≠ none → s'.cdc_state = CDC_ARM_TEST) ∧
      (e.ss = none → r.SRFD = false → s'.cdc_state = CDC_ABORT) ∧
      (e.ss = none → r.SRFD = true → (∃ k : Fin 10, flagged k s'.Cond = true) →
        s'.cdc_state = CDC_ARM_ERROR_DETECTED) ∧
      (e.ss = none → r.SRFD = true → (∀ k : Fin 10, flagged k s'.Cond = false) →
        s'.cdc_state = CDC_ARM_TEST_PASSED ∧
        ∀ r2, ∃ s2, step s' r2 = some s2 ∧ MC2XDoorTestOK s' r2 = some true ∧
          s2.isCarDoorBridged = false ∧ s2.isHallDoorBridged = false) ∧
      ((∀ k : Fin 10, GET_BRG k s'.Cond = DONTCARE) →
        ∀ k : Fin 10, flagged k s'.Cond = false) := by
  obtain ⟨p, cur, dss, e, s', h1, _, _, he, hstep, _, hcur, hd, h9, h10, _, _, _, _, _, hend⟩ :=
    step_armCheck s r hwf hst hc
  have hwf' : s'.wf = true := by
    obtain ⟨t, ht, htwf⟩ := step_wf s r hwf
    rw [hstep] at ht
    cases ht
    exact htwf
  refine ⟨p, e, s', h1, he, hstep, hd, h9, h10, hcur, ?_, ?_, ?_, ?_,
    fun hdc k => not_flagged_of_dontcare _ k (hdc k)⟩
  · intro hne
    rcases hend with ⟨_, h5, _⟩ | ⟨hes, _⟩
    · exact h5
    · exact absurd hes hne
  · intro hes hsr
    rcases hend with ⟨⟨d, hd'⟩, _⟩ | ⟨_, _, _, _, hcs⟩
    · rw [hes] at hd'; exact absurd hd' (by simp)
    · rw [hcs, hsr]; simp
  · intro hes hsr hfl
    rcases hend with ⟨⟨d, hd'⟩, _⟩ | ⟨_, _, _, _, hcs⟩
    · rw [hes] at hd'; exact absurd hd' (by simp)
    · have hres : (decode s'.Cond s.isCarDoorBridged s.isHallDoorBridged).result ≠ 0 := by
        intro h0
        obtain ⟨k, hk⟩ := hfl
        rw [(decode_result_eq_zero _ _ _).1 h0 k] at hk
        exact absurd hk (by decide)
      rw [hcs, hsr]
      simp [hres]
  · intro hes hsr hfl
    rcases hend with ⟨⟨d, hd'⟩, _⟩ | ⟨_, _, _, _, hcs⟩
    · rw [hes] at hd'; exact absurd hd' (by simp)
    · have hres : (decode s'.Cond s.isCarDoorBridged s.isHallDoorBridged).result = 0 :=
        (decode_result_eq_zero _ _ _).2 hfl
      have hp : s'.cdc_state = CDC_ARM_TEST_PASSED := by
        rw [hcs, hsr]
        simp [hres]
      refine ⟨hp, fun r2 => ?_⟩
      obtain ⟨s2, hs2, _⟩ := step_wf s' r2 hwf'
      obtain ⟨_, _, _, hok, _, _, hcar, hhall⟩ :=
        step_other s' s2 r2 hwf' (Or.inl (by rw [hp]; decide)) hs2
      refine ⟨s2, hs2, ?_, ?_, ?_⟩
      · simp [MC2XDoorTestOK, hs2, hok, hp]
      · rw [hcar, hp]; rfl
      · rw [hhall, hp]; rfl

/-- C14 at the check that ends `cleanRun` with TK = 0, KT = 0: no point is
flagged, the call moves to `CDC_ARM_TEST_PASSED` and the next call returns
TRUE. -/
theorem C14_end_of_check_witness :
    (step cleanCheckState (frontOpen 0 0 true)).map (fun t => t.cdc_state)
      = some CDC_ARM_TEST_PASSED ∧
    MC2XDoorTestOK cleanPassedState (frontOpen 0 0 true) = some true := by
  obtain ⟨p, e, s', hp1, he, hs, _, _, _, _, _, _, _, hpass, _⟩ :=
    C14_end_of_check cleanCheckState (frontOpen 0 0 true) (by decide) (by decide) (by decide)
  have hs0 : step cleanCheckState (frontOpen 0 0 true) = some cleanPassedState := by decide
  rw [hs0] at hs
  cases hs
  have hp : some p = some ⟨.FDCLRDOLSingle, 1⟩ := hp1.symm.trans rfl
  have hnext : p.next.deref = some ⟨none, _XX, _XX, _XX⟩ := by
    cases hp
    decide
  rw [hnext] at he
  cases he
  obtain ⟨hst, hret⟩ := hpass rfl rfl (by decide)
  obtain ⟨s2, _, hok, _⟩ := hret (frontOpen 0 0 true)
  exact ⟨by rw [hs0, Option.map_some', hst], hok⟩

/-! ## The rows matched during a run -/

theorem foldRows_append (rows : List DOOR_SS_STAT) (row : DOOR_SS_STAT) :
    foldRows (rows ++ [row]) = foldCond (foldRows rows) row.bridgeCond := by
  simp [foldRows, List.foldl_append]

theorem foldRows_eq (rows : List DOOR_SS_STAT) :
    foldRows rows = List.foldl foldCond 0x55555555 (rows.map (fun row => row.bridgeCond)) := by
  simp [foldRows, List.foldl_map]

/-- The aggregate across one call from a well-formed state: reset when the call
arms, folded with the matched row when there is one, unchanged otherwise. -/
theorem step_Cond (s s' : State) (r : Reading) (h : s.wf = true)
    (hs : step s r = some s') :
    s'.Cond =
      if arms s r then 0x55555555
      else match matchedRow s r with
        | some row => foldCond s.Cond row.bridgeCond
        | none => s.Cond := by
  cases hcs : s.cdc_state
  · -- CDC_IDLE
    have hsw : switchBody s r = caseIdle s r := by unfold switchBody; rw [hcs]
    rcases caseIdle_cases s r with ⟨a, h1⟩ | h1 | h1 <;>
      (have hs2 := step_of_switchBody (hsw.trans h1)
       rw [hs2] at hs; cases hs
       simp [arms, matchedRow, hcs, hs2])
  · -- CDC_ARM_TEST
    have hsw : switchBody s r = caseArmTest s r := by unfold switchBody; rw [hcs]
    obtain ⟨p, cur, dss, _, _, _, heq⟩ := caseArmTest_wf s r h hcs
    by_cases hc : cancelled s r = true
    · rw [heq, if_pos hc] at hsw
      rw [step_of_switchBody hsw] at hs; cases hs; simp [arms, matchedRow, hcs]
    · rw [heq, if_neg hc] at hsw
      rw [step_of_switchBody hsw] at hs; cases hs; simp [arms, matchedRow, hcs]
  · -- CDC_ARM_WAIT
    have hsw : switchBody s r = caseArmWait s r := by unfold switchBody; rw [hcs]
    unfold caseArmWait at hsw
    split_ifs at hsw <;>
      (rw [step_of_switchBody hsw] at hs; cases hs; simp [arms, matchedRow, hcs])
  · -- CDC_ARM_CHECK
    cases hc : cancelled s r
    · obtain ⟨p, cur, dss, e, t, h1, h2, h3, _, ht, hCond, _⟩ := step_armCheck s r h hcs hc
      rw [hs] at ht
      cases ht
      have hmr : matchedRow s r = (rowsBeforeEnd dss).find? (rowMatches r) := by
        simp [matchedRow, hcs, hc, State.cur, h1, h2, h3]
      have ha : arms s r = false := by simp [arms, hcs]
      rw [hCond, ha, hmr]
      rfl
    · have heq := step_cancelled (by rw [hcs]; rfl) hc hs
      rw [heq]
      simp [arms, matchedRow, hcs, hc]
  · -- CDC_ARM_ERROR_DETECTED
    have hsw : switchBody s r = some (caseArmErrorDetected s) := by
      unfold switchBody; rw [hcs]
    rw [step_of_switchBody hsw] at hs; cases hs
    simp [arms, matchedRow, hcs, caseArmErrorDetected]
  · -- CDC_ARM_RETRY_WAIT
    have hsw : switchBody s r = some (caseArmRetryWait s r) := by
      unfold switchBody; rw [hcs]
    unfold caseArmRetryWait at hsw
    split_ifs at hsw <;>
      (rw [step_of_switchBody hsw] at hs; cases hs; simp [arms, matchedRow, hcs])
  · -- CDC_ARM_TEST_PASSED
    have hsw : switchBody s r = some (caseArmTestPassed s) := by
      unfold switchBody; rw [hcs]
    rw [step_of_switchBody hsw] at hs; cases hs
    simp [arms, matchedRow, hcs, caseArmTestPassed]
  · -- CDC_ABORT
    have hsw : switchBody s r = caseIdle (abortPart s) r := by unfold switchBody; rw [hcs]
    rcases caseIdle_cases (abortPart s) r with ⟨a, h1⟩ | h1 | h1 <;>
      (have hs2 := step_of_switchBody (hsw.trans h1)
       rw [hs2] at hs; cases hs
       simp [arms, matchedRow, hcs, hs2, abortPart])
  · -- CDC_END
    have hsw : switchBody s r = some s := by unfold switchBody; rw [hcs]
    rw [step_of_switchBody hsw] at hs; cases hs
    simp [arms, matchedRow, hcs]

/-- In every state of a run the aggregate is the fold of the rows matched
since the run in progress was armed. -/
theorem matchedRows_Cond (rs : List Reading) (s0 s : State) (h0 h : List DOOR_SS_STAT)
    (hwf : s0.wf = true) (hC : s0.Cond = foldRows h0)
    (hrun : matchedRows s0 h0 rs = some (s, h)) :
    s.wf = true ∧ s.Cond = foldRows h ∧ runFrom s0 rs = some s := by
  induction rs generalizing s0 h0 with
  | nil =>
    simp only [matchedRows, Option.some.injEq, Prod.mk.injEq] at hrun
    obtain ⟨rfl, rfl⟩ := hrun
    exact ⟨hwf, hC, rfl⟩
  | cons r rs ih =>
    obtain ⟨s1, hs1, hwf1⟩ := step_wf s0 r hwf
    simp only [matchedRows, hs1] at hrun
    have hC1 : s1.Cond
        = foldRows (if arms s0 r = true then [] else h0 ++ (matchedRow s0 r).toList) := by
      rw [step_Cond s0 s1 r hwf hs1]
      by_cases ha : arms s0 r = true
      · simp [ha, foldRows]
      · simp only [ha, Bool.false_eq_true, if_false]
        cases hm : matchedRow s0 r with
        | none => simp [hC]
        | some row => simp [hC, foldRows_append]
    obtain ⟨a, b, c⟩ := ih s1 _ hwf1 hC1 hrun
    exact ⟨a, b, by simp [runFrom, hs1, c]⟩

/-- The rows of every run from the initial state exist: the instrumented run
returns whenever the run does. -/
theorem matchedRows_total (rs : List Reading) (s0 : State) (h0 : List DOOR_SS_STAT)
    (hwf : s0.wf = true) : ∃ s h, matchedRows s0 h0 rs = some (s, h) := by
  induction rs generalizing s0 h0 with
  | nil => exact ⟨s0, h0, rfl⟩
  | cons r rs ih =>
    obtain ⟨s1, hs1, hwf1⟩ := step_wf s0 r hwf
    obtain ⟨s, h, hh⟩ := ih s1 (if arms s0 r = true then [] else h0 ++ (matchedRow s0 r).toList)
      hwf1
    exact ⟨s, h, by simp only [matchedRows, hs1]; exact hh⟩

theorem GET_BRG_foldRows_low (k : Fin 10) (rows : List DOOR_SS_STAT) :
    (GET_BRG k (foldRows rows)).testBit 0
      = rows.all (fun row => (GET_BRG k row.bridgeCond).testBit 0) := by
  have hon : Nat.testBit _ON 0 = true := by decide
  rw [foldRows_eq, foldl_low_bit, GET_BRG_fresh, hon, Bool.true_and]
  induction rows with
  | nil => rfl
  | cons row rows ih => simp only [List.map_cons, List.all_cons, ih]

/-- A point is flagged in the fold of a sequence of rows when every row has
`_ON` there, and is not flagged when some row has `_FF` or `DONTCARE` there. -/
theorem flagged_foldRows (k : Fin 10) (rows : List DOOR_SS_STAT) :
    ((∀ row ∈ rows, GET_BRG k row.bridgeCond = _ON) → flagged k (foldRows rows) = true) ∧
    ((∃ row ∈ rows, GET_BRG k row.bridgeCond = _FF ∨ GET_BRG k row.bridgeCond = DONTCARE) →
      flagged k (foldRows rows) = false) := by
  constructor
  · intro hall
    rw [flagged_iff]
    induction rows using List.reverseRecOn with
    | nil => exact GET_BRG_fresh k
    | append_singleton rows row ih =>
      rw [foldRows_append, GET_BRG_foldCond, hall row (by simp),
        ih (fun x hx => hall x (by simp [hx]))]
      decide
  · rintro ⟨row, hrow, hv⟩
    cases hf : flagged k (foldRows rows)
    · rfl
    · have hlow := GET_BRG_foldRows_low k rows
      rw [(flagged_iff k _).1 hf] at hlow
      have hfalse : rows.all (fun row => (GET_BRG k row.bridgeCond).testBit 0) = false := by
        rw [List.all_eq_false]
        refine ⟨row, hrow, ?_⟩
        rcases hv with hv | hv <;> (rw [hv]; decide)
      rw [hfalse] at hlow
      exact absurd hlow (by decide)

/-! ## The end-to-end fault scenario of §8 -/

/-- C16, as the claim states it, fails.  In `conflictRun` followed by the
second check, the matched row of the first configuration has `_FF` at point 1
and the matched row of the second has `_ON` at point 1, and the run completes
with the request signal asserted; yet no fault is raised, the car-door-bridged
flag is FALSE, the machine is in `CDC_ARM_TEST_PASSED` and the next call
returns TRUE. -/
theorem C16_counterexample :
    matchedRows State.init [] (conflictRun ++ [frontOpen 1 0 true])
      = some (cleanPassedState,
          [⟨SS_COND _FF _XX _ON _XX, BRG_COND _FF _FF _ON _XX _XX _XX _XX _XX _XX _XX⟩,
           ⟨SS_COND _ON _XX _FF _XX, BRG_COND _ON _FF _FF _XX _XX _XX _XX _XX _XX _XX⟩]) ∧
    GET_BRG 0 (BRG_COND _FF _FF _ON _XX _XX _XX _XX _XX _XX _XX) = _FF ∧
    GET_BRG 0 (BRG_COND _ON _FF _FF _XX _XX _XX _XX _XX _XX _XX) = _ON ∧
    cleanPassedState.cdc_state = CDC_ARM_TEST_PASSED ∧
    cleanPassedState.errors = [] ∧ cleanPassedState.isCarDoorBridged = false ∧
    MC2XDoorTestOK cleanPassedState (frontOpen 1 0 true) = some true := by
  decide

/-- C16 (amended).  Take a run from the initial state, `h` the rows matched
since its last arming, and a further `CDC_ARM_CHECK` call that is not
cancelled, completes the run (does not go back to `CDC_ARM_TEST`) and has the
request signal asserted.  The final aggregate is the fold of the matched rows
of the run.  If every matched row has `_ON` at point 1, the point-1 fault is
raised, the car-door-bridged flag is TRUE, the machine moves to
`CDC_ARM_ERROR_DETECTED` and the following call returns FALSE.  If some
matched row has `_FF` or `DONTCARE` at point 1 (in particular when one has
`_ON` and another `_FF`), the point-1 fault is not raised by that call. -/
theorem C16_point1_fault_needs_all_on (rs : List Reading) (r : Reading) (s s' : State)
    (h : List DOOR_SS_STAT) (hrun : matchedRows State.init [] rs = some (s, h))
    (hst : s.cdc_state = CDC_ARM_CHECK) (hc : cancelled s r = false)
    (hstep : step s r = some s') (hdone : s'.cdc_state ≠ CDC_ARM_TEST)
    (hreq : r.SRFD = true) :
    s'.Cond = foldRows (h ++ (matchedRow s r).toList) ∧
    s'.errors
      = s.errors ++ (decode s'.Cond s.isCarDoorBridged s.isHallDoorBridged).errors ∧
    ((∀ row ∈ h ++ (matchedRow s r).toList, GET_BRG 0 row.bridgeCond = _ON) →
      DOOR_BRIDGED_1 ∈ (decode s'.Cond s.isCarDoorBridged s.isHallDoorBridged).errors ∧
      s'.isCarDoorBridged = true ∧ s'.cdc_state = CDC_ARM_ERROR_DETECTED ∧
      ∀ r2, MC2XDoorTestOK s' r2 = some false) ∧
    ((∃ row ∈ h ++ (matchedRow s r).toList,
        GET_BRG 0 row.bridgeCond = _FF ∨ GET_BRG 0 row.bridgeCond = DONTCARE) →
      DOOR_BRIDGED_1 ∉ (decode s'.Cond s.isCarDoorBridged s.isHallDoorBridged).errors) := by
  obtain ⟨hwf, hC, _⟩ := matchedRows_Cond rs State.init s [] h wf_init rfl hrun
  have hwf' : s'.wf = true := by
    obtain ⟨t, ht, htwf⟩ := step_wf s r hwf
    rw [hstep] at ht
    cases ht
    exact htwf
  have hCond : s'.Cond = foldRows (h ++ (matchedRow s r).toList) := by
    rw [step_Cond s s' r hwf hstep]
    have ha : arms s r = false := by simp [arms, hst]
    rw [ha]
    simp only [Bool.false_eq_true, if_false]
    cases hm : matchedRow s r with
    | none => simp [hC]
    | some row => simp [hC, foldRows_append]
  obtain ⟨p, cur, dss, e, t, _, _, _, _, ht, _, _, _, _, _, _, _, _, _, _, hend⟩ :=
    step_armCheck s r hwf hst hc
  rw [hstep] at ht
  cases ht
  rcases hend with ⟨_, h5, _⟩ | ⟨_, hcar, _, herr, hcs⟩
  · exact absurd h5 hdone
  · have hmem : DOOR_BRIDGED_1 ∈ (decode s'.Cond s.isCarDoorBridged s.isHallDoorBridged).errors
        ↔ flagged 0 s'.Cond = true :=
      mem_decode_errors s'.Cond s.isCarDoorBridged s.isHallDoorBridged 0
    refine ⟨hCond, herr, ?_, ?_⟩
    · intro hall
      have hf : flagged 0 s'.Cond = true := by
        rw [hCond]
        exact (flagged_foldRows 0 _).1 hall
      have hres : (decode s'.Cond s.isCarDoorBridged s.isHallDoorBridged).result ≠ 0 := by
        intro h0
        rw [(decode_result_eq_zero _ _ _).1 h0 0] at hf
        exact absurd hf (by decide)
      have hst' : s'.cdc_state = CDC_ARM_ERROR_DETECTED := by
        rw [hcs, hreq]
        simp [hres]
      refine ⟨hmem.2 hf, ?_, hst', fun r2 => ?_⟩
      · rw [hcar, decode_isCarDoorBridged, hf]
        simp
      · obtain ⟨s2, hs2, _⟩ := step_wf s' r2 hwf'
        have hok := (step_other s' s2 r2 hwf' (Or.inl (by rw [hst']; decide)) hs2).2.2.2.1
        simp [MC2XDoorTestOK, hs2, hok, hst']
    · intro hex
      have hf : flagged 0 s'.Cond = false := by
        rw [hCond]
        exact (flagged_foldRows 0 _).2 hex
      rw [hmem, hf]
      decide

/-- C16 (amended) at `faultRun` and the check that ends it with TK = 1,
KT = 1: both matched rows have `_ON` at point 1, the point-1 fault is raised
and the following call returns FALSE. -/
theorem C16_point1_fault_needs_all_on_witness :
    faultDetectedState.errors = [DOOR_BRIDGED_1, DOOR_BRIDGED_2, DOOR_BRIDGED_3] ∧
    faultDetectedState.isCarDoorBridged = true ∧
    MC2XDoorTestOK faultDetectedState (frontOpen 1 1 true) = some false := by
  have hrun : matchedRows State.init [] faultRun
      = some (faultCheckState,
          [⟨SS_COND _ON _XX _ON _XX, BRG_COND _ON _ON _ON _XX _XX _XX _XX _XX _XX _XX⟩]) := by
    decide
  obtain ⟨_, _, hon, _⟩ :=
    C16_point1_fault_needs_all_on faultRun (frontOpen 1 1 true) faultCheckState
      faultDetectedState _ hrun (by decide) (by decide) (by decide) (by decide) (by decide)
  obtain ⟨_, hcar, _, hret⟩ := hon (by decide)
  exact ⟨rfl, hcar, hret (frontOpen 1 1 true)⟩

/-! ## The end-to-end scenario of §8 -/

theorem firstRowReading_iff (r : Reading) :
    firstRowReading r = true ↔
      r.doorTypeRear = false ∧ r.fOnlineAndReady = true ∧ r.fDOL = true ∧ r.fDCL = false ∧
      r.SRFD = true ∧ r.SAF3Raw = 0 ∧ r.SAF4Raw = 1 ∧ r.delayFinished = true := by
  simp [firstRowReading, _FF, _ON, and_assoc]

theorem rowMatches_congr (r r2 : Reading) (row : DOOR_SS_STAT) (h : ignoresTKD row = true)
    (h3 : r.SAF3Raw = r2.SAF3Raw) (h4 : r.SAF4Raw = r2.SAF4Raw) :
    rowMatches r row = rowMatches r2 row := by
  simp only [ignoresTKD, ne_eq, Bool.decide_and, Bool.and_eq_true, decide_eq_true_eq] at h
  simp [rowMatches, h.1, h.2, h3, h4]

theorem rowSearch_congr (r r2 : Reading) (c : Nat) (dss : List DOOR_SS_STAT)
    (h : ∀ row ∈ dss, rowMatches r row = rowMatches r2 row) :
    rowSearch r c dss = rowSearch r2 c dss := by
  induction dss with
  | nil => rfl
  | cons row rows ih =>
    simp only [rowSearch, h row (by simp), ih (fun x hx => h x (by simp [hx]))]

/-- Two readings that agree on the rear-door type, the door states, the request
signal, the delay and on which rows of the current entry's table match give
the same call. -/
theorem step_congr (s : State) (r r2 : Reading) (hd : r.doorTypeRear = r2.doorTypeRear)
    (hF : FDState r = FDState r2) (hR : RDState r = RDState r2) (hs : r.SRFD = r2.SRFD)
    (hf : r.delayFinished = r2.delayFinished)
    (hm : ∀ cur dss, s.cur = some cur → cur.ss = some dss →
      ∀ row ∈ dss, rowMatches r row = rowMatches r2 row) :
    step s r = step s r2 := by
  have hcan : cancelled s r = cancelled s r2 := by simp [cancelled, hF, hR, hs]
  have hidle : ∀ m : State, caseIdle m r = caseIdle m r2 := by
    intro m
    simp only [caseIdle, ssDoor, hd, hF, hR, hs]
  have hend : ∀ m : State, checkEnd m r = checkEnd m r2 := by
    intro m
    simp only [checkEnd, hs]
  have hsw : switchBody s r = switchBody s r2 := by
    unfold switchBody
    cases hcs : s.cdc_state <;> simp only
    · exact hidle s
    · simp only [caseArmTest, hcan]
    · simp only [caseArmWait, hcan, hf]
    · unfold caseArmCheck
      obtain h1 | ⟨p, h1⟩ := Option.eq_none_or_eq_some s.ssCur
      · simp only [h1]
      · obtain h2 | ⟨cur, h2⟩ := Option.eq_none_or_eq_some p.deref
        · simp only [h1, h2]
        · have hsp : searchPart s r p cur = searchPart s r2 p cur := by
            unfold searchPart
            obtain h3 | ⟨dss, h3⟩ := Option.eq_none_or_eq_some cur.ss
            · simp only [h3]
            · simp only [h3]
              rw [rowSearch_congr r r2 s.Cond dss
                (hm cur dss (by simp [State.cur, h1, h2]) h3)]
          simp only [h1, h2, hcan, hsp, hend]
    · simp only [caseArmRetryWait, hf]
    · exact hidle (abortPart s)
  simp only [step, hsw]

theorem single_rows_ignore (i : Nat) (cur : DOOR_SS_CHECK) (dss : List DOOR_SS_STAT)
    (h1 : (CheckPtr.mk .FDCLRDOLSingle i).deref = some cur) (h2 : cur.ss = some dss) :
    ∀ row ∈ dss, ignoresTKD row = true := by
  rcases i with _ | _ | _ | i <;>
    simp [CheckPtr.deref, checkArray, ssCheckFDCLRDOLSingle] at h1 <;>
    subst h1 <;> simp at h2 <;> subst h2 <;> decide

/-- In a state whose position is `NULL` or in the single-door array, a reading
of the end-to-end scenario gives the same call as `frontOpen 0 1 true`. -/
theorem firstRow_step (s : State) (r : Reading) (h : firstRowReading r = true)
    (hs : s.ssCur = none ∨ ∃ i, s.ssCur = some ⟨.FDCLRDOLSingle, i⟩) :
    step s r = step s (frontOpen 0 1 true) := by
  obtain ⟨h1, h2, h3, h4, h5, h6, h7, h8⟩ := (firstRowReading_iff r).1 h
  apply step_congr
  · rw [h1]; rfl
  · simp [FDState, h2, h3, h4, frontOpen]
  · simp [RDState, h1, frontOpen]
  · rw [h5]; rfl
  · rw [h8]; rfl
  · intro cur dss hcur hdss row hrow
    rcases hs with hs | ⟨i, hs⟩
    · simp [State.cur, hs] at hcur
    · have hder : (CheckPtr.mk .FDCLRDOLSingle i).deref = some cur := by
        simpa [State.cur, hs] using hcur
      exact rowMatches_congr r _ row (single_rows_ignore i cur dss hder hdss row hrow)
        (by rw [h6]; rfl) (by rw [h7]; rfl)

/-- C15, as the claim states it, fails.  With TK = 0, KT = 1 on every call
(`frontOpen 0 1 true`), seven calls from the initial state leave the machine in
`CDC_ARM_ERROR_DETECTED`, not `CDC_ARM_TEST_PASSED`: point 3 of the final
aggregate holds `_ON`, not `DONTCARE`, the point-3 fault has been raised, and
the next call returns FALSE. -/
theorem C15_counterexample :
    run (List.replicate 7 (frontOpen 0 1 true)) = some point3DetectedState ∧
    point3DetectedState.cdc_state = CDC_ARM_ERROR_DETECTED ∧
    GET_BRG 2 point3DetectedState.Cond = _ON ∧
    GET_BRG 2 point3DetectedState.Cond ≠ DONTCARE ∧
    point3DetectedState.errors = [DOOR_BRIDGED_3] ∧
    MC2XDoorTestOK point3DetectedState (frontOpen 0 1 true) = some false := by
  decide

/-- C15 (amended).  For a car without rear door started in the initial state,
with the front door on line and open, the request signal asserted and the
delay expired on every call, and raw TK = 0, KT = 1 on every call (whatever
the rear sensors, TKD and KTD read), nine calls go through `CDC_ARM_TEST`,
`CDC_ARM_WAIT`, `CDC_ARM_CHECK`, `CDC_ARM_TEST`, `CDC_ARM_WAIT`,
`CDC_ARM_CHECK`, `CDC_ARM_ERROR_DETECTED`, `CDC_ARM_RETRY_WAIT` and back to
`CDC_IDLE`.  The final aggregate has `_FF` at points 1 and 2, `_ON` at point 3
and `DONTCARE` at points 4 to 10; the point-3 fault is the one error raised;
the result is Failed (the eighth and ninth calls return FALSE) and both sticky
flags are FALSE. -/
theorem C15_first_row_run_fails (rs : List Reading) (hlen : rs.length = 9)
    (hall : ∀ r ∈ rs, firstRowReading r = true) :
    trace State.init rs
      = some [CDC_ARM_TEST, CDC_ARM_WAIT, CDC_ARM_CHECK, CDC_ARM_TEST, CDC_ARM_WAIT,
          CDC_ARM_CHECK, CDC_ARM_ERROR_DETECTED, CDC_ARM_RETRY_WAIT, CDC_IDLE] ∧
    run (rs.take 7) = some point3DetectedState ∧
    run (rs.take 8) = some point3RetryState ∧
    run rs = some point3IdleState ∧
    point3IdleState.Cond = BRG_COND _FF _FF _ON _XX _XX _XX _XX _XX _XX _XX ∧
    point3IdleState.errors = [DOOR_BRIDGED_3] ∧
    point3RetryState.testOkay = false ∧ point3IdleState.testOkay = false ∧
    point3IdleState.isCarDoorBridged = false ∧
    point3IdleState.isHallDoorBridged = false := by
  obtain ⟨r1, r2, r3, r4, r5, r6, r7, r8, r9, rfl⟩ :
      ∃ r1 r2 r3 r4 r5 r6 r7 r8 r9, rs = [r1, r2, r3, r4, r5, r6, r7, r8, r9] := by
    match rs, hlen with
    | [r1, r2, r3, r4, r5, r6, r7, r8, r9], _ => exact ⟨r1, r2, r3, r4, r5, r6, r7, r8, r9, rfl⟩
  have e1 : step State.init r1 = some singleArmedState :=
    (firstRow_step _ r1 (hall r1 (by simp)) (Or.inl rfl)).trans (by decide)
  have e2 : step singleArmedState r2 = some singleWaitState :=
    (firstRow_step _ r2 (hall r2 (by simp)) (Or.inr ⟨0, rfl⟩)).trans (by decide)
  have e3 : step singleWaitState r3 = some singleCheckState :=
    (firstRow_step _ r3 (hall r3 (by simp)) (Or.inr ⟨0, rfl⟩)).trans (by decide)
  have e4 : step singleCheckState r4 = some secondTestState :=
    (firstRow_step _ r4 (hall r4 (by simp)) (Or.inr ⟨0, rfl⟩)).trans (by decide)
  have e5 : step secondTestState r5 = some secondWaitState :=
    (firstRow_step _ r5 (hall r5 (by simp)) (Or.inr ⟨1, rfl⟩)).trans (by decide)
  have e6 : step secondWaitState r6 = some cleanCheckState :=
    (firstRow_step _ r6 (hall r6 (by simp)) (Or.inr ⟨1, rfl⟩)).trans (by decide)
  have e7 : step cleanCheckState r7 = some point3DetectedState :=
    (firstRow_step _ r7 (hall r7 (by simp)) (Or.inr ⟨1, rfl⟩)).trans (by decide)
  have e8 : step point3DetectedState r8 = some point3RetryState :=
    (firstRow_step _ r8 (hall r8 (by simp)) (Or.inr ⟨2, rfl⟩)).trans (by decide)
  have e9 : step point3RetryState r9 = some point3IdleState :=
    (firstRow_step _ r9 (hall r9 (by simp)) (Or.inr ⟨2, rfl⟩)).trans (by decide)
  refine ⟨?_, ?_, ?_, ?_, by decide, rfl, rfl, rfl, rfl, rfl⟩
  · simp only [trace, e1, e2, e3, e4, e5, e6, e7, e8, e9, Option.map_some']
    rfl
  · simp only [List.take, run, runFrom, e1, e2, e3, e4, e5, e6, e7, Option.some_bind]
  · simp only [List.take, run, runFrom, e1, e2, e3, e4, e5, e6, e7, e8, Option.some_bind]
  · simp only [run, runFrom, e1, e2, e3, e4, e5, e6, e7, e8, e9, Option.some_bind]

/-- C15 (amended) at nine calls that read TK = 0, TKD = 1, KT = 1, KTD = 1
with the rear sensors reporting an open rear door. -/
theorem C15_first_row_run_fails_witness :
    run (List.replicate 9
        { frontOpen 0 1 true with SAF3RRaw := 1, SAF4RRaw := 1, rOnlineAndReady := true,
                                  rDOL := true }) = some point3IdleState ∧
    point3IdleState.testOkay = false :=
  let h := C15_first_row_run_fails
    (List.replicate 9
      { frontOpen 0 1 true with SAF3RRaw := 1, SAF4RRaw := 1, rOnlineAndReady := true,
                                rDOL := true }) (by decide) (by decide)
  ⟨h.2.2.2.1, h.2.2.2.2.2.2.2.1⟩

/-! ## The verdict of a completed run -/

theorem rowValuesOK_le (row : DOOR_SS_STAT) (h : rowValuesOK row = true) (k : Fin 10) :
    GET_BRG k row.bridgeCond ≤ 2 := by
  simp only [rowValuesOK, List.all_cons, List.all_nil, Bool.and_true, Bool.and_eq_true,
    decide_eq_true_eq] at h
  obtain ⟨h1, h2, h3, h4, h5, h6, h7, h8, h9, hA⟩ := h
  fin_cases k <;> assumption

theorem mem_rowsBeforeEnd {row : DOOR_SS_STAT} {dss : List DOOR_SS_STAT}
    (h : row ∈ rowsBeforeEnd dss) : row ∈ dss ∧ row.safetyString ≠ 0xFFFF := by
  induction dss with
  | nil => simp [rowsBeforeEnd] at h
  | cons x xs ih =>
    unfold rowsBeforeEnd at h
    by_cases hx : x.safetyString ≠ 0xFFFF
    · rw [if_pos hx] at h
      rcases List.mem_cons.1 h with rfl | h'
      · exact ⟨List.mem_cons_self _ _, hx⟩
      · exact ⟨List.mem_cons_of_mem _ (ih h').1, (ih h').2⟩
    · rw [if_neg hx] at h
      simp at h

/-- In the shipped tables every row in front of the `0xFFFF` row holds `_ON`,
`_FF` or `_XX` at each point. -/
theorem deref_rows_ok (p : CheckPtr) (cur : DOOR_SS_CHECK) (dss : List DOOR_SS_STAT)
    (h : p.deref = some cur) (hs : cur.ss = some dss) :
    ∀ row ∈ dss, row.safetyString ≠ 0xFFFF → rowValuesOK row = true := by
  obtain ⟨a, i⟩ := p
  cases a <;> rcases i with _ | _ | _ | _ | _ | i <;>
    simp [CheckPtr.deref, checkArray, ssCheckFDOLRDOL, ssCheckFDOLRDCL, ssCheckFDCLRDOL,
      ssCheckFDCLRDOLSingle] at h <;>
    subst h <;> simp at hs <;> subst hs <;> decide

theorem matchedRow_ok (s : State) (r : Reading) (row : DOOR_SS_STAT)
    (h : matchedRow s r = some row) : rowValuesOK row = true := by
  unfold matchedRow at h
  split_ifs at h
  obtain h1 | ⟨cur, h1⟩ := Option.eq_none_or_eq_some s.cur
  · simp [h1] at h
  · obtain h2 | ⟨dss, h2⟩ := Option.eq_none_or_eq_some cur.ss
    · simp [h1, h2] at h
    · simp only [h1, h2] at h
      have hmem := mem_rowsBeforeEnd (List.mem_of_find?_eq_some h)
      obtain h3 | ⟨p, h3⟩ := Option.eq_none_or_eq_some s.ssCur
      · simp [State.cur, h3] at h1
      · have hder : p.deref = some cur := by simpa [State.cur, h3] using h1
        exact deref_rows_ok p cur dss hder h2 row hmem.1 hmem.2

/-- The rows matched during a run hold `_ON`, `_FF` or `_XX` at each point. -/
theorem matchedRows_ok (rs : List Reading) (s0 s : State) (h0 h : List DOOR_SS_STAT)
    (hok : ∀ row ∈ h0, rowValuesOK row = true)
    (hrun : matchedRows s0 h0 rs = some (s, h)) :
    ∀ row ∈ h, rowValuesOK row = true := by
  induction rs generalizing s0 h0 with
  | nil =>
    simp only [matchedRows, Option.some.injEq, Prod.mk.injEq] at hrun
    obtain ⟨_, rfl⟩ := hrun
    exact hok
  | cons r rs ih =>
    unfold matchedRows at hrun
    obtain hs | ⟨s1, hs⟩ := Option.eq_none_or_eq_some (step s0 r)
    · simp [hs] at hrun
    · simp only [hs] at hrun
      refine ih s1 _ ?_ hrun
      intro row hrow
      split_ifs at hrow
      · simp at hrow
      · rcases List.mem_append.1 hrow with hrow | hrow
        · exact hok row hrow
        · obtain hm | ⟨x, hm⟩ := Option.eq_none_or_eq_some (matchedRow s0 r)
          · simp [hm] at hrow
          · simp only [hm, Option.toList_some, List.mem_singleton] at hrow
            rw [hrow]
            exact matchedRow_ok s0 r x hm

/-- A point is flagged in the fold of rows that hold `_ON`, `_FF` or `_XX` at
each point exactly when every row has `_ON` there. -/
theorem flagged_foldRows_iff (k : Fin 10) (rows : List DOOR_SS_STAT)
    (hok : ∀ row ∈ rows, rowValuesOK row = true) :
    flagged k (foldRows rows) = true ↔ ∀ row ∈ rows, GET_BRG k row.bridgeCond = _ON := by
  constructor
  · intro hf row hrow
    have hlow := GET_BRG_foldRows_low k rows
    rw [(flagged_iff k _).1 hf] at hlow
    have hall : rows.all (fun row => (GET_BRG k row.bridgeCond).testBit 0) = true := by
      rw [← hlow]; decide
    have hbit := List.all_eq_true.1 hall row hrow
    have hle := rowValuesOK_le row (hok row hrow) k
    generalize GET_BRG k row.bridgeCond = v at hbit hle
    interval_cases v
    · exact absurd hbit (by decide)
    · rfl
    · exact absurd hbit (by decide)
  · exact (flagged_foldRows k rows).1

theorem decode_errors_fresh (car hall : Bool) :
    (decode 0x55555555 car hall).errors
      = [DOOR_BRIDGED_1, DOOR_BRIDGED_2, DOOR_BRIDGED_3, DOOR_BRIDGED_4, DOOR_BRIDGED_5,
          DOOR_BRIDGED_6, DOOR_BRIDGED_7, DOOR_BRIDGED_8, DOOR_BRIDGED_9, DOOR_BRIDGED_10] := by
  cases car <;> cases hall <;> decide

/-- C21 (verdict of a completed run).  Take a run from the initial state, `h`
the rows matched since its last arming, and a further `CDC_ARM_CHECK` call that
is not cancelled and reaches the decode (does not go back to `CDC_ARM_TEST`).
For each of the ten points, the fault of the point is raised by that call iff
every row folded during the run has `_ON` at the point.  In particular, when
no row matched in any configuration all ten faults are raised and both sticky
flags are set; and a point at which some folded row has `_FF` or `DONTCARE` is
not flagged. -/
theorem C21_verdict_of_completed_run (rs : List Reading) (r : Reading) (s s' : State)
    (h : List DOOR_SS_STAT) (hrun : matchedRows State.init [] rs = some (s, h))
    (hst : s.cdc_state = CDC_ARM_CHECK) (hc : cancelled s r = false)
    (hstep : step s r = some s') (hdone : s'.cdc_state ≠ CDC_ARM_TEST) :
    s'.errors
      = s.errors ++ (decode s'.Cond s.isCarDoorBridged s.isHallDoorBridged).errors ∧
    (∀ k : Fin 10,
      DOOR_BRIDGED k ∈ (decode s'.Cond s.isCarDoorBridged s.isHallDoorBridged).errors ↔
        ∀ row ∈ h ++ (matchedRow s r).toList, GET_BRG k row.bridgeCond = _ON) ∧
    (h ++ (matchedRow s r).toList = [] →
      (decode s'.Cond s.isCarDoorBridged s.isHallDoorBridged).errors
        = [DOOR_BRIDGED_1, DOOR_BRIDGED_2, DOOR_BRIDGED_3, DOOR_BRIDGED_4, DOOR_BRIDGED_5,
            DOOR_BRIDGED_6, DOOR_BRIDGED_7, DOOR_BRIDGED_8, DOOR_BRIDGED_9,
            DOOR_BRIDGED_10] ∧
      s'.isCarDoorBridged = true ∧ s'.isHallDoorBridged = true) ∧
    (∀ k : Fin 10,
      (∃ row ∈ h ++ (matchedRow s r).toList,
        GET_BRG k row.bridgeCond = _FF ∨ GET_BRG k row.bridgeCond = DONTCARE) →
      flagged k s'.Cond = false ∧
      DOOR_BRIDGED k ∉ (decode s'.Cond s.isCarDoorBridged s.isHallDoorBridged).errors) := by
  obtain ⟨hwf, hC, _⟩ := matchedRows_Cond rs State.init s [] h wf_init rfl hrun
  have hokh := matchedRows_ok rs State.init s [] h (by simp) hrun
  have hok : ∀ row ∈ h ++ (matchedRow s r).toList, rowValuesOK row = true := by
    intro row hrow
    rcases List.mem_append.1 hrow with hrow | hrow
    · exact hokh row hrow
    · obtain hm | ⟨x, hm⟩ := Option.eq_none_or_eq_some (matchedRow s r)
      · simp [hm] at hrow
      · simp only [hm, Option.toList_some, List.mem_singleton] at hrow
        rw [hrow]
        exact matchedRow_ok s r x hm
  have hCond : s'.Cond = foldRows (h ++ (matchedRow s r).toList) := by
    rw [step_Cond s s' r hwf hstep]
    have ha : arms s r = false := by simp [arms, hst]
    rw [ha]
    simp only [Bool.false_eq_true, if_false]
    cases hm : matchedRow s r with
    | none => simp [hC]
    | some row => simp [hC, foldRows_append]
  obtain ⟨p, cur, dss, e, t, _, _, _, _, ht, _, _, _, _, _, _, _, _, _, _, hend⟩ :=
    step_armCheck s r hwf hst hc
  rw [hstep] at ht
  cases ht
  rcases hend with ⟨_, h5, _⟩ | ⟨_, hcar, hhall, herr, _⟩
  · exact absurd h5 hdone
  · refine ⟨herr, ?_, ?_, ?_⟩
    · intro k
      rw [mem_decode_errors, hCond]
      exact flagged_foldRows_iff k _ hok
    · intro hnil
      have hfresh : s'.Cond = 0x55555555 := by rw [hCond, hnil]; rfl
      refine ⟨?_, ?_, ?_⟩
      · rw [hfresh]; exact decode_errors_fresh _ _
      · rw [hcar, decode_isCarDoorBridged, hfresh]
        have hf : flagged 0 0x55555555 = true := by decide
        rw [hf]; simp
      · rw [hhall, decode_isHallDoorBridged, hfresh]
        have hf : flagged 4 0x55555555 = true := by decide
        rw [hf]; simp
    · intro k hex
      have hf : flagged k s'.Cond = false := by
        rw [hCond]
        exact (flagged_foldRows k _).2 hex
      refine ⟨hf, ?_⟩
      rw [mem_decode_errors, hf]
      decide

/-- C21 at `noMatchRun` and the check that ends it: no row matched in any of
the four configurations of the front-open / rear-closed scenario, all ten
faults are raised and both sticky flags are set. -/
theorem C21_verdict_of_completed_run_witness :
    matchedRows State.init [] noMatchRun = some (noMatchCheckState, []) ∧
    step noMatchCheckState frontOpenRearClosed = some noMatchDetectedState ∧
    noMatchDetectedState.errors.length = 10 ∧
    noMatchDetectedState.isCarDoorBridged = true ∧
    noMatchDetectedState.isHallDoorBridged = true := by
  have hrun : matchedRows State.init [] noMatchRun = some (noMatchCheckState, []) := by decide
  have hstep : step noMatchCheckState frontOpenRearClosed = some noMatchDetectedState := by
    decide
  obtain ⟨_, _, hnil, _⟩ :=
    C21_verdict_of_completed_run noMatchRun frontOpenRearClosed noMatchCheckState
      noMatchDetectedState [] hrun (by decide) (by decide) hstep (by decide)
  obtain ⟨_, hcar, hhall⟩ := hnil (by decide)
  exact ⟨hrun, hstep, rfl, hcar, hhall⟩

/-! ## No stale relay override -/

theorem quiet_init : State.init.quiet = true := by decide

theorem step_quiet (s s' : State) (r : Reading) (h : s.wf = true) (hq : s.quiet = true)
    (hs : step s r = some s') : s'.quiet = true := by
  cases hcs : s.cdc_state
  · -- CDC_IDLE
    have hout : s.DCTR = false ∧ s.oDK9 = false ∧ s.oDK10 = false := by
      simpa [State.quiet, hcs] using hq
    have hsw : switchBody s r = caseIdle s r := by unfold switchBody; rw [hcs]
    rcases caseIdle_cases s r with ⟨a, h1⟩ | h1 | h1 <;>
      (rw [step_of_switchBody (hsw.trans h1)] at hs; cases hs
       simp [State.quiet, hcs, hout])
  · -- CDC_ARM_TEST
    have hsw : switchBody s r = caseArmTest s r := by unfold switchBody; rw [hcs]
    obtain ⟨p, cur, dss, _, _, _, heq⟩ := caseArmTest_wf s r h hcs
    by_cases hc : cancelled s r = true
    · rw [heq, if_pos hc] at hsw
      rw [step_of_switchBody hsw] at hs; cases hs; simp [State.quiet]
    · rw [heq, if_neg hc] at hsw
      rw [step_of_switchBody hsw] at hs; cases hs; simp [State.quiet]
  · -- CDC_ARM_WAIT
    have hsw : switchBody s r = caseArmWait s r := by unfold switchBody; rw [hcs]
    unfold caseArmWait at hsw
    split_ifs at hsw <;>
      (rw [step_of_switchBody hsw] at hs; cases hs; simp [State.quiet, hcs])
  · -- CDC_ARM_CHECK
    cases hc : cancelled s r
    · obtain ⟨p, cur, dss, e, t, _, _, _, _, ht, _, _, hd, h9, h10, _, _, _, _, _, hend⟩ :=
        step_armCheck s r h hcs hc
      rw [hs] at ht
      cases ht
      have hne : s'.cdc_state ≠ CDC_END := by
        rcases hend with ⟨_, h5, _⟩ | ⟨_, _, _, _, h5⟩
        · rw [h5]; decide
        · rw [h5]; split_ifs <;> decide
      simp [State.quiet, hd, h9, h10, hne]
    · have heq := step_cancelled (by rw [hcs]; rfl) hc hs
      rw [heq]
      simp [State.quiet]
  · -- CDC_ARM_ERROR_DETECTED
    have hout : s.DCTR = false ∧ s.oDK9 = false ∧ s.oDK10 = false := by
      simpa [State.quiet, hcs] using hq
    have hsw : switchBody s r = some (caseArmErrorDetected s) := by
      unfold switchBody; rw [hcs]
    rw [step_of_switchBody hsw] at hs; cases hs
    simp [State.quiet, caseArmErrorDetected, hout]
  · -- CDC_ARM_RETRY_WAIT
    have hout : s.DCTR = false ∧ s.oDK9 = false ∧ s.oDK10 = false := by
      simpa [State.quiet, hcs] using hq
    have hsw : switchBody s r = some (caseArmRetryWait s r) := by
      unfold switchBody; rw [hcs]
    unfold caseArmRetryWait at hsw
    split_ifs at hsw <;>
      (rw [step_of_switchBody hsw] at hs; cases hs; simp [State.quiet, hcs, hout])
  · -- CDC_ARM_TEST_PASSED
    have hout : s.DCTR = false ∧ s.oDK9 = false ∧ s.oDK10 = false := by
      simpa [State.quiet, hcs] using hq
    have hsw : switchBody s r = some (caseArmTestPassed s) := by
      unfold switchBody; rw [hcs]
    rw [step_of_switchBody hsw] at hs; cases hs
    simp [State.quiet, caseArmTestPassed, hout]
  · -- CDC_ABORT
    have hsw : switchBody s r = caseIdle (abortPart s) r := by unfold switchBody; rw [hcs]
    rcases caseIdle_cases (abortPart s) r with ⟨a, h1⟩ | h1 | h1 <;>
      (rw [step_of_switchBody (hsw.trans h1)] at hs; cases hs
       simp [State.quiet, abortPart])
  · -- CDC_END
    simp [State.quiet, hcs] at hq

theorem runFrom_quiet (rs : List Reading) (s t : State) (h : s.wf = true)
    (hq : s.quiet = true) (hrun : runFrom s rs = some t) : t.quiet = true := by
  induction rs generalizing s with
  | nil =>
    simp only [runFrom, Option.some.injEq] at hrun
    rw [← hrun]; exact hq
  | cons r rs ih =>
    obtain ⟨s', hs', hwf⟩ := step_wf s r h
    simp only [runFrom, hs', Option.some_bind] at hrun
    exact ih s' hwf (step_quiet s s' r h hq hs') hrun

theorem run_quiet {rs : List Reading} {s : State} (h : run rs = some s) :
    s.quiet = true :=
  runFrom_quiet rs State.init s wf_init quiet_init h

/-- C22 (no stale relay override).  The initial state has the outputs
de-energized, every sequence of calls from it returns, and in the state it
leaves: if the machine is in `CDC_IDLE`, `CDC_ARM_TEST`,
`CDC_ARM_ERROR_DETECTED`, `CDC_ARM_RETRY_WAIT` or `CDC_ARM_TEST_PASSED`, the
throttle override, `oDK9` and `oDK10` are all FALSE; and if one of them is
TRUE, the machine is in `CDC_ARM_WAIT`, `CDC_ARM_CHECK` or `CDC_ABORT`. -/
theorem C22_no_stale_override :
    (State.init.DCTR = false ∧ State.init.oDK9 = false ∧ State.init.oDK10 = false) ∧
    ∀ rs : List Reading, ∃ s, run rs = some s ∧
      ((s.cdc_state = CDC_IDLE ∨ s.cdc_state = CDC_ARM_TEST ∨
          s.cdc_state = CDC_ARM_ERROR_DETECTED ∨ s.cdc_state = CDC_ARM_RETRY_WAIT ∨
          s.cdc_state = CDC_ARM_TEST_PASSED) →
        s.DCTR = false ∧ s.oDK9 = false ∧ s.oDK10 = false) ∧
      ((s.DCTR = true ∨ s.oDK9 = true ∨ s.oDK10 = true) →
        s.cdc_state = CDC_ARM_WAIT ∨ s.cdc_state = CDC_ARM_CHECK ∨
          s.cdc_state = CDC_ABORT) := by
  refine ⟨⟨rfl, rfl, rfl⟩, fun rs => ?_⟩
  obtain ⟨s, hrun, _⟩ := run_total rs
  have hq := run_quiet hrun
  simp only [State.quiet, ne_eq, Bool.decide_and, Bool.decide_or, Bool.and_eq_true,
    Bool.or_eq_true, decide_eq_true_eq, decide_not, Bool.not_eq_true', decide_eq_false_iff_not]
    at hq
  obtain ⟨_, hq2⟩ := hq
  refine ⟨s, hrun, ?_, ?_⟩
  · intro hst
    rcases hq2 with hq2 | hq2
    · rcases hst with h1 | h1 | h1 | h1 | h1 <;> rcases hq2 with h2 | h2 | h2 <;>
        (rw [h1] at h2; exact absurd h2 (by decide))
    · exact hq2
  · intro hon
    rcases hq2 with hq2 | ⟨a, b, c⟩
    · exact hq2
    · rcases hon with h1 | h1 | h1
      · rw [a] at h1; exact absurd h1 (by decide)
      · rw [b] at h1; exact absurd h1 (by decide)
      · rw [c] at h1; exact absurd h1 (by decide)

/-- C22 at three runs: after `cleanRun` the machine is in `CDC_ARM_CHECK` with
the throttle override TRUE; after the cancellation that follows it is in
`CDC_ABORT` with the override still TRUE; one call later it is in `CDC_IDLE`
with the override FALSE. -/
theorem C22_no_stale_override_witness :
    run cleanRun = some cleanCheckState ∧ cleanCheckState.DCTR = true ∧
    cleanCheckState.cdc_state = CDC_ARM_CHECK ∧
    (run (cleanRun ++ [frontClosed])).map (fun t => (t.DCTR, t.cdc_state))
      = some (true, CDC_ABORT) ∧
    (run (cleanRun ++ [frontClosed, frontClosed])).map (fun t => (t.DCTR, t.cdc_state))
      = some (false, CDC_IDLE) := by
  have h1 : run cleanRun = some cleanCheckState := by decide
  obtain ⟨s, hs, _, hon⟩ := C22_no_stale_override.2 cleanRun
  rw [h1] at hs
  cases hs
  have hst := hon (Or.inl rfl)
  refine ⟨h1, rfl, ?_, by decide, by decide⟩
  rcases hst with h | h | h
  · exact absurd h (by decide)
  · exact h
  · exact absurd h (by decide)

/-! ## The position stays in range -/

theorem inScenario_init : State.init.inScenario = true := by decide

theorem inScenario_iff (s : State) :
    s.inScenario = true ↔
      (inRun s.cdc_state = true →
        ∃ a i, s.ssCheck = some ⟨a, 0⟩ ∧ s.ssCur = some ⟨a, i⟩) := by
  unfold State.inScenario
  cases hr : inRun s.cdc_state
  · simp
  · obtain h1 | ⟨⟨ca, ci⟩, h1⟩ := Option.eq_none_or_eq_some s.ssCheck
    · simp [h1]
    · obtain h2 | ⟨⟨pa, pi⟩, h2⟩ := Option.eq_none_or_eq_some s.ssCur
      · simp [h1, h2]
      · simp only [h1, h2, Bool.not_true, Bool.false_or, Bool.and_eq_true, decide_eq_true_eq,
          forall_const, Option.some.injEq, CheckPtr.mk.injEq]
        constructor
        · rintro ⟨rfl, rfl⟩
          exact ⟨ca, pi, ⟨rfl, rfl⟩, rfl, rfl⟩
        · rintro ⟨a, i, ⟨rfl, rfl⟩, rfl, rfl⟩
          exact ⟨rfl, rfl⟩

theorem step_inScenario (s s' : State) (r : Reading) (h : s.wf = true)
    (hi : s.inScenario = true) (hs : step s r = some s') : s'.inScenario = true := by
  rw [inScenario_iff] at hi ⊢
  cases hcs : s.cdc_state
  · -- CDC_IDLE
    have hsw : switchBody s r = caseIdle s r := by unfold switchBody; rw [hcs]
    rcases caseIdle_cases s r with ⟨a, h1⟩ | h1 | h1
    · rw [step_of_switchBody (hsw.trans h1)] at hs; cases hs
      exact fun _ => ⟨a, 0, rfl, rfl⟩
    · rw [step_of_switchBody (hsw.trans h1)] at hs; cases hs
      intro hr; simp [inRun, hcs] at hr
    · rw [step_of_switchBody (hsw.trans h1)] at hs; cases hs
      intro hr; simp [inRun, hcs] at hr
  · -- CDC_ARM_TEST
    have hsw : switchBody s r = caseArmTest s r := by unfold switchBody; rw [hcs]
    have hin := hi (by rw [hcs]; rfl)
    obtain ⟨p, cur, dss, _, _, _, heq⟩ := caseArmTest_wf s r h hcs
    by_cases hc : cancelled s r = true
    · rw [heq, if_pos hc] at hsw
      rw [step_of_switchBody hsw] at hs; cases hs
      intro hr; simp [inRun] at hr
    · rw [heq, if_neg hc] at hsw
      rw [step_of_switchBody hsw] at hs; cases hs
      exact fun _ => hin
  · -- CDC_ARM_WAIT
    have hsw : switchBody s r = caseArmWait s r := by unfold switchBody; rw [hcs]
    have hin := hi (by rw [hcs]; rfl)
    unfold caseArmWait at hsw
    split_ifs at hsw <;>
      (rw [step_of_switchBody hsw] at hs; cases hs; exact fun _ => hin)
  · -- CDC_ARM_CHECK
    obtain ⟨a, i, hchk, hcur⟩ := hi (by rw [hcs]; rfl)
    cases hc : cancelled s r
    · obtain ⟨p, cur, dss, e, t, h1, _, _, _, ht, _, hnext, _, _, _, _, hck, _⟩ :=
        step_armCheck s r h hcs hc
      rw [hs] at ht
      cases ht
      intro _
      rw [hcur] at h1
      cases h1
      exact ⟨a, i + 1, hck.trans hchk, hnext⟩
    · have heq := step_cancelled (by rw [hcs]; rfl) hc hs
      rw [heq]
      intro hr; simp [inRun] at hr
  · -- CDC_ARM_ERROR_DETECTED
    have hsw : switchBody s r = some (caseArmErrorDetected s) := by
      unfold switchBody; rw [hcs]
    rw [step_of_switchBody hsw] at hs; cases hs
    intro hr; simp [inRun, caseArmErrorDetected] at hr
  · -- CDC_ARM_RETRY_WAIT
    have hsw : switchBody s r = some (caseArmRetryWait s r) := by
      unfold switchBody; rw [hcs]
    unfold caseArmRetryWait at hsw
    split_ifs at hsw <;>
      (rw [step_of_switchBody hsw] at hs; cases hs
       intro hr; simp [inRun, hcs] at hr)
  · -- CDC_ARM_TEST_PASSED
    have hsw : switchBody s r = some (caseArmTestPassed s) := by
      unfold switchBody; rw [hcs]
    rw [step_of_switchBody hsw] at hs; cases hs
    intro hr; simp [inRun, caseArmTestPassed] at hr
  · -- CDC_ABORT
    have hsw : switchBody s r = caseIdle (abortPart s) r := by unfold switchBody; rw [hcs]
    rcases caseIdle_cases (abortPart s) r with ⟨a, h1⟩ | h1 | h1
    · rw [step_of_switchBody (hsw.trans h1)] at hs; cases hs
      exact fun _ => ⟨a, 0, rfl, rfl⟩
    · rw [step_of_switchBody (hsw.trans h1)] at hs; cases hs
      intro hr; simp [inRun, abortPart] at hr
    · rw [step_of_switchBody (hsw.trans h1)] at hs; cases hs
      intro hr; simp [inRun, abortPart] at hr
  · -- CDC_END
    have hsw : switchBody s r = some s := by unfold switchBody; rw [hcs]
    rw [step_of_switchBody hsw] at hs; cases hs
    intro hr; simp [inRun, hcs] at hr

theorem runFrom_inScenario (rs : List Reading) (s t : State) (h : s.wf = true)
    (hi : s.inScenario = true) (hrun : runFrom s rs = some t) : t.inScenario = true := by
  induction rs generalizing s with
  | nil =>
    simp only [runFrom, Option.some.injEq] at hrun
    rw [← hrun]; exact hi
  | cons r rs ih =>
    obtain ⟨s', hs', hwf⟩ := step_wf s r h
    simp only [runFrom, hs', Option.some_bind] at hrun
    exact ih s' hwf (step_inScenario s s' r h hi hs') hrun

theorem run_inScenario {rs : List Reading} {s : State} (h : run rs = some s) :
    s.inScenario = true :=
  runFrom_inScenario rs State.init s wf_init inScenario_init h


theorem deref_lt {p : CheckPtr} {cur : DOOR_SS_CHECK} (h : p.deref = some cur) :
    p.idx < (checkArray p.arr).length := by
  unfold CheckPtr.deref at h
  obtain ⟨hlt, _⟩ := List.getElem?_eq_some_iff.1 h
  exact hlt

/-- C23 (position stays in range).  Every sequence of calls from the initial
state returns, and in the state it leaves: in `CDC_ARM_TEST`, `CDC_ARM_WAIT`
and `CDC_ARM_CHECK` a scenario is armed (`ssCheck` is the start of an array),
`ssCur` points into the same array, the entry it points to has a row table and
is followed by another entry; in every other state `ssCur` is `NULL` or points
to an entry of its array (at most the entry that ends it).  Consequently every
further call returns; a `CDC_ARM_CHECK` call that is not cancelled advances
`ssCur` by one to an entry of the array; and a `CDC_ARM_TEST` call that is not
cancelled moves to `CDC_ARM_WAIT`, so it goes to `CDC_ABORT` only when
cancelled, never through a sanity branch. -/
theorem C23_position_in_range (rs : List Reading) :
    ∃ s, run rs = some s ∧
      (inRun s.cdc_state = true →
        ∃ a i cur dss, s.ssCheck = some ⟨a, 0⟩ ∧ s.ssCur = some ⟨a, i⟩ ∧
          (checkArray a)[i]? = some cur ∧ cur.ss = some dss ∧
          i + 1 < (checkArray a).length) ∧
      (inRun s.cdc_state = false →
        s.ssCur = none ∨
        ∃ p cur, s.ssCur = some p ∧ (checkArray p.arr)[p.idx]? = some cur ∧
          p.idx < (checkArray p.arr).length) ∧
      ∀ r, ∃ s', step s r = some s' ∧
        (s.cdc_state = CDC_ARM_CHECK → cancelled s r = false →
          ∃ p e, s.ssCur = some p ∧ s'.ssCur = some p.next ∧ p.next.deref = some e) ∧
        (s.cdc_state = CDC_ARM_TEST → cancelled s r = false →
          s'.cdc_state = CDC_ARM_WAIT) ∧
        (s.cdc_state = CDC_ARM_TEST → s'.cdc_state = CDC_ABORT →
          cancelled s r = true) := by
  obtain ⟨s, hrun, hwf⟩ := run_total rs
  have hin := (inScenario_iff s).1 (run_inScenario hrun)
  have hwf2 := (wf_iff s).1 hwf
  refine ⟨s, hrun, ?_, ?_, fun r => ?_⟩
  · intro hr
    obtain ⟨a, i, hchk, hcur⟩ := hin hr
    rcases hwf2 with ⟨hn, _⟩ | ⟨p, cur, h1, h2, h3⟩
    · rw [hcur] at hn; exact absurd hn (by simp)
    · rw [hcur] at h1
      cases h1
      obtain ⟨dss, hdss⟩ := h3 hr
      obtain ⟨_, e, he⟩ := deref_real _ cur dss h2 hdss
      exact ⟨a, i, cur, dss, hchk, hcur, h2, hdss, deref_lt he⟩
  · intro _
    rcases hwf2 with ⟨hn, _⟩ | ⟨p, cur, h1, h2, _⟩
    · exact Or.inl hn
    · exact Or.inr ⟨p, cur, h1, h2, deref_lt h2⟩
  · obtain ⟨s', hs', _⟩ := step_wf s r hwf
    have hwait : s.cdc_state = CDC_ARM_TEST → cancelled s r = false →
        s'.cdc_state = CDC_ARM_WAIT := by
      intro hst hc
      obtain ⟨p, cur, dss, _, _, _, heq⟩ := caseArmTest_wf s r hwf hst
      have hsw : switchBody s r = caseArmTest s r := by unfold switchBody; rw [hst]
      rw [heq, hc] at hsw
      simp only [Bool.false_eq_true, if_false] at hsw
      rw [step_of_switchBody hsw] at hs'
      cases hs'
      rfl
    refine ⟨s', hs', ?_, hwait, ?_⟩
    · intro hst hc
      obtain ⟨p, cur, dss, e, t, h1, _, _, he, ht, _, hnext, _⟩ := step_armCheck s r hwf hst hc
      rw [hs'] at ht
      cases ht
      exact ⟨p, e, h1, hnext, he⟩
    · intro hst hab
      cases hc : cancelled s r
      · rw [hwait hst hc] at hab
        exact absurd hab (by decide)
      · rfl

/-- C23 at `cleanRun`: the machine is in `CDC_ARM_CHECK` at entry 1 of the
single-door array, which has a row table, and the check advances the position
to entry 2, the entry that ends the array. -/
theorem C23_position_in_range_witness :
    run cleanRun = some cleanCheckState ∧
    cleanCheckState.ssCur = some ⟨.FDCLRDOLSingle, 1⟩ ∧
    (step cleanCheckState (frontOpen 0 0 true)).map (fun t => t.ssCur)
      = some (some ⟨.FDCLRDOLSingle, 2⟩) := by
  have h1 : run cleanRun = some cleanCheckState := by decide
  obtain ⟨s, hs, _, _, hnext⟩ := C23_position_in_range cleanRun
  rw [h1] at hs
  cases hs
  obtain ⟨s', hs', hadv, _⟩ := hnext (frontOpen 0 0 true)
  obtain ⟨p, e, hp, hp', _⟩ := hadv rfl (by decide)
  have hpe : some p = some ⟨.FDCLRDOLSingle, 1⟩ := hp.symm.trans rfl
  cases hpe
  exact ⟨h1, rfl, by rw [hs', Option.map_some', hp']; rfl⟩

/-! ## Convergence of a point over a run -/

/-- In the shipped tables a point is `DONTCARE` in every row of a check array
or in none. -/
theorem scenarioRows_uniform (a : CheckArray) (k : Fin 10) :
    (∀ row ∈ scenarioRows a, GET_BRG k row.bridgeCond = DONTCARE) ∨
    (∀ row ∈ scenarioRows a, GET_BRG k row.bridgeCond ≠ DONTCARE) := by
  cases a <;> fin_cases k <;> decide

theorem matchedRow_mem (s : State) (r : Reading) (row : DOOR_SS_STAT) (p : CheckPtr)
    (h : matchedRow s r = some row) (hp : s.ssCur = some p) :
    row ∈ scenarioRows p.arr := by
  unfold matchedRow at h
  split_ifs at h
  obtain h1 | ⟨cur, h1⟩ := Option.eq_none_or_eq_some s.cur
  · simp [h1] at h
  · obtain h2 | ⟨dss, h2⟩ := Option.eq_none_or_eq_some cur.ss
    · simp [h1, h2] at h
    · simp only [h1, h2] at h
      have hmem := List.mem_of_find?_eq_some h
      have hder : p.deref = some cur := by simpa [State.cur, hp] using h1
      have hcur : cur ∈ checkArray p.arr := List.getElem?_mem hder
      unfold scenarioRows
      rw [List.mem_flatten]
      exact ⟨rowsBeforeEnd dss, List.mem_map.2 ⟨cur, hcur, by simp [h2]⟩, hmem⟩

/-- A call that does not arm a run leaves the position in its check array. -/
theorem step_ssCur (s s' : State) (r : Reading) (h : s.wf = true)
    (hs : step s r = some s') :
    arms s r = true ∨ s'.ssCur = s.ssCur ∨
      ∃ p, s.ssCur = some p ∧ s'.ssCur = some p.next := by
  cases hcs : s.cdc_state
  · -- CDC_IDLE
    have hsw : switchBody s r = caseIdle s r := by unfold switchBody; rw [hcs]
    rcases caseIdle_cases s r with ⟨a, h1⟩ | h1 | h1 <;>
      (have hs2 := step_of_switchBody (hsw.trans h1)
       rw [hs2] at hs; cases hs
       simp [arms, hcs, hs2])
  · -- CDC_ARM_TEST
    have hsw : switchBody s r = caseArmTest s r := by unfold switchBody; rw [hcs]
    obtain ⟨p, cur, dss, _, _, _, heq⟩ := caseArmTest_wf s r h hcs
    by_cases hc : cancelled s r = true
    · rw [heq, if_pos hc] at hsw
      rw [step_of_switchBody hsw] at hs; cases hs; simp
    · rw [heq, if_neg hc] at hsw
      rw [step_of_switchBody hsw] at hs; cases hs; simp
  · -- CDC_ARM_WAIT
    have hsw : switchBody s r = caseArmWait s r := by unfold switchBody; rw [hcs]
    unfold caseArmWait at hsw
    split_ifs at hsw <;> (rw [step_of_switchBody hsw] at hs; cases hs; simp)
  · -- CDC_ARM_CHECK
    cases hc : cancelled s r
    · obtain ⟨p, cur, dss, e, t, h1, _, _, _, ht, _, hcur, _⟩ := step_armCheck s r h hcs hc
      rw [hs] at ht
      cases ht
      exact Or.inr (Or.inr ⟨p, h1, hcur⟩)
    · have heq := step_cancelled (by rw [hcs]; rfl) hc hs
      rw [heq]
      simp
  · -- CDC_ARM_ERROR_DETECTED
    have hsw : switchBody s r = some (caseArmErrorDetected s) := by
      unfold switchBody; rw [hcs]
    rw [step_of_switchBody hsw] at hs; cases hs
    simp [caseArmErrorDetected]
  · -- CDC_ARM_RETRY_WAIT
    have hsw : switchBody s r = some (caseArmRetryWait s r) := by
      unfold switchBody; rw [hcs]
    unfold caseArmRetryWait at hsw
    split_ifs at hsw <;> (rw [step_of_switchBody hsw] at hs; cases hs; simp)
  · -- CDC_ARM_TEST_PASSED
    have hsw : switchBody s r = some (caseArmTestPassed s) := by
      unfold switchBody; rw [hcs]
    rw [step_of_switchBody hsw] at hs; cases hs
    simp [caseArmTestPassed]
  · -- CDC_ABORT
    have hsw : switchBody s r = caseIdle (abortPart s) r := by unfold switchBody; rw [hcs]
    rcases caseIdle_cases (abortPart s) r with ⟨a, h1⟩ | h1 | h1 <;>
      (have hs2 := step_of_switchBody (hsw.trans h1)
       rw [hs2] at hs; cases hs
       simp [arms, hcs, hs2, abortPart])
  · -- CDC_END
    have hsw : switchBody s r = some s := by unfold switchBody; rw [hcs]
    rw [step_of_switchBody hsw] at hs; cases hs
    simp

/-- The rows matched since the run in progress was armed all belong to the
check array the position is in. -/
theorem matchedRows_scenario (rs : List Reading) (s0 s : State) (h0 h : List DOOR_SS_STAT)
    (hwf : s0.wf = true)
    (hin : h0 = [] ∨ ∃ p, s0.ssCur = some p ∧ ∀ row ∈ h0, row ∈ scenarioRows p.arr)
    (hrun : matchedRows s0 h0 rs = some (s, h)) :
    h = [] ∨ ∃ p, s.ssCur = some p ∧ ∀ row ∈ h, row ∈ scenarioRows p.arr := by
  induction rs generalizing s0 h0 with
  | nil =>
    simp only [matchedRows, Option.some.injEq, Prod.mk.injEq] at hrun
    obtain ⟨rfl, rfl⟩ := hrun
    exact hin
  | cons r rs ih =>
    obtain ⟨s1, hs1, hwf1⟩ := step_wf s0 r hwf
    simp only [matchedRows, hs1] at hrun
    refine ih s1 _ hwf1 ?_ hrun
    by_cases ha : arms s0 r = true
    · left; simp [ha]
    · simp only [ha, Bool.false_eq_true, if_false]
      have hcur := (step_ssCur s0 s1 r hwf hs1).resolve_left ha
      -- the position stays in the array of `s0.ssCur`
      have harr : ∀ p, s0.ssCur = some p → ∃ q, s1.ssCur = some q ∧ q.arr = p.arr := by
        intro p hp
        rcases hcur with h1 | ⟨q, h1, h2⟩
        · exact ⟨p, h1.trans hp, rfl⟩
        · rw [hp] at h1
          cases h1
          exact ⟨p.next, h2, rfl⟩
      obtain hm | ⟨x, hm⟩ := Option.eq_none_or_eq_some (matchedRow s0 r)
      · rw [hm]
        simp only [Option.toList_none, List.append_nil]
        rcases hin with h1 | ⟨p, hp, hrows⟩
        · exact Or.inl h1
        · obtain ⟨q, hq, hqa⟩ := harr p hp
          exact Or.inr ⟨q, hq, by rw [hqa]; exact hrows⟩
      · right
        obtain h3 | ⟨p, hp⟩ := Option.eq_none_or_eq_some s0.ssCur
        · simp [matchedRow, State.cur, h3] at hm
        · obtain ⟨q, hq, hqa⟩ := harr p hp
          refine ⟨q, hq, ?_⟩
          rw [hqa, hm]
          intro row hrow
          rcases List.mem_append.1 hrow with hrow | hrow
          · rcases hin with h1 | ⟨p2, hp2, hrows⟩
            · rw [h1] at hrow; simp at hrow
            · rw [hp] at hp2
              cases hp2
              exact hrows row hrow
          · simp only [Option.toList_some, List.mem_singleton] at hrow
            rw [hrow]
            exact matchedRow_mem s0 r x p hm hp

/-- C6 (convergence of a point).  Every sequence of calls from the initial
state returns, and its aggregate is the fold, into the aggregate of a freshly
armed run, of the rows `h` matched since the run in progress was armed.  For
each of the ten points: if at least one folded row has `DONTCARE` at the point
the aggregate holds `DONTCARE` there; and when rows were folded and all report
the same value `_ON` or `_FF` at the point, the aggregate holds that value. -/
theorem C6_point_convergence (rs : List Reading) :
    ∃ s h, matchedRows State.init [] rs = some (s, h) ∧ run rs = some s ∧
      s.Cond = foldRows h ∧
      ∀ k : Fin 10,
        ((∃ row ∈ h, GET_BRG k row.bridgeCond = DONTCARE) →
          GET_BRG k s.Cond = DONTCARE) ∧
        (∀ v, (v = _ON ∨ v = _FF) → h ≠ [] →
          (∀ row ∈ h, GET_BRG k row.bridgeCond = v) → GET_BRG k s.Cond = v) := by
  obtain ⟨s, h, hrun⟩ := matchedRows_total rs State.init [] wf_init
  obtain ⟨_, hC, hr⟩ := matchedRows_Cond rs State.init s [] h wf_init rfl hrun
  have hok := matchedRows_ok rs State.init s [] h (by simp) hrun
  have hsc := matchedRows_scenario rs State.init s [] h wf_init (Or.inl rfl) hrun
  refine ⟨s, h, hrun, hr, hC, fun k => ?_⟩
  rcases List.eq_nil_or_concat h with hnil | ⟨rows, last, hcat⟩
  · subst hnil
    exact ⟨fun hex => by simp at hex, fun v _ hne _ => absurd rfl hne⟩
  · have hvals : ∀ x ∈ rows.map (fun row => row.bridgeCond) ++ [last.bridgeCond],
        GET_BRG k x = _ON ∨ GET_BRG k x = _FF ∨ GET_BRG k x = DONTCARE := by
      intro x hx
      have hx2 : ∃ row ∈ h, row.bridgeCond = x := by
        rw [hcat]
        rcases List.mem_append.1 hx with hx | hx
        · obtain ⟨row, hrow, rfl⟩ := List.mem_map.1 hx
          exact ⟨row, by simp [hrow], rfl⟩
        · simp only [List.mem_singleton] at hx
          exact ⟨last, by simp, hx.symm⟩
      obtain ⟨row, hrow, rfl⟩ := hx2
      have hle := rowValuesOK_le row (hok row hrow) k
      generalize GET_BRG k row.bridgeCond = v at hle
      interval_cases v
      · right; left; rfl
      · left; rfl
      · right; right; rfl
    have hfold : s.Cond
        = List.foldl foldCond 0x55555555
            (rows.map (fun row => row.bridgeCond) ++ [last.bridgeCond]) := by
      rw [hC, foldRows_eq, hcat]
      simp
    obtain ⟨hdc, hsame, _⟩ :=
      foldl_point_convergence k (rows.map (fun row => row.bridgeCond)) last.bridgeCond hvals
    rw [hfold]
    refine ⟨?_, ?_⟩
    · rintro ⟨row, hrow, hrdc⟩
      refine hdc.2 ?_
      rcases hsc with hnil | ⟨p, _, hrows⟩
      · rw [hnil] at hrow; simp at hrow
      · rcases scenarioRows_uniform p.arr k with hall | hnone
        · exact hall last (hrows last (by rw [hcat]; simp))
        · exact absurd hrdc (hnone row (hrows row hrow))
    · intro v hv _ hall
      refine hsame v hv ?_
      intro x hx
      rcases List.mem_append.1 hx with hx | hx
      · obtain ⟨row, hrow, rfl⟩ := List.mem_map.1 hx
        exact hall row (by rw [hcat]; simp [hrow])
      · simp only [List.mem_singleton] at hx
        rw [hx]
        exact hall last (by rw [hcat]; simp)

/-- C6 at `twoRowRun`: the two folded rows both have `DONTCARE` at point 4 and
`_FF` at point 2, and the aggregate holds `DONTCARE` at point 4 and `_FF` at
point 2. -/
theorem C6_point_convergence_witness :
    (matchedRows State.init [] twoRowRun).map (fun x => x.2.length) = some 2 ∧
    (matchedRows State.init [] twoRowRun).map
        (fun x => x.2.map (fun row => GET_BRG 3 row.bridgeCond))
      = some [DONTCARE, DONTCARE] ∧
    (matchedRows State.init [] twoRowRun).map
        (fun x => x.2.map (fun row => GET_BRG 1 row.bridgeCond))
      = some [_FF, _FF] ∧
    (run twoRowRun).map (fun s => GET_BRG 3 s.Cond) = some DONTCARE ∧
    (run twoRowRun).map (fun s => GET_BRG 1 s.Cond) = some _FF := by
  obtain ⟨s, h, hrun, hr, _, hk⟩ := C6_point_convergence twoRowRun
  have hh : (matchedRows State.init [] twoRowRun).map (fun x => x.2) = some h := by
    rw [hrun]; rfl
  have hrows : (matchedRows State.init [] twoRowRun).map (fun x => x.2)
      = some [⟨SS_COND _FF _XX _ON _XX, BRG_COND _FF _FF _ON _XX _XX _XX _XX _XX _XX _XX⟩,
          ⟨SS_COND _ON _XX _FF _XX, BRG_COND _ON _FF _FF _XX _XX _XX _XX _XX _XX _XX⟩] := by
    decide
  have hheq := Option.some.inj (hh.symm.trans hrows)
  have h4 := (hk 3).1 ⟨_, by rw [hheq]; exact List.mem_cons_self _ _, by decide⟩
  have h2 := (hk 1).2 _FF (Or.inr rfl) (by rw [hheq]; simp)
    (by rw [hheq]; decide)
  refine ⟨by decide, by decide, by decide, ?_, ?_⟩
  · rw [hr]; exact congrArg some h4
  · rw [hr]; exact congrArg some h2

end SafeMonDoor
